import Mathlib

/-!
# Toshiba infrared climate codec

A shallow embedding of `esphome/components/toshiba/toshiba.cpp`.

* Bytes (`uint8_t`) are natural numbers; every store that can exceed eight bits
  is reduced `% 256` explicitly.
* The frame buffer `uint8_t frame[TOSHIBA_FRAME_MAX_LENGTH]` is a `List Nat`;
  every access goes through a bounds check and an access outside the buffer
  (undefined behaviour in C++) makes the operation return `none`.
* The object fields read and written by the methods are the record
  `ToshibaClimate`; calls of `publish_state()` and the transmissions handed to
  the transmitter are returned next to the new record.
* The file-scope variables `toshiba_motion_swing_*`, the header constants
  `TOSHIBA_TEMP_MIN` / `TOSHIBA_TEMP_MAX`, the log level and the timing
  tolerance of the receiver are the fields of `Env`.
-/

namespace Toshiba

/-! ## Constants (toshiba.cpp, lines 7-50) -/

def TOSHIBA_FRAME_MAX_LENGTH : Nat := 14
def TOSHIBA_FRAME_LENGTH_NO_DATA : Nat := 6

def TOSHIBA_HEADER_MARK : Nat := 4380
def TOSHIBA_HEADER_SPACE : Nat := 4370
def TOSHIBA_GAP_SPACE : Nat := 5480
def TOSHIBA_BIT_MARK : Nat := 540
def TOSHIBA_ZERO_SPACE : Nat := 540
def TOSHIBA_ONE_SPACE : Nat := 1620

def TOSHIBA_COMMAND_DEFAULT : Nat := 0x01
def TOSHIBA_COMMAND_TIMER : Nat := 0x03
def TOSHIBA_COMMAND_POWER : Nat := 0x09
def TOSHIBA_COMMAND_COMFORT_SLEEP : Nat := 0x0b
def TOSHIBA_COMMAND_MOTION : Nat := 0x21

def TOSHIBA_MODE_AUTO : Nat := 0x00
def TOSHIBA_MODE_COOL : Nat := 0x01
def TOSHIBA_MODE_DRY : Nat := 0x02
def TOSHIBA_MODE_HEAT : Nat := 0x03
def TOSHIBA_MODE_FAN_ONLY : Nat := 0x04
def TOSHIBA_MODE_OFF : Nat := 0x07

def TOSHIBA_FAN_SPEED_AUTO : Nat := 0x00
def TOSHIBA_FAN_SPEED_QUIET : Nat := 0x20
def TOSHIBA_FAN_SPEED_1 : Nat := 0x40
def TOSHIBA_FAN_SPEED_2 : Nat := 0x60
def TOSHIBA_FAN_SPEED_3 : Nat := 0x80
def TOSHIBA_FAN_SPEED_4 : Nat := 0xa0
def TOSHIBA_FAN_SPEED_5 : Nat := 0xc0

/-! ## Types of the climate framework used by the component -/

/-- Modelled from the spec: the operating modes of the thermostat state, under
the names the source uses for them (`climate::CLIMATE_MODE_*`). The source
names off, heat, cool, fan-only, dry and auto; `CLIMATE_MODE_HEAT_COOL` stands
for a value of the enumeration the source does not name, which takes the
`default` branch of a `switch`. -/
inductive ClimateMode where
  | CLIMATE_MODE_OFF
  | CLIMATE_MODE_HEAT_COOL
  | CLIMATE_MODE_COOL
  | CLIMATE_MODE_HEAT
  | CLIMATE_MODE_FAN_ONLY
  | CLIMATE_MODE_DRY
  | CLIMATE_MODE_AUTO
  deriving DecidableEq, Repr

/-- Modelled from the spec: the fan speeds of the thermostat state, under the
names the source uses for them (`climate::CLIMATE_FAN_*`). The source names
auto, focus, low, middle, medium, diffuse and high; `CLIMATE_FAN_ON`,
`CLIMATE_FAN_OFF` and `CLIMATE_FAN_QUIET` stand for values of the enumeration
the source does not name, which take the `default` branch of a `switch`. -/
inductive ClimateFanMode where
  | CLIMATE_FAN_ON
  | CLIMATE_FAN_OFF
  | CLIMATE_FAN_AUTO
  | CLIMATE_FAN_LOW
  | CLIMATE_FAN_MEDIUM
  | CLIMATE_FAN_HIGH
  | CLIMATE_FAN_MIDDLE
  | CLIMATE_FAN_FOCUS
  | CLIMATE_FAN_DIFFUSE
  | CLIMATE_FAN_QUIET
  deriving DecidableEq, Repr

/-- Modelled from the spec: the swing modes of the thermostat state, under the
names the source uses for them (`climate::CLIMATE_SWING_*`): off, both,
vertical and horizontal. `CLIMATE_SWING_UNNAMED` stands for a value of the
enumeration type that is none of the four, which takes the `default` branch
of a `switch`. -/
inductive ClimateSwingMode where
  | CLIMATE_SWING_OFF
  | CLIMATE_SWING_BOTH
  | CLIMATE_SWING_VERTICAL
  | CLIMATE_SWING_HORIZONTAL
  | CLIMATE_SWING_UNNAMED
  deriving DecidableEq, Repr

open ClimateMode ClimateFanMode ClimateSwingMode

/-- One entry of the timing data of the remote transmitter or receiver: the
carrier is on (`mark`) or off (`space`) for `length` microseconds. -/
inductive Pulse where
  | mark (length : Nat)
  | space (length : Nat)
  deriving DecidableEq, Repr

/-- What `transmit.perform()` sends: the carrier frequency set with
`set_carrier_frequency` and the durations appended with `mark` and `space`. -/
structure Transmission where
  carrier_frequency : Nat
  data : List Pulse
  deriving DecidableEq, Repr

/-- The fields of `ToshibaClimate` the component reads and writes: the outward
state of the climate entity and the `current_*_` snapshot of what was last
transmitted. `target_temperature` is a `float` in the source; the embedding
carries whole degrees. -/
structure ToshibaClimate where
  mode : ClimateMode
  fan_mode : ClimateFanMode
  target_temperature : Int
  swing_mode : ClimateSwingMode
  current_mode_ : ClimateMode
  current_fan_mode_ : ClimateFanMode
  current_temperature_ : Nat
  current_swing_mode_ : ClimateSwingMode
  deriving DecidableEq, Repr

/-- What the source takes from outside the function bodies.

* `TOSHIBA_TEMP_MIN`, `TOSHIBA_TEMP_MAX`: constants of `toshiba.h`.
* `toshiba_motion_swing_*`: the file-scope variables of lines 52-57, which
  `setup()` may overwrite.
* `esp_logd`: whether the `ESP_LOGD` statement evaluates its arguments (it
  does when the debug log level is compiled in).
* `expect_match expected observed`: whether the receiver accepts an observed
  duration for an expected one (its timing tolerance). -/
structure Env where
  TOSHIBA_TEMP_MIN : Nat
  TOSHIBA_TEMP_MAX : Nat
  toshiba_motion_swing_vertical : Nat
  toshiba_motion_swing_off : Nat
  toshiba_motion_swing_both : Nat
  toshiba_motion_swing_horizontal : Nat
  esp_logd : Bool
  expect_match : Nat → Nat → Bool

/-! ## The frame buffer -/

/-- The store `frame[i] = v` into the buffer; `none` outside the buffer. -/
def wr (frame : List Nat) (i v : Nat) : Option (List Nat) :=
  if i < frame.length then some (frame.set i v) else none

/-- The function `log_frame` (lines 61-81). It produces log text only; the
embedding keeps what can make it fail: the loop reads `frame[idx]` for every
`idx < frame_length`, and when `ESP_LOGD` evaluates its arguments each
`substr(pos, n)` call needs `pos` to be at most the length `frame_length * 2`
of the hexadecimal text (it throws `std::out_of_range` otherwise). -/
def log_frame (env : Env) (frame : List Nat) : Option Unit := do
  let d ← frame[2]?
  let frame_length := (TOSHIBA_FRAME_LENGTH_NO_DATA + d) % 256
  if frame_length ≤ frame.length then
    if env.esp_logd then
      if 4 ≤ frame_length * 2 ∧ 6 ≤ frame_length * 2 ∧ 8 ≤ frame_length * 2 ∧
          10 ≤ frame_length * 2 ∧ d * 2 + 10 ≤ frame_length * 2 then
        some ()
      else none
    else some ()
  else none

/-! ## Command builders (lines 93-200) -/

/-- Modelled from the spec: the framework helper `clamp(val, min, max)`, which
brings the requested target into the range `[min, max]`. -/
def clamp (val min max : Int) : Int :=
  if val < min then min else if max < val then max else val

/-- The conversion `static_cast<uint8_t>` of a whole number of degrees: the
value itself in the range 0 to 255. Outside that range the conversion from
`float` is undefined in C++; the embedding keeps the low eight bits there. -/
def static_cast_uint8 (x : Int) : Nat := (x % 256).toNat

/-- The method `add_default_command_data_` (lines 93-171). -/
def add_default_command_data_ (env : Env) (self : ToshibaClimate) (frame : List Nat) :
    Option (List Nat) := do
  /- Data Length -/
  let frame ← wr frame 2 0x03
  /- Command -/
  let frame ← wr frame 4 TOSHIBA_COMMAND_DEFAULT
  /- Mode -/
  let mode : Nat :=
    match self.mode with
    | CLIMATE_MODE_OFF => TOSHIBA_MODE_OFF
    | CLIMATE_MODE_HEAT => TOSHIBA_MODE_HEAT
    | CLIMATE_MODE_COOL => TOSHIBA_MODE_COOL
    | CLIMATE_MODE_FAN_ONLY => TOSHIBA_MODE_FAN_ONLY
    | CLIMATE_MODE_DRY => TOSHIBA_MODE_DRY
    | _ => TOSHIBA_MODE_AUTO
  let frame ← wr frame 6 ((← frame[6]?) ||| mode)
  /- Temperature -/
  let temperature : Nat :=
    if mode = TOSHIBA_MODE_FAN_ONLY then 22
    else static_cast_uint8 (clamp self.target_temperature env.TOSHIBA_TEMP_MIN env.TOSHIBA_TEMP_MAX)
  let frame ← wr frame 5 ((((temperature : Int) - (env.TOSHIBA_TEMP_MIN : Int)) * 2 ^ 4) % 256).toNat
  /- Fan speed -/
  let fan_mode : Nat :=
    match self.fan_mode with
    | CLIMATE_FAN_FOCUS => TOSHIBA_FAN_SPEED_QUIET
    | CLIMATE_FAN_LOW => TOSHIBA_FAN_SPEED_1
    | CLIMATE_FAN_MIDDLE => TOSHIBA_FAN_SPEED_2
    | CLIMATE_FAN_MEDIUM => TOSHIBA_FAN_SPEED_3
    | CLIMATE_FAN_DIFFUSE => TOSHIBA_FAN_SPEED_4
    | CLIMATE_FAN_HIGH => TOSHIBA_FAN_SPEED_5
    | _ => TOSHIBA_FAN_SPEED_AUTO
  wr frame 6 ((← frame[6]?) ||| fan_mode)

/-- The method `add_motion_command_data_` (lines 173-200). -/
def add_motion_command_data_ (env : Env) (self : ToshibaClimate) (frame : List Nat) :
    Option (List Nat) := do
  /- Data length -/
  let frame ← wr frame 2 0x01
  /- Command -/
  let frame ← wr frame 4 TOSHIBA_COMMAND_MOTION
  /- Swing mode -/
  let swing_mode : Nat :=
    match self.swing_mode with
    | CLIMATE_SWING_BOTH => env.toshiba_motion_swing_both
    | CLIMATE_SWING_HORIZONTAL => env.toshiba_motion_swing_horizontal
    | CLIMATE_SWING_OFF => env.toshiba_motion_swing_off
    | _ => env.toshiba_motion_swing_vertical
  wr frame 5 swing_mode

/-! ## Transmission of one frame (lines 202-242) -/

/-- One pass of the loop body `frame[frame_length - 1] ^= frame[i]`. -/
def xor_into_last (frame_length : Nat) (frame : List Nat) (i : Nat) : Option (List Nat) := do
  let last ← frame[frame_length - 1]?
  let x ← frame[i]?
  wr frame (frame_length - 1) (last ^^^ x)

/-- The inner loop of lines 229-236 for a byte value `b`, with `n` passes
left: it runs for `bit = 8 - n, ..., 7`. -/
def transmit_bits (b : Nat) : Nat → List Pulse
  | 0 => []
  | n + 1 =>
    let bit := 8 - (n + 1)
    Pulse.mark TOSHIBA_BIT_MARK ::
      (if b &&& (1 <<< (7 - bit)) ≠ 0 then Pulse.space TOSHIBA_ONE_SPACE
        else Pulse.space TOSHIBA_ZERO_SPACE) ::
      transmit_bits b n

/-- The loop of lines 228-237 with `n` passes left: it runs for
`byte = frame_length - n, ..., frame_length - 1`. -/
def transmit_bytes (frame : List Nat) (frame_length : Nat) : Nat → Option (List Pulse)
  | 0 => some []
  | n + 1 => do
    let b ← frame[frame_length - (n + 1)]?
    let rest ← transmit_bytes frame frame_length n
    some (transmit_bits b 8 ++ rest)

/-- One pass of the loop of lines 224-240: one copy of the frame. -/
def transmit_copy (frame : List Nat) (frame_length : Nat) : Option (List Pulse) := do
  let bytes ← transmit_bytes frame frame_length frame_length
  some ([Pulse.mark TOSHIBA_HEADER_MARK, Pulse.space TOSHIBA_HEADER_SPACE] ++ bytes ++
    [Pulse.mark TOSHIBA_BIT_MARK, Pulse.space TOSHIBA_GAP_SPACE])

/-- The method `transmit_frame_` (lines 202-242): the buffer as the method
leaves it and the transmission it performs. The index `frame_length - 1` is
computed in `int`, so it is `-1`, outside the buffer, when `frame_length`
is 0. -/
def transmit_frame_ (env : Env) (frame : List Nat) : Option (List Nat × Transmission) := do
  let frame_length := (TOSHIBA_FRAME_LENGTH_NO_DATA + (← frame[2]?)) % 256
  /- Header -/
  let frame ← wr frame 0 0xf2
  let frame ← wr frame 1 0x0d
  /- First checksum -/
  let frame ← wr frame 3 ((← frame[0]?) ^^^ (← frame[1]?) ^^^ (← frame[2]?))
  /- Second checksum starts at pos 4 to (N-1) -/
  if frame_length = 0 then none
  else
    let frame ← wr frame (frame_length - 1) 0
    let frame ← (List.range' 4 (frame_length - 1 - 4)).foldlM (xor_into_last frame_length) frame
    log_frame env frame
    /- Transmit; the frame is sent twice -/
    let copy0 ← transmit_copy frame frame_length
    let copy1 ← transmit_copy frame frame_length
    some (frame, { carrier_frequency := 38000, data := copy0 ++ copy1 })

/-! ## The state diff controller (lines 244-270) -/

/-- What one call of `transmit_state` leaves: the object, the transmissions
performed in order, and the number of `publish_state()` calls. -/
structure TransmitResult where
  self : ToshibaClimate
  transmitted : List Transmission
  published : Nat
  deriving DecidableEq, Repr

/-- The method `transmit_state` (lines 244-270). -/
def transmit_state (env : Env) (self : ToshibaClimate) : Option TransmitResult := do
  let (self, transmitted, published) ←
    if self.current_mode_ ≠ self.mode ∨ self.current_fan_mode_ ≠ self.fan_mode ∨
        self.current_temperature_ ≠ static_cast_uint8 self.target_temperature then do
      let frame ← add_default_command_data_ env self (List.replicate TOSHIBA_FRAME_MAX_LENGTH 0)
      let (_, transmit) ← transmit_frame_ env frame
      /- Toshiba swing mode is vertical when changing from off to any other state -/
      if self.current_mode_ = CLIMATE_MODE_OFF then
        pure ({ self with swing_mode := CLIMATE_SWING_VERTICAL }, [transmit], 1)
      else pure (self, [transmit], 0)
    else pure (self, [], 0)
  let transmitted ←
    if self.current_swing_mode_ ≠ self.swing_mode then do
      let frame ← add_motion_command_data_ env self (List.replicate TOSHIBA_FRAME_MAX_LENGTH 0)
      let (_, transmit) ← transmit_frame_ env frame
      pure (transmitted ++ [transmit])
    else pure transmitted
  some {
    self := { self with
      current_fan_mode_ := self.fan_mode
      current_swing_mode_ := self.swing_mode
      current_mode_ := self.mode
      current_temperature_ := static_cast_uint8 self.target_temperature }
    transmitted := transmitted
    published := published }

/-! ## Reception (lines 272-397) -/

/-- Modelled from the spec: the receiver primitive
`RemoteReceiveData::expect_item(mark, space)`, "does the next captured pulse
match this expected (mark, space) pair?". On a match the two entries are
consumed and the rest of the capture is returned; otherwise nothing is
consumed and the answer is `none`. -/
def expect_item (env : Env) (mark space : Nat) (data : List Pulse) : Option (List Pulse) :=
  match data with
  | Pulse.mark m :: Pulse.space s :: rest =>
    if env.expect_match mark m && env.expect_match space s then some rest else none
  | _ => none

/-- The `return` statements of `on_receive`. -/
inductive ReturnSite where
  /-- Line 278: the header mark and space did not match. -/
  | header_mismatch
  /-- Line 289: a bit was neither a one nor a zero. -/
  | bit_mismatch
  /-- Line 297: the first checksum did not match. -/
  | checksum_1_mismatch
  /-- Line 311: the second checksum did not match. -/
  | checksum_2_mismatch
  /-- Line 396: the frame was accepted. -/
  | accepted
  deriving DecidableEq, Repr

/-- What one call of `on_receive` leaves: the returned value, the `return`
statement that produced it, the part of the capture not yet consumed at that
point, the object, and the number of `publish_state()` calls. -/
structure ReceiveResult where
  returned : Bool
  site : ReturnSite
  data : List Pulse
  self : ToshibaClimate
  published : Nat
  deriving DecidableEq, Repr

/-- How a loop of `on_receive` ends: it runs to its end (`next`), it leaves
the function with `return false` (`ret_false`), or it accesses the frame
buffer outside its bounds (`fault`). -/
inductive Flow (α : Type) where
  | next (a : α)
  | ret_false (site : ReturnSite) (data : List Pulse)
  | fault

/-- The inner loop of lines 283-291 for the byte at index `byte`, with `n`
passes left: it runs for `bit = 8 - n, ..., 7`. -/
def receive_bits (env : Env) (byte : Nat) : Nat → List Nat → List Pulse →
    Flow (List Nat × List Pulse)
  | 0, frame, data => Flow.next (frame, data)
  | n + 1, frame, data =>
    let bit := 8 - (n + 1)
    match expect_item env TOSHIBA_BIT_MARK TOSHIBA_ONE_SPACE data with
    | some data =>
      match frame[byte]? with
      | some x => receive_bits env byte n (frame.set byte (x ||| (1 <<< (7 - bit)))) data
      | none => Flow.fault
    | none =>
      match expect_item env TOSHIBA_BIT_MARK TOSHIBA_ZERO_SPACE data with
      | some data => receive_bits env byte n frame data
      | none => Flow.ret_false ReturnSite.bit_mismatch data

/-- The loop of lines 282-301 from index `byte` on. `byte` and `frame_length`
are `uint8_t`, so the body runs for `byte ≤ 254` at most and `fuel = 256` is
never used up. -/
def receive_bytes (env : Env) : Nat → Nat → Nat → List Nat → List Pulse →
    Flow (Nat × List Nat × List Pulse)
  | 0, _, frame_length, frame, data => Flow.next (frame_length, frame, data)
  | fuel + 1, byte, frame_length, frame, data =>
    if byte < frame_length then
      match receive_bits env byte 8 frame data with
      | Flow.fault => Flow.fault
      | Flow.ret_false site data => Flow.ret_false site data
      | Flow.next (frame, data) =>
        /- Update length -/
        if byte = 3 then
          match frame[0]?, frame[1]?, frame[2]?, frame[3]? with
          | some f0, some f1, some f2, some f3 =>
            /- Validate the first checksum before trusting the length field -/
            if (f0 ^^^ f1 ^^^ f2) ≠ f3 then
              Flow.ret_false ReturnSite.checksum_1_mismatch data
            else
              receive_bytes env fuel (byte + 1) ((f2 + TOSHIBA_FRAME_LENGTH_NO_DATA) % 256)
                frame data
          | _, _, _, _ => Flow.fault
        else receive_bytes env fuel (byte + 1) frame_length frame data
    else Flow.next (frame_length, frame, data)

/-- One pass of the loop body `checksum ^= frame[i]`. -/
def receive_checksum_step (frame : List Nat) (checksum i : Nat) : Option Nat := do
  some (checksum ^^^ (← frame[i]?))

/-- The loop of lines 305-308: the second checksum of a received frame. -/
def receive_checksum (frame : List Nat) (frame_length : Nat) : Option Nat :=
  (List.range' 4 (frame_length - 1 - 4)).foldlM (receive_checksum_step frame) 0

/-- Lines 316-392 of `on_receive`: the effect of an accepted frame on the
object. -/
def receive_command (env : Env) (frame : List Nat) (self : ToshibaClimate) :
    Option ToshibaClimate := do
  /- Command type -/
  if (← frame[4]?) = TOSHIBA_COMMAND_MOTION then
    /- Get the swing mode -/
    let swing_mode := (← frame[5]?) &&& 0x0f
    let swing : ClimateSwingMode :=
      if swing_mode = env.toshiba_motion_swing_both then CLIMATE_SWING_BOTH
      else if swing_mode = env.toshiba_motion_swing_vertical then CLIMATE_SWING_VERTICAL
      else if swing_mode = env.toshiba_motion_swing_horizontal then CLIMATE_SWING_HORIZONTAL
      else CLIMATE_SWING_OFF
    some { self with swing_mode := swing, current_swing_mode_ := swing }
  else if (← frame[4]?) = TOSHIBA_COMMAND_DEFAULT then
    /- Get the mode. -/
    let m := (← frame[6]?) &&& 0x0f
    let mode : ClimateMode :=
      if m = TOSHIBA_MODE_OFF then CLIMATE_MODE_OFF
      else if m = TOSHIBA_MODE_HEAT then CLIMATE_MODE_HEAT
      else if m = TOSHIBA_MODE_COOL then CLIMATE_MODE_COOL
      else if m = TOSHIBA_MODE_FAN_ONLY then CLIMATE_MODE_FAN_ONLY
      else if m = TOSHIBA_MODE_DRY then CLIMATE_MODE_DRY
      else CLIMATE_MODE_AUTO
    /- Get the fan mode -/
    let f := (← frame[6]?) &&& 0xf0
    let fan_mode : ClimateFanMode :=
      if f = TOSHIBA_FAN_SPEED_QUIET then CLIMATE_FAN_FOCUS
      else if f = TOSHIBA_FAN_SPEED_1 then CLIMATE_FAN_LOW
      else if f = TOSHIBA_FAN_SPEED_2 then CLIMATE_FAN_MIDDLE
      else if f = TOSHIBA_FAN_SPEED_3 then CLIMATE_FAN_MEDIUM
      else if f = TOSHIBA_FAN_SPEED_4 then CLIMATE_FAN_DIFFUSE
      else if f = TOSHIBA_FAN_SPEED_5 then CLIMATE_FAN_HIGH
      else CLIMATE_FAN_AUTO
    /- Get the target temperature -/
    some { self with
      mode := mode
      current_mode_ := mode
      fan_mode := fan_mode
      current_fan_mode_ := fan_mode
      target_temperature := (((← frame[5]?) >>> 4 : Nat) : Int) + (env.TOSHIBA_TEMP_MIN : Int) }
  else some self

/-- The method `on_receive` (lines 272-397). `none` stands for an access
outside the frame buffer or an exception thrown by `log_frame`. -/
def on_receive (env : Env) (self : ToshibaClimate) (data : List Pulse) : Option ReceiveResult :=
  let frame := List.replicate TOSHIBA_FRAME_MAX_LENGTH 0
  let frame_length := TOSHIBA_FRAME_LENGTH_NO_DATA
  /- Validate header -/
  match expect_item env TOSHIBA_HEADER_MARK TOSHIBA_HEADER_SPACE data with
  | none =>
    some { returned := false, site := ReturnSite.header_mismatch, data := data, self := self,
           published := 0 }
  | some data =>
    /- Decode bytes -/
    match receive_bytes env 256 0 frame_length frame data with
    | Flow.fault => none
    | Flow.ret_false site data =>
      some { returned := false, site := site, data := data, self := self, published := 0 }
    | Flow.next (frame_length, frame, data) => do
      /- Validate the second checksum before trusting any more of the frame -/
      let checksum ← receive_checksum frame frame_length
      if frame_length = 0 then none
      else if checksum ≠ (← frame[frame_length - 1]?) then
        some { returned := false, site := ReturnSite.checksum_2_mismatch, data := data,
               self := self, published := 0 }
      else
        log_frame env frame
        let self ← receive_command env frame self
        some { returned := true, site := ReturnSite.accepted, data := data, self := self,
               published := 1 }

/-! ## The wire format in the words of the specification -/

/-- One bit on the wire: a mark of 540 then a space of 1620 for a one and of
540 for a zero; `i` counts from the least significant bit. -/
def wire_bit (b i : Nat) : List Pulse :=
  [Pulse.mark 540, if b.testBit i then Pulse.space 1620 else Pulse.space 540]

/-- One byte on the wire, most significant bit first. -/
def wire_byte (b : Nat) : List Pulse :=
  [7, 6, 5, 4, 3, 2, 1, 0].flatMap (wire_bit b)

/-- One repetition of a frame: header mark 4380 and space 4370, the bytes in
order, then the closing mark 540 and the gap space 5480. -/
def wire_repetition (bytes : List Nat) : List Pulse :=
  [Pulse.mark 4380, Pulse.space 4370] ++ bytes.flatMap wire_byte ++
    [Pulse.mark 540, Pulse.space 5480]

/-- One logical transmission: two identical repetitions on a 38000 Hz
carrier. -/
def wire_transmission (bytes : List Nat) : Transmission :=
  { carrier_frequency := 38000, data := wire_repetition bytes ++ wire_repetition bytes }

/-- The exact receiver: a duration is accepted for itself only. -/
def exact_match (expected observed : Nat) : Bool := expected == observed

/-- The environment of the generic model: temperatures from 17 to 30 degrees,
the swing codes as initialised at lines 52-57, no debug log output, exact
timing. -/
def generic_env : Env :=
  { TOSHIBA_TEMP_MIN := 17
    TOSHIBA_TEMP_MAX := 30
    toshiba_motion_swing_vertical := 0x01
    toshiba_motion_swing_off := 0x02
    toshiba_motion_swing_both := 0xff
    toshiba_motion_swing_horizontal := 0x05
    esp_logd := false
    expect_match := exact_match }

/-! ## Notions used to state the properties -/

/-- The second checksum of a frame with `d` payload bytes: the exclusive or
of the command byte and the payload, `frame[4 .. 4 + d]`. -/
def checksum_2 (frame : List Nat) (d : Nat) : Nat :=
  ((frame.drop 4).take (d + 1)).foldl (· ^^^ ·) 0

/-- The buffer as finalisation leaves it, written out: the header bytes, the
first checksum at offset 3 and the second checksum at offset `5 + d`. -/
def finalized (frame : List Nat) (d : Nat) : List Nat :=
  (((frame.set 0 0xf2).set 1 0x0d).set 3 (0xf2 ^^^ 0x0d ^^^ d)).set (5 + d) (checksum_2 frame d)

/-- The receiver accepts each nominal duration of the protocol for itself and
does not take a zero space for a one space. -/
structure ReceiverOk (env : Env) : Prop where
  header_mark : env.expect_match TOSHIBA_HEADER_MARK TOSHIBA_HEADER_MARK = true
  header_space : env.expect_match TOSHIBA_HEADER_SPACE TOSHIBA_HEADER_SPACE = true
  bit_mark : env.expect_match TOSHIBA_BIT_MARK TOSHIBA_BIT_MARK = true
  one_space : env.expect_match TOSHIBA_ONE_SPACE TOSHIBA_ONE_SPACE = true
  zero_space : env.expect_match TOSHIBA_ZERO_SPACE TOSHIBA_ZERO_SPACE = true
  one_not_zero : env.expect_match TOSHIBA_ONE_SPACE TOSHIBA_ZERO_SPACE = false

/-- The header check of the specification: the first checksum matches. -/
def validate_header (bytes : List Nat) : Bool :=
  (bytes.getD 0 0 ^^^ bytes.getD 1 0 ^^^ bytes.getD 2 0) == bytes.getD 3 0

/-- The payload check of the specification for a frame of `bytes.length`
bytes: the exclusive or over offsets 4 to `bytes.length - 2` matches the last
byte. -/
def validate_payload (bytes : List Nat) : Bool :=
  checksum_2 bytes (bytes.length - 6) == bytes.getD (bytes.length - 1) 0

/-- A frame as it travels on the wire: `6 + d` bytes, of which the byte at
offset 2 is the data length `d`, at most 8. -/
structure WireFrame (bytes : List Nat) (d : Nat) : Prop where
  length_eq : bytes.length = 6 + d
  data_length : bytes[2]? = some d
  le_max : d ≤ 8
  byte_lt : ∀ b ∈ bytes, b < 256

/-- The mode code of the default command: off 7, heat 3, cool 1, fan-only 4,
dry 2, anything else 0 (auto). -/
def mode_code : ClimateMode → Nat
  | CLIMATE_MODE_OFF => 7
  | CLIMATE_MODE_HEAT => 3
  | CLIMATE_MODE_COOL => 1
  | CLIMATE_MODE_FAN_ONLY => 4
  | CLIMATE_MODE_DRY => 2
  | _ => 0

/-- The fan code of the default command: quiet 0x20 (sent for the focus fan
mode), speeds 1 to 5 0x40, 0x60, 0x80, 0xA0, 0xC0, anything else 0x00
(auto). -/
def fan_code : ClimateFanMode → Nat
  | CLIMATE_FAN_FOCUS => 0x20
  | CLIMATE_FAN_LOW => 0x40
  | CLIMATE_FAN_MIDDLE => 0x60
  | CLIMATE_FAN_MEDIUM => 0x80
  | CLIMATE_FAN_DIFFUSE => 0xa0
  | CLIMATE_FAN_HIGH => 0xc0
  | _ => 0x00

/-- The temperature the default command encodes: 22 in fan-only mode, the
target clamped to the range of the device otherwise. -/
def encoded_temperature (env : Env) (self : ToshibaClimate) : Int :=
  if self.mode = CLIMATE_MODE_FAN_ONLY then 22
  else clamp self.target_temperature env.TOSHIBA_TEMP_MIN env.TOSHIBA_TEMP_MAX

/-- The byte `(temperature - TEMP_MIN) << 4` of the default command. -/
def temperature_byte (env : Env) (self : ToshibaClimate) : Nat :=
  (((encoded_temperature env self - (env.TOSHIBA_TEMP_MIN : Int)) * 16) % 256).toNat

/-- The mode a received mode nibble stands for: 7 off, 3 heat, 1 cool,
4 fan-only, 2 dry, anything else auto. -/
def mode_of_code (m : Nat) : ClimateMode :=
  if m = 7 then CLIMATE_MODE_OFF
  else if m = 3 then CLIMATE_MODE_HEAT
  else if m = 1 then CLIMATE_MODE_COOL
  else if m = 4 then CLIMATE_MODE_FAN_ONLY
  else if m = 2 then CLIMATE_MODE_DRY
  else CLIMATE_MODE_AUTO

/-- The fan mode a received fan nibble stands for: 0x20 quiet (reported as the
focus fan mode), 0x40 to 0xC0 the speeds 1 to 5, anything else auto. -/
def fan_of_code (f : Nat) : ClimateFanMode :=
  if f = 0x20 then CLIMATE_FAN_FOCUS
  else if f = 0x40 then CLIMATE_FAN_LOW
  else if f = 0x60 then CLIMATE_FAN_MIDDLE
  else if f = 0x80 then CLIMATE_FAN_MEDIUM
  else if f = 0xa0 then CLIMATE_FAN_DIFFUSE
  else if f = 0xc0 then CLIMATE_FAN_HIGH
  else CLIMATE_FAN_AUTO

/-- The state (cool, high, 22 degrees) with an all-off snapshot. -/
def cool_high_22 : ToshibaClimate :=
  { mode := CLIMATE_MODE_COOL
    fan_mode := CLIMATE_FAN_HIGH
    target_temperature := 22
    swing_mode := CLIMATE_SWING_OFF
    current_mode_ := CLIMATE_MODE_OFF
    current_fan_mode_ := CLIMATE_FAN_AUTO
    current_temperature_ := 0
    current_swing_mode_ := CLIMATE_SWING_OFF }

/-- A receiving object that is off. -/
def receiver_off : ToshibaClimate :=
  { mode := CLIMATE_MODE_OFF
    fan_mode := CLIMATE_FAN_AUTO
    target_temperature := 17
    swing_mode := CLIMATE_SWING_OFF
    current_mode_ := CLIMATE_MODE_OFF
    current_fan_mode_ := CLIMATE_FAN_AUTO
    current_temperature_ := 17
    current_swing_mode_ := CLIMATE_SWING_OFF }

/-- The byte list with bit `k` of the byte at offset `i` flipped. -/
def flip_bit (bytes : List Nat) (i k : Nat) : List Nat :=
  bytes.set i (bytes.getD i 0 ^^^ 1 <<< k)

/-- The state (fan-only, auto, 30 degrees) with an all-off snapshot. -/
def fan_only_30 : ToshibaClimate :=
  { mode := CLIMATE_MODE_FAN_ONLY
    fan_mode := CLIMATE_FAN_AUTO
    target_temperature := 30
    swing_mode := CLIMATE_SWING_OFF
    current_mode_ := CLIMATE_MODE_OFF
    current_fan_mode_ := CLIMATE_FAN_AUTO
    current_temperature_ := 0
    current_swing_mode_ := CLIMATE_SWING_OFF }

/-- The swing code of the motion command for a swing mode, taken from the
model-specific variables; a swing mode that is none of both, horizontal and
off gets the vertical code. -/
def swing_code (env : Env) : ClimateSwingMode → Nat
  | CLIMATE_SWING_BOTH => env.toshiba_motion_swing_both
  | CLIMATE_SWING_HORIZONTAL => env.toshiba_motion_swing_horizontal
  | CLIMATE_SWING_OFF => env.toshiba_motion_swing_off
  | _ => env.toshiba_motion_swing_vertical

/-- The nine bytes of the finalised default command frame for a state. -/
def default_command_frame (env : Env) (self : ToshibaClimate) : List Nat :=
  [0xf2, 0x0d, 0x03, 0xfc, 0x01, temperature_byte env self,
    mode_code self.mode ||| fan_code self.fan_mode, 0x00,
    0x01 ^^^ temperature_byte env self ^^^ (mode_code self.mode ||| fan_code self.fan_mode)]

/-- The seven bytes of the finalised motion command frame for a swing mode. -/
def motion_command_frame (env : Env) (swing : ClimateSwingMode) : List Nat :=
  [0xf2, 0x0d, 0x01, 0xfe, 0x21, swing_code env swing, 0x21 ^^^ swing_code env swing]

/-- Step 1 of the diff controller applies: mode, fan speed or the target
temperature truncated to eight bits (the whole-degree target modulo 256)
differs from the snapshot. -/
def default_changed (self : ToshibaClimate) : Bool :=
  self.current_mode_ != self.mode || self.current_fan_mode_ != self.fan_mode ||
    self.current_temperature_ != (self.target_temperature % 256).toNat

/-- The swing mode after the possible override to vertical: the override
applies when a default frame is sent and the snapshot mode is off. -/
def swing_after (self : ToshibaClimate) : ClimateSwingMode :=
  if default_changed self && self.current_mode_ == CLIMATE_MODE_OFF then CLIMATE_SWING_VERTICAL
  else self.swing_mode

/-- The state (cool, high, 22 degrees, swing vertical) whose snapshot is off
with the same swing mode, vertical. -/
def off_to_cool_vertical : ToshibaClimate :=
  { mode := CLIMATE_MODE_COOL
    fan_mode := CLIMATE_FAN_HIGH
    target_temperature := 22
    swing_mode := CLIMATE_SWING_VERTICAL
    current_mode_ := CLIMATE_MODE_OFF
    current_fan_mode_ := CLIMATE_FAN_AUTO
    current_temperature_ := 0
    current_swing_mode_ := CLIMATE_SWING_VERTICAL }

/-- The state (cool, high, 22 degrees, swing off) whose snapshot is off with
the same swing mode, off. -/
def off_to_cool_swing_off : ToshibaClimate :=
  { mode := CLIMATE_MODE_COOL
    fan_mode := CLIMATE_FAN_HIGH
    target_temperature := 22
    swing_mode := CLIMATE_SWING_OFF
    current_mode_ := CLIMATE_MODE_OFF
    current_fan_mode_ := CLIMATE_FAN_AUTO
    current_temperature_ := 0
    current_swing_mode_ := CLIMATE_SWING_OFF }

/-- The state (heat, middle, 40 degrees) with an all-off snapshot; 40 degrees
is above the range of the generic model. -/
def heat_middle_40 : ToshibaClimate :=
  { mode := CLIMATE_MODE_HEAT
    fan_mode := CLIMATE_FAN_MIDDLE
    target_temperature := 40
    swing_mode := CLIMATE_SWING_OFF
    current_mode_ := CLIMATE_MODE_OFF
    current_fan_mode_ := CLIMATE_FAN_AUTO
    current_temperature_ := 0
    current_swing_mode_ := CLIMATE_SWING_OFF }

/-- Modelled from the spec: the model variant, which selects the numeric codes
of the swing positions. The source names `MODEL_2`; `MODEL_OTHER` stands for
any other value of the enumeration. -/
inductive Model where
  | MODEL_OTHER
  | MODEL_2
  deriving DecidableEq, Repr

/-- The file-scope variables `toshiba_motion_swing_*` as initialised at lines
52-57, in an environment that is otherwise `env`. -/
def initial_globals (env : Env) : Env :=
  { env with
    toshiba_motion_swing_vertical := 0x01
    toshiba_motion_swing_off := 0x02
    toshiba_motion_swing_both := 0xff
    toshiba_motion_swing_horizontal := 0x05 }

/-- The method `setup` (lines 83-91), as far as the swing codes go: for
`MODEL_2` the codes of both and vertical are overwritten. The two swing modes
it adds to the list `swing_modes_` of the framework object for `MODEL_2`, both
and horizontal, are not part of the embedding. -/
def setup (model : Model) (env : Env) : Env :=
  if model = Model.MODEL_2 then
    { env with toshiba_motion_swing_both := 0x01, toshiba_motion_swing_vertical := 0x08 }
  else env

/-- The swing code table by model variant: for `MODEL_2` both 0x01, horizontal
0x05, off 0x02 and vertical 0x08; otherwise both 0xFF (the placeholder of line
55), horizontal 0x05, off 0x02 and vertical 0x01. A swing mode that is none of
both, horizontal and off has the vertical code. -/
def motion_code : Model → ClimateSwingMode → Nat
  | Model.MODEL_2, CLIMATE_SWING_BOTH => 0x01
  | Model.MODEL_2, CLIMATE_SWING_HORIZONTAL => 0x05
  | Model.MODEL_2, CLIMATE_SWING_OFF => 0x02
  | Model.MODEL_2, _ => 0x08
  | Model.MODEL_OTHER, CLIMATE_SWING_BOTH => 0xff
  | Model.MODEL_OTHER, CLIMATE_SWING_HORIZONTAL => 0x05
  | Model.MODEL_OTHER, CLIMATE_SWING_OFF => 0x02
  | Model.MODEL_OTHER, _ => 0x01

/-- The swing mode a received swing nibble stands for: the code of both, of
vertical, of horizontal, in this order, anything else off. -/
def swing_of_code (env : Env) (c : Nat) : ClimateSwingMode :=
  if c = env.toshiba_motion_swing_both then CLIMATE_SWING_BOTH
  else if c = env.toshiba_motion_swing_vertical then CLIMATE_SWING_VERTICAL
  else if c = env.toshiba_motion_swing_horizontal then CLIMATE_SWING_HORIZONTAL
  else CLIMATE_SWING_OFF

/-- A state with the given swing mode, everything else off. -/
def swing_state (swing : ClimateSwingMode) : ToshibaClimate :=
  { mode := CLIMATE_MODE_OFF
    fan_mode := CLIMATE_FAN_AUTO
    target_temperature := 17
    swing_mode := swing
    current_mode_ := CLIMATE_MODE_OFF
    current_fan_mode_ := CLIMATE_FAN_AUTO
    current_temperature_ := 17
    current_swing_mode_ := CLIMATE_SWING_OFF }

/-- The state that is off with the snapshot equal to it except for the fan
speed: desired fan high, snapshot fan auto; swing off. -/
def off_fan_changed : ToshibaClimate :=
  { mode := CLIMATE_MODE_OFF
    fan_mode := CLIMATE_FAN_HIGH
    target_temperature := 22
    swing_mode := CLIMATE_SWING_OFF
    current_mode_ := CLIMATE_MODE_OFF
    current_fan_mode_ := CLIMATE_FAN_AUTO
    current_temperature_ := 22
    current_swing_mode_ := CLIMATE_SWING_OFF }

/-- The state whose snapshot is off and equal to the desired state except for
the swing mode: desired swing horizontal, snapshot swing off. -/
def off_swing_changed : ToshibaClimate :=
  { mode := CLIMATE_MODE_OFF
    fan_mode := CLIMATE_FAN_AUTO
    target_temperature := 22
    swing_mode := CLIMATE_SWING_HORIZONTAL
    current_mode_ := CLIMATE_MODE_OFF
    current_fan_mode_ := CLIMATE_FAN_AUTO
    current_temperature_ := 22
    current_swing_mode_ := CLIMATE_SWING_OFF }

/-- The frame with header bytes `b0`, `b1`, data length `d`, the first
checksum, the command byte, the payload and the second checksum. -/
def frame_of (b0 b1 d command : Nat) (payload : List Nat) : List Nat :=
  [b0, b1, d, b0 ^^^ b1 ^^^ d, command] ++ payload ++
    [(command :: payload).foldl (· ^^^ ·) 0]

/-- A loop of `on_receive` ends without an access outside the frame buffer, and
when it runs to its end its result satisfies `P`. -/
def Flow.Safe {α : Type} (P : α → Prop) : Flow α → Prop
  | Flow.next a => P a
  | Flow.ret_false _ _ => True
  | Flow.fault => False

/-- The capture declares a data length of at most 8 whenever its header pair
and first four bytes decode and pass the first checksum. `receive_bytes` with
fuel 4 is the loop of `on_receive` for the bytes 0 to 3. -/
def declares_at_most_8 (env : Env) (data : List Pulse) : Bool :=
  match expect_item env TOSHIBA_HEADER_MARK TOSHIBA_HEADER_SPACE data with
  | none => true
  | some data =>
    match receive_bytes env 4 0 TOSHIBA_FRAME_LENGTH_NO_DATA
        (List.replicate TOSHIBA_FRAME_MAX_LENGTH 0) data with
    | Flow.next (_, frame, _) => decide (frame.getD 2 0 ≤ 8)
    | _ => true

/-! ## Lemmas -/

theorem and_one_shiftLeft_ne_zero (b k : Nat) : b &&& (1 <<< k) ≠ 0 ↔ b.testBit k = true := by
  rw [Nat.one_shiftLeft]
  constructor
  · intro h
    by_contra hb
    apply h
    apply Nat.eq_of_testBit_eq
    intro i
    simp only [Nat.testBit_and, Nat.testBit_two_pow, Nat.zero_testBit]
    by_cases hki : k = i
    · subst hki; simp [hb]
    · simp [hki]
  · intro hb h
    have := congrArg (fun x => Nat.testBit x k) h
    simp [Nat.testBit_two_pow, hb] at this

theorem transmit_bits_eq_wire_byte (b : Nat) : transmit_bits b 8 = wire_byte b := by
  simp only [transmit_bits, wire_byte, wire_bit, List.flatMap_cons, List.flatMap_nil, and_one_shiftLeft_ne_zero,
    TOSHIBA_BIT_MARK, TOSHIBA_ONE_SPACE, TOSHIBA_ZERO_SPACE]
  simp

theorem wr_eq_some {frame : List Nat} {i : Nat} (v : Nat) (h : i < frame.length) :
    wr frame i v = some (frame.set i v) := by
  simp [wr, h]

theorem set_eq_self_of_getElem? {frame : List Nat} {i v : Nat} (h : frame[i]? = some v) :
    frame.set i v = frame := by
  apply List.ext_getElem?
  intro j
  by_cases hij : i = j
  · subst hij
    rw [List.getElem?_set_self', h]; rfl
  · rw [List.getElem?_set_ne hij]

theorem take_drop_set_of_le (frame : List Nat) (s k last v : Nat) (h : last < s ∨ s + k ≤ last) :
    ((frame.set last v).drop s).take k = (frame.drop s).take k := by
  apply List.ext_getElem?
  intro j
  simp only [List.getElem?_take, List.getElem?_drop]
  split
  · rw [List.getElem?_set_ne (by omega)]
  · rfl

theorem take_succ_drop {frame : List Nat} {s x : Nat} (k : Nat) (h : frame[s]? = some x) :
    (frame.drop s).take (k + 1) = x :: (frame.drop (s + 1)).take k := by
  have hs : s < frame.length := by
    by_contra hn
    rw [List.getElem?_eq_none (by omega)] at h
    cases h
  rw [List.drop_eq_getElem_cons hs, List.take_succ_cons]
  rw [List.getElem?_eq_getElem hs] at h
  cases h
  rfl

theorem foldlM_xor_into_last (last : Nat) :
    ∀ (k s : Nat) (frame : List Nat) (acc : Nat), s + k ≤ last → frame[last]? = some acc →
      (List.range' s k).foldlM (xor_into_last (last + 1)) frame =
        some (frame.set last (((frame.drop s).take k).foldl (· ^^^ ·) acc)) := by
  intro k
  induction k with
  | zero =>
    intro s frame acc _ hacc
    simp [set_eq_self_of_getElem? hacc]
  | succ k ih =>
    intro s frame acc hs hacc
    have hlast : last < frame.length := by
      by_contra hn
      rw [List.getElem?_eq_none (by omega)] at hacc
      cases hacc
    have hx : frame[s]? = some frame[s] := List.getElem?_eq_getElem (by omega)
    rw [List.range'_succ, List.foldlM_cons]
    have hstep : xor_into_last (last + 1) frame s = some (frame.set last (acc ^^^ frame[s])) := by
      simp [xor_into_last, hacc, hx, wr, hlast]
    rw [hstep]
    simp only [Option.bind_eq_bind, Option.some_bind]
    rw [ih (s + 1) (frame.set last (acc ^^^ frame[s])) (acc ^^^ frame[s]) (by omega)
      (by rw [List.getElem?_set_self hlast])]
    rw [List.set_set, take_drop_set_of_le _ _ _ _ _ (Or.inr (by omega)), take_succ_drop k hx]
    rfl

theorem transmit_bytes_eq (frame : List Nat) (frame_length : Nat) (hlen : frame_length ≤ frame.length) :
    ∀ n, n ≤ frame_length →
      transmit_bytes frame frame_length n =
        some (((frame.drop (frame_length - n)).take n).flatMap wire_byte) := by
  intro n
  induction n with
  | zero => intro _; simp [transmit_bytes]
  | succ n ih =>
    intro hn
    have hx : frame[frame_length - (n + 1)]? = some frame[frame_length - (n + 1)] :=
      List.getElem?_eq_getElem (by omega)
    have hsucc : frame_length - (n + 1) + 1 = frame_length - n := by omega
    simp only [transmit_bytes, hx, ih (by omega), Option.bind_eq_bind, Option.some_bind,
      transmit_bits_eq_wire_byte, take_succ_drop n hx, List.flatMap_cons, hsucc]

theorem transmit_copy_eq (frame : List Nat) (frame_length : Nat) (hlen : frame_length ≤ frame.length) :
    transmit_copy frame frame_length = some (wire_repetition (frame.take frame_length)) := by
  simp [transmit_copy, transmit_bytes_eq frame frame_length hlen frame_length (le_refl _),
    wire_repetition, TOSHIBA_HEADER_MARK, TOSHIBA_HEADER_SPACE, TOSHIBA_BIT_MARK, TOSHIBA_GAP_SPACE]

theorem log_frame_eq_some (env : Env) (frame : List Nat) (d : Nat) (hlen : frame.length = 14)
    (hd : frame[2]? = some d) (hd8 : d ≤ 8) : log_frame env frame = some () := by
  have h1 : (6 + d) % 256 = 6 + d := by omega
  simp only [log_frame, hd, TOSHIBA_FRAME_LENGTH_NO_DATA, h1, hlen, Option.bind_eq_bind,
    Option.some_bind]
  rw [if_pos (by omega)]
  cases env.esp_logd
  · simp
  · simp; omega


theorem transmit_frame_eq (env : Env) (frame : List Nat) (d : Nat) (hlen : frame.length = 14)
    (hd : frame[2]? = some d) (hd8 : d ≤ 8) :
    transmit_frame_ env frame =
      some (finalized frame d, wire_transmission ((finalized frame d).take (6 + d))) := by
  have h1 : (6 + d) % 256 = 5 + d + 1 := by omega
  have h2 : 5 + d + 1 - 1 - 4 = d + 1 := by omega
  have h3 : (5 + d + 1 = 0) = False := by simp
  have hfin : ((((frame.set 0 0xf2).set 1 0x0d).set 3 (0xf2 ^^^ 0x0d ^^^ d)).set (5 + d) 0).set
      (5 + d) (List.foldl (· ^^^ ·) 0 (List.take (d + 1) (List.drop 4
        ((((frame.set 0 0xf2).set 1 0x0d).set 3 (0xf2 ^^^ 0x0d ^^^ d)).set (5 + d) 0)))) =
      finalized frame d := by
    rw [List.set_set, take_drop_set_of_le _ _ _ _ _ (Or.inr (by omega)),
      take_drop_set_of_le _ _ _ _ _ (Or.inl (by omega)),
      take_drop_set_of_le _ _ _ _ _ (Or.inl (by omega)),
      take_drop_set_of_le _ _ _ _ _ (Or.inl (by omega))]
    rfl
  have hflen : (finalized frame d).length = 14 := by simp [finalized, hlen]
  have hf2 : (finalized frame d)[2]? = some d := by
    simp only [finalized]
    rw [List.getElem?_set_ne (by omega), List.getElem?_set_ne (by omega),
      List.getElem?_set_ne (by omega), List.getElem?_set_ne (by omega), hd]
  simp only [transmit_frame_, hd, TOSHIBA_FRAME_LENGTH_NO_DATA, h1, Option.bind_eq_bind,
    Option.some_bind]
  rw [wr_eq_some _ (by omega)]
  simp only [Option.some_bind]
  rw [wr_eq_some _ (by simp; omega)]
  simp only [Option.some_bind]
  rw [List.getElem?_set_ne (by omega), List.getElem?_set_self (by omega)]
  simp only [Option.some_bind]
  rw [List.getElem?_set_self (by simp; omega)]
  simp only [Option.some_bind]
  rw [List.getElem?_set_ne (by omega), List.getElem?_set_ne (by omega), hd]
  simp only [Option.some_bind]
  rw [wr_eq_some _ (by simp; omega)]
  simp only [Option.some_bind, h3, if_false, Nat.add_sub_cancel]
  rw [wr_eq_some _ (by simp; omega)]
  simp only [Option.some_bind]
  rw [show 5 + d - 4 = d + 1 by omega]
  rw [foldlM_xor_into_last (5 + d) (d + 1) 4 _ 0 (by omega)
    (List.getElem?_set_self (by simp; omega))]
  simp only [Option.some_bind, hfin]
  rw [log_frame_eq_some env _ d hflen hf2 hd8]
  simp only [Option.some_bind]
  rw [transmit_copy_eq _ _ (by omega)]
  simp only [Option.some_bind, wire_transmission]
  rw [show 5 + d + 1 = 6 + d by omega]


theorem or_two_pow_or_mod (x b n : Nat) (hb : b.testBit n = true) :
    (x ||| 1 <<< n) ||| b % 2 ^ n = x ||| b % 2 ^ (n + 1) := by
  apply Nat.eq_of_testBit_eq
  intro i
  simp only [Nat.testBit_or, Nat.testBit_mod_two_pow, Nat.one_shiftLeft, Nat.testBit_two_pow]
  by_cases h1 : i < n
  · have h2 : i < n + 1 := by omega
    have h3 : ¬ n = i := by omega
    simp [h1, h2, h3]
  · by_cases h2 : n = i
    · subst h2
      simp [hb]
    · have h3 : ¬ i < n + 1 := by omega
      simp [h1, h2, h3]

theorem mod_two_pow_succ_of_not_testBit (b n : Nat) (hb : b.testBit n = false) :
    b % 2 ^ (n + 1) = b % 2 ^ n := by
  apply Nat.eq_of_testBit_eq
  intro i
  simp only [Nat.testBit_mod_two_pow]
  by_cases h1 : i < n
  · have h2 : i < n + 1 := by omega
    simp [h1, h2]
  · by_cases h2 : n = i
    · subst h2
      simp [hb]
    · have h3 : ¬ i < n + 1 := by omega
      simp [h1, h3]

theorem receive_bits_transmit_bits (env : Env) (hok : ReceiverOk env) (byte b : Nat) :
    ∀ n, n ≤ 8 → ∀ (frame : List Nat) (x : Nat) (rest : List Pulse), frame[byte]? = some x →
      receive_bits env byte n frame (transmit_bits b n ++ rest) =
        Flow.next (frame.set byte (x ||| b % 2 ^ n), rest) := by
  intro n
  induction n with
  | zero =>
    intro _ frame x rest hx
    simp [receive_bits, transmit_bits, Nat.mod_one, set_eq_self_of_getElem? hx]
  | succ n ih =>
    intro hn frame x rest hx
    have hbyte : byte < frame.length := by
      by_contra hlt
      rw [List.getElem?_eq_none (by omega)] at hx
      cases hx
    have hbit : 7 - (8 - (n + 1)) = n := by omega
    by_cases hb : b.testBit n = true
    · have hne : b &&& (1 <<< n) ≠ 0 := (and_one_shiftLeft_ne_zero b n).mpr hb
      simp only [receive_bits, transmit_bits, hbit, hne, ne_eq, not_false_eq_true, if_true,
        List.cons_append, expect_item, hok.bit_mark, hok.one_space, Bool.and_self, hx]
      rw [ih (by omega) _ (x ||| 1 <<< n) rest (List.getElem?_set_self hbyte), List.set_set,
        or_two_pow_or_mod x b n hb]
    · have hb' : b.testBit n = false := by simpa using hb
      have hz : b &&& (1 <<< n) = 0 := by
        by_contra hne
        exact hb ((and_one_shiftLeft_ne_zero b n).mp hne)
      simp only [receive_bits, transmit_bits, hbit, hz, ne_eq, not_true_eq_false, if_false,
        List.cons_append, expect_item, hok.bit_mark, hok.one_not_zero, hok.zero_space,
        Bool.and_false, Bool.and_self, Bool.false_eq_true, if_true, if_false]
      rw [ih (by omega) frame x rest hx, mod_two_pow_succ_of_not_testBit b n hb']

theorem receive_bits_wire_byte (env : Env) (hok : ReceiverOk env) (byte b : Nat) (hb : b < 256)
    (frame : List Nat) (rest : List Pulse) (hx : frame[byte]? = some 0) :
    receive_bits env byte 8 frame (wire_byte b ++ rest) = Flow.next (frame.set byte b, rest) := by
  rw [← transmit_bits_eq_wire_byte, receive_bits_transmit_bits env hok byte b 8 (le_refl _) frame 0
    rest hx]
  have h : b % 2 ^ 8 = b := Nat.mod_eq_of_lt (by simpa using hb)
  rw [h, Nat.zero_or]

theorem receive_bytes_step (env : Env) (hok : ReceiverOk env) (fuel byte frame_length b : Nat)
    (frame : List Nat) (rest : List Pulse) (hlt : byte < frame_length) (h3 : byte ≠ 3)
    (hx : frame[byte]? = some 0) (hb : b < 256) :
    receive_bytes env (fuel + 1) byte frame_length frame (wire_byte b ++ rest) =
      receive_bytes env fuel (byte + 1) frame_length (frame.set byte b) rest := by
  rw [receive_bytes, if_pos hlt, receive_bits_wire_byte env hok byte b hb frame rest hx]
  simp only [h3, if_false]

theorem receive_bytes_step_3 (env : Env) (hok : ReceiverOk env) (fuel frame_length b0 b1 b2 b3 : Nat)
    (tail : List Nat) (rest : List Pulse) (hlt : 3 < frame_length) (hb : b3 < 256) :
    receive_bytes env (fuel + 1) 3 frame_length (b0 :: b1 :: b2 :: 0 :: tail)
        (wire_byte b3 ++ rest) =
      if (b0 ^^^ b1 ^^^ b2) ≠ b3 then Flow.ret_false ReturnSite.checksum_1_mismatch rest
      else receive_bytes env fuel 4 ((b2 + TOSHIBA_FRAME_LENGTH_NO_DATA) % 256)
        (b0 :: b1 :: b2 :: b3 :: tail) rest := by
  rw [receive_bytes, if_pos hlt,
    receive_bits_wire_byte env hok 3 b3 hb _ rest (by simp)]
  simp

theorem receive_bytes_payload (env : Env) (hok : ReceiverOk env) :
    ∀ (bs pre : List Nat) (k fuel : Nat) (rest : List Pulse), (∀ b ∈ bs, b < 256) →
      4 ≤ pre.length → bs.length ≤ fuel →
      receive_bytes env fuel pre.length (pre.length + bs.length)
          (pre ++ List.replicate (bs.length + k) 0) (bs.flatMap wire_byte ++ rest) =
        Flow.next (pre.length + bs.length, pre ++ bs ++ List.replicate k 0, rest) := by
  intro bs
  induction bs with
  | nil =>
    intro pre k fuel rest _ _ _
    cases fuel with
    | zero => simp [receive_bytes]
    | succ fuel => simp [receive_bytes]
  | cons b bs ih =>
    intro pre k fuel rest hbs hpre hfuel
    obtain ⟨fuel, rfl⟩ : ∃ f, fuel = f + 1 := ⟨fuel - 1, by simp at hfuel; omega⟩
    have hb : b < 256 := hbs b (List.mem_cons_self _ _)
    have hbs' : ∀ x ∈ bs, x < 256 := fun x hx => hbs x (List.mem_cons_of_mem _ hx)
    have hrep : (b :: bs).length + k = (bs.length + k) + 1 := by simp; omega
    have hx : (pre ++ List.replicate ((bs.length + k) + 1) 0)[pre.length]? = some 0 := by
      rw [List.getElem?_append_right (le_refl _)]
      simp [List.replicate_succ]
    have hset : (pre ++ List.replicate ((bs.length + k) + 1) 0).set pre.length b =
        (pre ++ [b]) ++ List.replicate (bs.length + k) 0 := by
      rw [List.set_append_right _ _ (le_refl _)]
      simp [List.replicate_succ]
    have hL : pre.length + (b :: bs).length = (pre ++ [b]).length + bs.length := by
      simp; omega
    rw [hrep, List.flatMap_cons, List.append_assoc,
      receive_bytes_step env hok fuel pre.length _ b _ _ (by simp) (by omega) hx hb, hset, hL]
    have hlen1 : pre.length + 1 = (pre ++ [b]).length := by simp
    rw [hlen1, ih (pre ++ [b]) k fuel rest hbs' (by simp; omega) (by simp at hfuel; omega)]
    simp

theorem receive_bytes_frame (env : Env) (hok : ReceiverOk env) (b0 b1 b2 b3 : Nat)
    (payload : List Nat) (rest : List Pulse) (h0 : b0 < 256) (h1 : b1 < 256) (h2 : b2 < 256)
    (h3 : b3 < 256) :
    receive_bytes env 256 0 TOSHIBA_FRAME_LENGTH_NO_DATA (List.replicate TOSHIBA_FRAME_MAX_LENGTH 0)
        ((b0 :: b1 :: b2 :: b3 :: payload).flatMap wire_byte ++ rest) =
      if (b0 ^^^ b1 ^^^ b2) ≠ b3 then
        Flow.ret_false ReturnSite.checksum_1_mismatch (payload.flatMap wire_byte ++ rest)
      else receive_bytes env 252 4 ((b2 + TOSHIBA_FRAME_LENGTH_NO_DATA) % 256)
        (b0 :: b1 :: b2 :: b3 :: List.replicate 10 0) (payload.flatMap wire_byte ++ rest) := by
  simp only [List.flatMap_cons, List.append_assoc, TOSHIBA_FRAME_MAX_LENGTH,
    TOSHIBA_FRAME_LENGTH_NO_DATA]
  rw [receive_bytes_step env hok 255 0 6 b0 _ _ (by omega) (by omega) (by simp) h0,
    receive_bytes_step env hok 254 1 6 b1 _ _ (by omega) (by omega) (by simp) h1,
    receive_bytes_step env hok 253 2 6 b2 _ _ (by omega) (by omega) (by simp) h2]
  have hf : (((List.replicate 14 0).set 0 b0).set 1 b1).set 2 b2 =
      b0 :: b1 :: b2 :: 0 :: List.replicate 10 0 := by
    simp [List.replicate]
  rw [hf, receive_bytes_step_3 env hok 252 6 b0 b1 b2 b3 _ _ (by omega) h3]
  simp [TOSHIBA_FRAME_LENGTH_NO_DATA]

theorem foldlM_receive_checksum_step (frame : List Nat) :
    ∀ (k s acc : Nat), s + k ≤ frame.length →
      (List.range' s k).foldlM (receive_checksum_step frame) acc =
        some (((frame.drop s).take k).foldl (· ^^^ ·) acc) := by
  intro k
  induction k with
  | zero => intro s acc _; simp
  | succ k ih =>
    intro s acc hs
    have hx : frame[s]? = some frame[s] := List.getElem?_eq_getElem (by omega)
    rw [List.range'_succ, List.foldlM_cons]
    simp only [receive_checksum_step, hx, Option.bind_eq_bind, Option.some_bind]
    have := ih (s + 1) (acc ^^^ frame[s]) (by omega)
    simp only [receive_checksum_step, Option.bind_eq_bind] at this
    rw [this, take_succ_drop k hx]
    rfl

theorem exists_cons4 (bytes : List Nat) (h : 4 ≤ bytes.length) :
    ∃ b0 b1 b2 b3 payload, bytes = b0 :: b1 :: b2 :: b3 :: payload := by
  match bytes, h with
  | b0 :: b1 :: b2 :: b3 :: payload, _ => exact ⟨b0, b1, b2, b3, payload, rfl⟩
  | [], h => simp at h
  | [_], h => simp at h
  | [_, _], h => simp at h
  | [_, _, _], h => simp at h

theorem on_receive_wire (env : Env) (hok : ReceiverOk env) (self : ToshibaClimate)
    (bytes : List Nat) (d : Nat) (rest : List Pulse) (wf : WireFrame bytes d) :
    on_receive env self
        ([Pulse.mark 4380, Pulse.space 4370] ++ bytes.flatMap wire_byte ++ rest) =
      if validate_header bytes = false then
        some { returned := false, site := ReturnSite.checksum_1_mismatch,
               data := (bytes.drop 4).flatMap wire_byte ++ rest, self := self, published := 0 }
      else if validate_payload bytes = false then
        some { returned := false, site := ReturnSite.checksum_2_mismatch, data := rest,
               self := self, published := 0 }
      else
        (receive_command env (bytes ++ List.replicate (8 - d) 0) self).map fun s =>
          { returned := true, site := ReturnSite.accepted, data := rest, self := s,
            published := 1 } := by
  obtain ⟨hlen, hd, hd8, hlt⟩ := wf
  obtain ⟨b0, b1, b2, b3, payload, rfl⟩ := exists_cons4 bytes (by omega)
  · have hb2 : b2 = d := by simpa using hd
    subst hb2
    have hplen : payload.length = b2 + 2 := by simp at hlen; omega
    have h0 : b0 < 256 := hlt b0 (by simp)
    have h1 : b1 < 256 := hlt b1 (by simp)
    have h2 : b2 < 256 := hlt b2 (by simp)
    have h3 : b3 < 256 := hlt b3 (by simp)
    have hp : ∀ b ∈ payload, b < 256 := fun b hb => hlt b (by simp [hb])
    have hhdr : expect_item env TOSHIBA_HEADER_MARK TOSHIBA_HEADER_SPACE
        ([Pulse.mark 4380, Pulse.space 4370] ++
          (b0 :: b1 :: b2 :: b3 :: payload).flatMap wire_byte ++ rest) =
        some ((b0 :: b1 :: b2 :: b3 :: payload).flatMap wire_byte ++ rest) := by
      have hm := hok.header_mark
      have hs := hok.header_space
      simp only [TOSHIBA_HEADER_MARK, TOSHIBA_HEADER_SPACE] at hm hs
      simp [expect_item, TOSHIBA_HEADER_MARK, TOSHIBA_HEADER_SPACE, hm, hs]
    rw [on_receive]
    simp only [hhdr]
    rw [receive_bytes_frame env hok b0 b1 b2 b3 payload rest h0 h1 h2 h3]
    by_cases hc1 : (b0 ^^^ b1 ^^^ b2) = b3
    · have hv1 : validate_header (b0 :: b1 :: b2 :: b3 :: payload) = true := by
        simp [validate_header, hc1]
      have hL : (b2 + TOSHIBA_FRAME_LENGTH_NO_DATA) % 256 =
          [b0, b1, b2, b3].length + payload.length := by
        simp [TOSHIBA_FRAME_LENGTH_NO_DATA, hplen]; omega
      have hrep : List.replicate 10 0 = List.replicate (payload.length + (8 - b2)) 0 := by
        congr 1; omega
      have hfr : b0 :: b1 :: b2 :: b3 :: List.replicate 10 0 =
          [b0, b1, b2, b3] ++ List.replicate (payload.length + (8 - b2)) 0 := by
        rw [hrep]; rfl
      rw [if_neg (by simpa using hc1), hL, hfr,
        show (4 : Nat) = [b0, b1, b2, b3].length from rfl,
        receive_bytes_payload env hok payload [b0, b1, b2, b3] (8 - b2) 252 rest hp (by simp)
          (by omega)]
      simp only [hv1, Bool.true_eq_false, if_false]
      have hF : [b0, b1, b2, b3] ++ payload ++ List.replicate (8 - b2) 0 =
          b0 :: b1 :: b2 :: b3 :: payload ++ List.replicate (8 - b2) 0 := by simp
      have hFlen : (b0 :: b1 :: b2 :: b3 :: payload ++ List.replicate (8 - b2) 0).length = 14 := by
        simp [hplen]; omega
      have hlast : ∃ x, payload[b2 + 1]? = some x :=
        ⟨payload[b2 + 1], List.getElem?_eq_getElem (by omega)⟩
      obtain ⟨x, hx⟩ := hlast
      have hFlast : (b0 :: b1 :: b2 :: b3 :: payload ++ List.replicate (8 - b2) 0)[
          [b0, b1, b2, b3].length + payload.length - 1]? = some x := by
        have : [b0, b1, b2, b3].length + payload.length - 1 = (b2 + 1) + 4 := by
          simp [hplen]; omega
        rw [this]
        simp only [List.cons_append, List.getElem?_cons_succ]
        rw [List.getElem?_append_left (by omega), hx]
      have hsum : receive_checksum (b0 :: b1 :: b2 :: b3 :: payload ++ List.replicate (8 - b2) 0)
          ([b0, b1, b2, b3].length + payload.length) =
          some ((payload.take (b2 + 1)).foldl (· ^^^ ·) 0) := by
        have hk : [b0, b1, b2, b3].length + payload.length - 1 - 4 = b2 + 1 := by
          simp [hplen]
        rw [receive_checksum, hk, foldlM_receive_checksum_step _ _ _ _ (by rw [hFlen]; omega)]
        simp only [List.cons_append, List.drop_succ_cons, List.drop_zero]
        rw [List.take_append_of_le_length (by omega)]
      have hvp : validate_payload (b0 :: b1 :: b2 :: b3 :: payload) =
          ((payload.take (b2 + 1)).foldl (· ^^^ ·) 0 == x) := by
        have hl6 : (b0 :: b1 :: b2 :: b3 :: payload).length - 6 = b2 := by simp [hplen]
        have hl1 : (b0 :: b1 :: b2 :: b3 :: payload).length - 1 = (b2 + 1) + 4 := by
          simp [hplen]
        rw [validate_payload, hl6, hl1, checksum_2]
        simp only [List.drop_succ_cons, List.drop_zero, List.getD_eq_getElem?_getD,
          List.getElem?_cons_succ, hx, Option.getD_some]
      have hnz : ([b0, b1, b2, b3].length + payload.length = 0) = False := by simp
      rw [hF, hsum, hvp]
      simp only [Option.bind_eq_bind, Option.some_bind, hnz, if_false, hFlast]
      rw [log_frame_eq_some env _ b2 hFlen (by simp) hd8]
      by_cases hc2 : (payload.take (b2 + 1)).foldl (· ^^^ ·) 0 = x
      · simp [hc2, Option.map_eq_bind]
      · simp [hc2]
    · have hv1 : validate_header (b0 :: b1 :: b2 :: b3 :: payload) = false := by
        simp [validate_header, hc1]
      rw [if_pos (by simpa using hc1)]
      simp [hv1]

theorem finalized_length (frame : List Nat) (d : Nat) :
    (finalized frame d).length = frame.length := by
  simp [finalized]

theorem finalized_getElem?_0 (frame : List Nat) (d : Nat) (hlen : frame.length = 14) :
    (finalized frame d)[0]? = some 0xf2 := by
  simp only [finalized]
  rw [List.getElem?_set_ne (by omega), List.getElem?_set_ne (by omega),
    List.getElem?_set_ne (by omega), List.getElem?_set_self (by omega)]

theorem finalized_getElem?_1 (frame : List Nat) (d : Nat) (hlen : frame.length = 14) :
    (finalized frame d)[1]? = some 0x0d := by
  simp only [finalized]
  rw [List.getElem?_set_ne (by omega), List.getElem?_set_ne (by omega),
    List.getElem?_set_self (by simp; omega)]

theorem finalized_getElem?_2 (frame : List Nat) (d : Nat) (hd : frame[2]? = some d) :
    (finalized frame d)[2]? = some d := by
  simp only [finalized]
  rw [List.getElem?_set_ne (by omega), List.getElem?_set_ne (by omega),
    List.getElem?_set_ne (by omega), List.getElem?_set_ne (by omega), hd]

theorem finalized_getElem?_3 (frame : List Nat) (d : Nat) (hlen : frame.length = 14) :
    (finalized frame d)[3]? = some (0xf2 ^^^ 0x0d ^^^ d) := by
  simp only [finalized]
  rw [List.getElem?_set_ne (by omega), List.getElem?_set_self (by simp; omega)]

theorem finalized_getElem?_last (frame : List Nat) (d : Nat) (hlen : frame.length = 14)
    (hd8 : d ≤ 8) : (finalized frame d)[5 + d]? = some (checksum_2 frame d) := by
  simp only [finalized]
  rw [List.getElem?_set_self (by simp; omega)]

theorem finalized_getElem?_payload (frame : List Nat) (d i : Nat) (h4 : 4 ≤ i) (hi : i ≤ 4 + d) :
    (finalized frame d)[i]? = frame[i]? := by
  simp only [finalized]
  rw [List.getElem?_set_ne (by omega), List.getElem?_set_ne (by omega),
    List.getElem?_set_ne (by omega), List.getElem?_set_ne (by omega)]

theorem checksum_2_finalized (frame : List Nat) (d : Nat) :
    checksum_2 (finalized frame d) d = checksum_2 frame d := by
  simp only [finalized, checksum_2]
  rw [take_drop_set_of_le _ _ _ _ _ (Or.inr (by omega)),
    take_drop_set_of_le _ _ _ _ _ (Or.inl (by omega)),
    take_drop_set_of_le _ _ _ _ _ (Or.inl (by omega)),
    take_drop_set_of_le _ _ _ _ _ (Or.inl (by omega))]

theorem take_drop_take (l : List Nat) (n s k : Nat) (h : s + k ≤ n) :
    ((l.take n).drop s).take k = (l.drop s).take k := by
  apply List.ext_getElem?
  intro j
  simp only [List.getElem?_take, List.getElem?_drop]
  split
  · rw [if_pos (by omega)]
  · rfl

theorem foldl_xor_lt (l : List Nat) (hl : ∀ b ∈ l, b < 256) :
    ∀ acc, acc < 256 → l.foldl (· ^^^ ·) acc < 256 := by
  induction l with
  | nil => intro acc h; simpa using h
  | cons x xs ih =>
    intro acc h
    have hx : x < 256 := hl x (List.mem_cons_self _ _)
    have hacc : acc ^^^ x < 2 ^ 8 := Nat.xor_lt_two_pow (by simpa using h) (by simpa using hx)
    exact ih (fun b hb => hl b (List.mem_cons_of_mem _ hb)) _ (by simpa using hacc)

theorem checksum_2_lt (frame : List Nat) (d : Nat) (hl : ∀ b ∈ frame, b < 256) :
    checksum_2 frame d < 256 := by
  apply foldl_xor_lt _ _ 0 (by omega)
  intro b hb
  exact hl b (List.mem_of_mem_drop (List.mem_of_mem_take hb))

theorem finalized_byte_lt (frame : List Nat) (d : Nat) (hl : ∀ b ∈ frame, b < 256)
    (hd : d < 256) : ∀ b ∈ finalized frame d, b < 256 := by
  intro b hb
  simp only [finalized] at hb
  have hc1 : 0xf2 ^^^ 0x0d ^^^ d < 2 ^ 8 :=
    Nat.xor_lt_two_pow (by decide) (by simpa using hd)
  rcases List.mem_or_eq_of_mem_set hb with hb | rfl
  · rcases List.mem_or_eq_of_mem_set hb with hb | rfl
    · rcases List.mem_or_eq_of_mem_set hb with hb | rfl
      · rcases List.mem_or_eq_of_mem_set hb with hb | rfl
        · exact hl b hb
        · omega
      · omega
    · simpa using hc1
  · exact checksum_2_lt frame d hl

theorem wireFrame_finalized (frame : List Nat) (d : Nat) (hlen : frame.length = 14)
    (hd : frame[2]? = some d) (hd8 : d ≤ 8) (hl : ∀ b ∈ frame, b < 256) :
    WireFrame ((finalized frame d).take (6 + d)) d where
  length_eq := by simp [finalized_length, hlen]; omega
  data_length := by
    rw [List.getElem?_take_of_lt (by omega), finalized_getElem?_2 frame d hd]
  le_max := hd8
  byte_lt := fun b hb => finalized_byte_lt frame d hl (by omega) b (List.mem_of_mem_take hb)

theorem validate_header_finalized (frame : List Nat) (d : Nat) (hlen : frame.length = 14)
    (hd : frame[2]? = some d) :
    validate_header ((finalized frame d).take (6 + d)) = true := by
  simp only [validate_header, List.getD_eq_getElem?_getD]
  rw [List.getElem?_take_of_lt (by omega), List.getElem?_take_of_lt (by omega),
    List.getElem?_take_of_lt (by omega), List.getElem?_take_of_lt (by omega),
    finalized_getElem?_0 frame d hlen, finalized_getElem?_1 frame d hlen,
    finalized_getElem?_2 frame d hd, finalized_getElem?_3 frame d hlen]
  simp

theorem validate_payload_finalized (frame : List Nat) (d : Nat) (hlen : frame.length = 14)
    (hd8 : d ≤ 8) :
    validate_payload ((finalized frame d).take (6 + d)) = true := by
  have hl : ((finalized frame d).take (6 + d)).length = 6 + d := by
    simp [finalized_length, hlen]; omega
  simp only [validate_payload, hl, List.getD_eq_getElem?_getD]
  rw [show 6 + d - 6 = d by omega, show 6 + d - 1 = 5 + d by omega,
    List.getElem?_take_of_lt (by omega), finalized_getElem?_last frame d hlen hd8]
  simp only [checksum_2]
  rw [take_drop_take _ _ _ _ (by omega)]
  have := checksum_2_finalized frame d
  simp only [checksum_2] at this
  rw [this]
  simp

theorem on_receive_transmit_frame (env : Env) (hok : ReceiverOk env) (r : ToshibaClimate)
    (frame : List Nat) (d : Nat) (hlen : frame.length = 14) (hd : frame[2]? = some d)
    (hd8 : d ≤ 8) (hl : ∀ b ∈ frame, b < 256) :
    on_receive env r (wire_transmission ((finalized frame d).take (6 + d))).data =
      (receive_command env ((finalized frame d).take (6 + d) ++ List.replicate (8 - d) 0) r).map
        fun s => { returned := true, site := ReturnSite.accepted,
                   data := [Pulse.mark 540, Pulse.space 5480] ++
                     wire_repetition ((finalized frame d).take (6 + d)),
                   self := s, published := 1 } := by
  have h := on_receive_wire env hok r ((finalized frame d).take (6 + d)) d
    ([Pulse.mark 540, Pulse.space 5480] ++ wire_repetition ((finalized frame d).take (6 + d)))
    (wireFrame_finalized frame d hlen hd hd8 hl)
  rw [validate_header_finalized frame d hlen hd, validate_payload_finalized frame d hlen hd8] at h
  simp only [Bool.true_eq_false, if_false] at h
  rw [← h]
  simp [wire_transmission, wire_repetition]

theorem add_default_command_data_zero (env : Env) (self : ToshibaClimate) :
    add_default_command_data_ env self (List.replicate TOSHIBA_FRAME_MAX_LENGTH 0) =
      some [0, 0, 3, 0, 1, temperature_byte env self,
        mode_code self.mode ||| fan_code self.fan_mode, 0, 0, 0, 0, 0, 0, 0] := by
  have hmode : (match self.mode with
      | CLIMATE_MODE_OFF => TOSHIBA_MODE_OFF
      | CLIMATE_MODE_HEAT => TOSHIBA_MODE_HEAT
      | CLIMATE_MODE_COOL => TOSHIBA_MODE_COOL
      | CLIMATE_MODE_FAN_ONLY => TOSHIBA_MODE_FAN_ONLY
      | CLIMATE_MODE_DRY => TOSHIBA_MODE_DRY
      | _ => TOSHIBA_MODE_AUTO) = mode_code self.mode := by
    cases self.mode <;> rfl
  have hfan : (match self.fan_mode with
      | CLIMATE_FAN_FOCUS => TOSHIBA_FAN_SPEED_QUIET
      | CLIMATE_FAN_LOW => TOSHIBA_FAN_SPEED_1
      | CLIMATE_FAN_MIDDLE => TOSHIBA_FAN_SPEED_2
      | CLIMATE_FAN_MEDIUM => TOSHIBA_FAN_SPEED_3
      | CLIMATE_FAN_DIFFUSE => TOSHIBA_FAN_SPEED_4
      | CLIMATE_FAN_HIGH => TOSHIBA_FAN_SPEED_5
      | _ => TOSHIBA_FAN_SPEED_AUTO) = fan_code self.fan_mode := by
    cases self.fan_mode <;> rfl
  have hfo : (mode_code self.mode = TOSHIBA_MODE_FAN_ONLY) ↔ self.mode = CLIMATE_MODE_FAN_ONLY := by
    cases self.mode <;> simp [mode_code, TOSHIBA_MODE_FAN_ONLY]
  simp only [add_default_command_data_, hmode, hfan]
  simp only [wr, TOSHIBA_FRAME_MAX_LENGTH, List.replicate, TOSHIBA_COMMAND_DEFAULT, List.length_cons,
    List.length_nil, List.set_cons_succ, List.set_cons_zero, Option.bind_eq_bind, Option.some_bind,
    List.getElem?_cons_succ, List.getElem?_cons_zero, Nat.zero_or, List.length_set]
  simp only [show (2 < 14) from by decide, show 4 < 14 from by decide, if_true,
    show 6 < 14 from by decide, show 5 < 14 from by decide,
    Option.some_bind, List.set_cons_succ, List.set_cons_zero, List.getElem?_cons_succ,
    List.getElem?_cons_zero, Nat.zero_or, List.length_cons, List.length_nil, Nat.reduceAdd,
    Nat.reduceLT]
  have htemp : ∀ n : Nat, n = (if mode_code self.mode = TOSHIBA_MODE_FAN_ONLY then 22
        else static_cast_uint8 (clamp self.target_temperature env.TOSHIBA_TEMP_MIN
          env.TOSHIBA_TEMP_MAX)) →
      (((n : Int) - (env.TOSHIBA_TEMP_MIN : Int)) * 2 ^ 4 % 256).toNat =
        temperature_byte env self := by
    intro n hn
    simp only [temperature_byte, encoded_temperature, hfo, static_cast_uint8] at hn ⊢
    split at hn <;> rename_i hm <;> simp only [hm, if_true, if_false] <;> omega
  rw [htemp _ rfl]

theorem receiverOk_generic_env : ReceiverOk generic_env :=
  ⟨rfl, rfl, rfl, rfl, rfl, rfl⟩

theorem receive_command_default (env : Env) (frame : List Nat) (self : ToshibaClimate)
    (f5 f6 : Nat) (h4 : frame[4]? = some 0x01) (h5 : frame[5]? = some f5)
    (h6 : frame[6]? = some f6) :
    receive_command env frame self =
      some { self with
        mode := mode_of_code (f6 &&& 0x0f)
        current_mode_ := mode_of_code (f6 &&& 0x0f)
        fan_mode := fan_of_code (f6 &&& 0xf0)
        current_fan_mode_ := fan_of_code (f6 &&& 0xf0)
        target_temperature := ((f5 >>> 4 : Nat) : Int) + (env.TOSHIBA_TEMP_MIN : Int) } := by
  simp [receive_command, h4, h5, h6, TOSHIBA_COMMAND_MOTION, TOSHIBA_COMMAND_DEFAULT,
    mode_of_code, fan_of_code, TOSHIBA_MODE_OFF, TOSHIBA_MODE_HEAT, TOSHIBA_MODE_COOL,
    TOSHIBA_MODE_FAN_ONLY, TOSHIBA_MODE_DRY, TOSHIBA_FAN_SPEED_QUIET, TOSHIBA_FAN_SPEED_1,
    TOSHIBA_FAN_SPEED_2, TOSHIBA_FAN_SPEED_3, TOSHIBA_FAN_SPEED_4, TOSHIBA_FAN_SPEED_5]

theorem getElem?_take_append_replicate (out : List Nat) (n k i : Nat) (hi : i < n)
    (hn : n ≤ out.length) : (out.take n ++ List.replicate k 0)[i]? = out[i]? := by
  rw [List.getElem?_append_left (by simp; omega), List.getElem?_take_of_lt hi]

theorem mode_code_lt (m : ClimateMode) : mode_code m < 16 := by
  cases m <;> decide

theorem mode_fan_code_lt (m : ClimateMode) (f : ClimateFanMode) :
    mode_code m ||| fan_code f < 256 := by
  cases m <;> cases f <;> decide

theorem mode_of_code_mode_code (m : ClimateMode) (f : ClimateFanMode)
    (hm : m ≠ CLIMATE_MODE_HEAT_COOL) :
    mode_of_code ((mode_code m ||| fan_code f) &&& 0x0f) = m := by
  cases m <;> cases f <;> first | rfl | exact absurd rfl hm

theorem fan_of_code_fan_code (m : ClimateMode) (f : ClimateFanMode)
    (hf : f ∈ [CLIMATE_FAN_AUTO, CLIMATE_FAN_FOCUS, CLIMATE_FAN_LOW, CLIMATE_FAN_MIDDLE,
      CLIMATE_FAN_MEDIUM, CLIMATE_FAN_DIFFUSE, CLIMATE_FAN_HIGH]) :
    fan_of_code ((mode_code m ||| fan_code f) &&& 0xf0) = f := by
  cases m <;> cases f <;> first | rfl | simp at hf

theorem temperature_byte_lt (env : Env) (self : ToshibaClimate) :
    temperature_byte env self < 256 := by
  simp only [temperature_byte]
  omega

/-- What `transmit_state` does for the default command, then reception of
what was sent: the frame built in a zeroed buffer is transmitted and
`on_receive` accepts the transmission with the effect of `receive_command`
on the received bytes. -/
theorem default_command_round_trip (env : Env) (hok : ReceiverOk env) (self r : ToshibaClimate) :
    ∃ frame out transmit result,
      add_default_command_data_ env self (List.replicate TOSHIBA_FRAME_MAX_LENGTH 0) = some frame ∧
      transmit_frame_ env frame = some (out, transmit) ∧
      on_receive env r transmit.data = some result ∧
      result.returned = true ∧ result.published = 1 ∧
      result.self = { r with
        mode := mode_of_code ((mode_code self.mode ||| fan_code self.fan_mode) &&& 0x0f)
        current_mode_ := mode_of_code ((mode_code self.mode ||| fan_code self.fan_mode) &&& 0x0f)
        fan_mode := fan_of_code ((mode_code self.mode ||| fan_code self.fan_mode) &&& 0xf0)
        current_fan_mode_ := fan_of_code ((mode_code self.mode ||| fan_code self.fan_mode) &&& 0xf0)
        target_temperature :=
          ((temperature_byte env self >>> 4 : Nat) : Int) + (env.TOSHIBA_TEMP_MIN : Int) } := by
  have hlen : ([0, 0, 3, 0, 1, temperature_byte env self,
      mode_code self.mode ||| fan_code self.fan_mode, 0, 0, 0, 0, 0, 0, 0] : List Nat).length = 14 :=
    rfl
  have hl : ∀ b ∈ ([0, 0, 3, 0, 1, temperature_byte env self,
      mode_code self.mode ||| fan_code self.fan_mode, 0, 0, 0, 0, 0, 0, 0] : List Nat), b < 256 := by
    intro b hb
    have h1 := temperature_byte_lt env self
    have h2 := mode_fan_code_lt self.mode self.fan_mode
    simp only [List.mem_cons, List.mem_singleton, List.not_mem_nil, or_false] at hb
    rcases hb with rfl | rfl | rfl | rfl | rfl | rfl | rfl | rfl | rfl | rfl | rfl | rfl | rfl | rfl <;>
      omega
  have hget : ∀ i, 4 ≤ i → i ≤ 7 →
      ((finalized [0, 0, 3, 0, 1, temperature_byte env self,
        mode_code self.mode ||| fan_code self.fan_mode, 0, 0, 0, 0, 0, 0, 0] 3).take (6 + 3) ++
          List.replicate (8 - 3) 0)[i]? =
        ([0, 0, 3, 0, 1, temperature_byte env self,
          mode_code self.mode ||| fan_code self.fan_mode, 0, 0, 0, 0, 0, 0, 0] : List Nat)[i]? := by
    intro i h4 h7
    rw [getElem?_take_append_replicate _ _ _ _ (by omega) (by simp [finalized]),
      finalized_getElem?_payload _ _ _ h4 (by omega)]
  have hrx := on_receive_transmit_frame env hok r _ 3 hlen rfl (by omega) hl
  rw [receive_command_default env _ r (temperature_byte env self)
    (mode_code self.mode ||| fan_code self.fan_mode)
    (by rw [hget 4 (by omega) (by omega)]; rfl) (by rw [hget 5 (by omega) (by omega)]; rfl)
    (by rw [hget 6 (by omega) (by omega)]; rfl)] at hrx
  exact ⟨_, _, _, _, add_default_command_data_zero env self,
    transmit_frame_eq env _ 3 hlen rfl (by omega), hrx, rfl, rfl, rfl⟩

theorem temperature_byte_decode (env : Env) (self : ToshibaClimate)
    (hmode : self.mode ≠ CLIMATE_MODE_FAN_ONLY)
    (hmin : (env.TOSHIBA_TEMP_MIN : Int) ≤ self.target_temperature)
    (hmax : self.target_temperature ≤ (env.TOSHIBA_TEMP_MAX : Int))
    (hrange : env.TOSHIBA_TEMP_MAX - env.TOSHIBA_TEMP_MIN ≤ 15) :
    ((temperature_byte env self >>> 4 : Nat) : Int) + (env.TOSHIBA_TEMP_MIN : Int) =
      self.target_temperature := by
  simp only [temperature_byte, encoded_temperature, hmode, if_false, clamp,
    Nat.shiftRight_eq_div_pow]
  rw [if_neg (by omega), if_neg (by omega)]
  omega

theorem on_receive_header_mismatch (env : Env) (hok : ReceiverOk env) (self : ToshibaClimate)
    (b0 b1 b2 b3 : Nat) (payload : List Nat) (rest : List Pulse) (h0 : b0 < 256) (h1 : b1 < 256)
    (h2 : b2 < 256) (h3 : b3 < 256) (hc : (b0 ^^^ b1 ^^^ b2) ≠ b3) :
    on_receive env self
        ([Pulse.mark 4380, Pulse.space 4370] ++ (b0 :: b1 :: b2 :: b3 :: payload).flatMap wire_byte ++
          rest) =
      some { returned := false, site := ReturnSite.checksum_1_mismatch,
             data := payload.flatMap wire_byte ++ rest, self := self, published := 0 } := by
  have hhdr : expect_item env TOSHIBA_HEADER_MARK TOSHIBA_HEADER_SPACE
      ([Pulse.mark 4380, Pulse.space 4370] ++
        (b0 :: b1 :: b2 :: b3 :: payload).flatMap wire_byte ++ rest) =
      some ((b0 :: b1 :: b2 :: b3 :: payload).flatMap wire_byte ++ rest) := by
    have hm := hok.header_mark
    have hs := hok.header_space
    simp only [TOSHIBA_HEADER_MARK, TOSHIBA_HEADER_SPACE] at hm hs
    simp [expect_item, TOSHIBA_HEADER_MARK, TOSHIBA_HEADER_SPACE, hm, hs]
  rw [on_receive]
  simp only [hhdr]
  rw [receive_bytes_frame env hok b0 b1 b2 b3 payload rest h0 h1 h2 h3, if_pos hc]

theorem xor_one_shiftLeft_lt (b k : Nat) (hb : b < 256) (hk : k < 8) : b ^^^ 1 <<< k < 256 := by
  have h1 : 1 <<< k < 2 ^ 8 := by
    rw [Nat.one_shiftLeft]
    exact Nat.pow_lt_pow_right (by omega) hk
  have := Nat.xor_lt_two_pow (show b < 2 ^ 8 by simpa using hb) h1
  simpa using this

theorem xor_one_shiftLeft_ne (a k : Nat) : a ^^^ 1 <<< k ≠ a := by
  intro h
  have h2 : a ^^^ 1 <<< k = a ^^^ 0 := by rw [h, Nat.xor_zero]
  have h3 := Nat.xor_right_inj.mp h2
  rw [Nat.one_shiftLeft] at h3
  exact absurd h3 (by positivity)

theorem checksum_1_flip (b0 b1 b2 b3 k : Nat) (h : b0 ^^^ b1 ^^^ b2 = b3) :
    (b0 ^^^ 1 <<< k) ^^^ b1 ^^^ b2 ≠ b3 ∧ b0 ^^^ (b1 ^^^ 1 <<< k) ^^^ b2 ≠ b3 ∧
      b0 ^^^ b1 ^^^ (b2 ^^^ 1 <<< k) ≠ b3 ∧ b0 ^^^ b1 ^^^ b2 ≠ b3 ^^^ 1 <<< k := by
  subst h
  have e1 : (b0 ^^^ 1 <<< k) ^^^ b1 ^^^ b2 = (b0 ^^^ b1 ^^^ b2) ^^^ 1 <<< k := by
    simp only [Nat.xor_assoc, Nat.xor_comm (1 <<< k)]
  have e2 : b0 ^^^ (b1 ^^^ 1 <<< k) ^^^ b2 = (b0 ^^^ b1 ^^^ b2) ^^^ 1 <<< k := by
    simp only [Nat.xor_assoc, Nat.xor_comm (1 <<< k)]
  have e3 : b0 ^^^ b1 ^^^ (b2 ^^^ 1 <<< k) = (b0 ^^^ b1 ^^^ b2) ^^^ 1 <<< k := by
    simp only [Nat.xor_assoc]
  rw [e1, e2, e3]
  exact ⟨xor_one_shiftLeft_ne _ k, xor_one_shiftLeft_ne _ k, xor_one_shiftLeft_ne _ k,
    fun h => xor_one_shiftLeft_ne _ k h.symm⟩

theorem validate_header_cons (b0 b1 b2 b3 : Nat) (payload : List Nat) :
    validate_header (b0 :: b1 :: b2 :: b3 :: payload) = true ↔ b0 ^^^ b1 ^^^ b2 = b3 := by
  simp [validate_header]

theorem drop_66_capture (b0 b1 b2 b3 : Nat) (payload : List Nat) (rest : List Pulse) :
    ([Pulse.mark 4380, Pulse.space 4370] ++ (b0 :: b1 :: b2 :: b3 :: payload).flatMap wire_byte ++
      rest).drop 66 = payload.flatMap wire_byte ++ rest := by
  simp [wire_byte, wire_bit]

theorem on_receive_flip_header (env : Env) (hok : ReceiverOk env) (r : ToshibaClimate)
    (bytes : List Nat) (rest : List Pulse) (hlen : 4 ≤ bytes.length) (hl : ∀ b ∈ bytes, b < 256)
    (hv : validate_header bytes = true) (i k : Nat) (hi : i < 4) (hk : k < 8) :
    on_receive env r
        ([Pulse.mark 4380, Pulse.space 4370] ++ (flip_bit bytes i k).flatMap wire_byte ++ rest) =
      some { returned := false, site := ReturnSite.checksum_1_mismatch,
             data := ([Pulse.mark 4380, Pulse.space 4370] ++
               (flip_bit bytes i k).flatMap wire_byte ++ rest).drop 66,
             self := r, published := 0 } := by
  obtain ⟨b0, b1, b2, b3, payload, rfl⟩ := exists_cons4 bytes hlen
  have h0 : b0 < 256 := hl b0 (by simp)
  have h1 : b1 < 256 := hl b1 (by simp)
  have h2 : b2 < 256 := hl b2 (by simp)
  have h3 : b3 < 256 := hl b3 (by simp)
  have hc := (validate_header_cons b0 b1 b2 b3 payload).mp hv
  obtain ⟨c0, c1, c2, c3⟩ := checksum_1_flip b0 b1 b2 b3 k hc
  interval_cases i
  · simp only [flip_bit, List.set_cons_zero, List.getD_cons_zero]
    rw [drop_66_capture]
    exact on_receive_header_mismatch env hok r _ b1 b2 b3 payload rest
      (xor_one_shiftLeft_lt b0 k h0 hk) h1 h2 h3 c0
  · simp only [flip_bit, List.set_cons_zero, List.set_cons_succ, List.getD_cons_zero,
      List.getD_cons_succ]
    rw [drop_66_capture]
    exact on_receive_header_mismatch env hok r b0 _ b2 b3 payload rest h0
      (xor_one_shiftLeft_lt b1 k h1 hk) h2 h3 c1
  · simp only [flip_bit, List.set_cons_zero, List.set_cons_succ, List.getD_cons_zero,
      List.getD_cons_succ]
    rw [drop_66_capture]
    exact on_receive_header_mismatch env hok r b0 b1 _ b3 payload rest h0 h1
      (xor_one_shiftLeft_lt b2 k h2 hk) h3 c2
  · simp only [flip_bit, List.set_cons_zero, List.set_cons_succ, List.getD_cons_zero,
      List.getD_cons_succ]
    rw [drop_66_capture]
    exact on_receive_header_mismatch env hok r b0 b1 b2 _ payload rest h0 h1 h2
      (xor_one_shiftLeft_lt b3 k h3 hk) c3

theorem foldl_xor_acc (l : List Nat) : ∀ (a c : Nat),
    l.foldl (· ^^^ ·) (a ^^^ c) = l.foldl (· ^^^ ·) a ^^^ c := by
  induction l with
  | nil => intro a c; rfl
  | cons x xs ih =>
    intro a c
    simp only [List.foldl_cons]
    rw [← ih (a ^^^ x) c]
    congr 1
    simp only [Nat.xor_assoc, Nat.xor_comm c]

theorem foldl_xor_set (l : List Nat) : ∀ (j c acc : Nat), j < l.length →
    (l.set j (l.getD j 0 ^^^ c)).foldl (· ^^^ ·) acc = l.foldl (· ^^^ ·) acc ^^^ c := by
  induction l with
  | nil => intro j c acc h; simp at h
  | cons x xs ih =>
    intro j c acc h
    cases j with
    | zero =>
      simp only [List.set_cons_zero, List.getD_cons_zero, List.foldl_cons]
      rw [← Nat.xor_assoc, foldl_xor_acc]
    | succ j =>
      simp only [List.set_cons_succ, List.getD_cons_succ, List.foldl_cons]
      exact ih j c (acc ^^^ x) (by simpa using h)

theorem checksum_2_flip (bytes : List Nat) (d i k : Nat) (hlen : bytes.length = 6 + d)
    (h5 : 4 ≤ i) (hi : i ≤ 4 + d) :
    checksum_2 (flip_bit bytes i k) d = checksum_2 bytes d ^^^ 1 <<< k := by
  have hget : bytes.getD i 0 = ((bytes.drop 4).take (d + 1)).getD (i - 4) 0 := by
    simp only [List.getD_eq_getElem?_getD, List.getElem?_take, List.getElem?_drop]
    rw [if_pos (by omega), show 4 + (i - 4) = i by omega]
  simp only [checksum_2, flip_bit]
  rw [List.drop_set, if_neg (by omega), List.set_take, hget]
  exact foldl_xor_set _ _ _ _ (by simp; omega)

theorem wireFrame_flip (bytes : List Nat) (d i k : Nat) (wf : WireFrame bytes d) (h2 : i ≠ 2)
    (hk : k < 8) : WireFrame (flip_bit bytes i k) d where
  length_eq := by simp [flip_bit, wf.length_eq]
  data_length := by
    simp only [flip_bit]
    rw [List.getElem?_set_ne h2, wf.data_length]
  le_max := wf.le_max
  byte_lt := by
    intro b hb
    rcases List.mem_or_eq_of_mem_set hb with hb | rfl
    · exact wf.byte_lt b hb
    · apply xor_one_shiftLeft_lt _ _ _ hk
      by_cases hi : i < bytes.length
      · rw [List.getD_eq_getElem _ _ hi]
        exact wf.byte_lt _ (List.getElem_mem hi)
      · rw [List.getD_eq_default _ _ (by omega)]
        omega

theorem validate_header_flip (bytes : List Nat) (i k : Nat) (h4 : 4 ≤ i) :
    validate_header (flip_bit bytes i k) = validate_header bytes := by
  simp only [validate_header, flip_bit, List.getD_eq_getElem?_getD]
  rw [List.getElem?_set_ne (by omega), List.getElem?_set_ne (by omega),
    List.getElem?_set_ne (by omega), List.getElem?_set_ne (by omega)]

theorem validate_payload_flip (bytes : List Nat) (d i k : Nat) (hlen : bytes.length = 6 + d)
    (h4 : 4 ≤ i) (hi : i ≤ 4 + d) (hv : validate_payload bytes = true) :
    validate_payload (flip_bit bytes i k) = false := by
  have hl : (flip_bit bytes i k).length = 6 + d := by simp [flip_bit, hlen]
  simp only [validate_payload, hlen, hl, show 6 + d - 6 = d by omega, beq_iff_eq,
    beq_eq_false_iff_ne] at hv ⊢
  rw [checksum_2_flip bytes d i k hlen h4 hi, hv]
  have hlast : (flip_bit bytes i k).getD (6 + d - 1) 0 = bytes.getD (6 + d - 1) 0 := by
    simp only [flip_bit, List.getD_eq_getElem?_getD]
    rw [List.getElem?_set_ne (by omega)]
  rw [hlast]
  exact xor_one_shiftLeft_ne _ k

theorem receive_command_other (env : Env) (frame : List Nat) (self : ToshibaClimate) (c : Nat)
    (h4 : frame[4]? = some c) (hm : c ≠ TOSHIBA_COMMAND_MOTION) (hd : c ≠ TOSHIBA_COMMAND_DEFAULT) :
    receive_command env frame self = some self := by
  simp [receive_command, h4, hm, hd]

theorem temperature_byte_fan_only (env : Env) (self : ToshibaClimate)
    (hmode : self.mode = CLIMATE_MODE_FAN_ONLY) (hmin : env.TOSHIBA_TEMP_MIN ≤ 22)
    (hrange : 22 - env.TOSHIBA_TEMP_MIN ≤ 15) :
    temperature_byte env self = (22 - env.TOSHIBA_TEMP_MIN) <<< 4 := by
  simp only [temperature_byte, encoded_temperature, hmode, if_true, Nat.shiftLeft_eq]
  omega

theorem length_flatMap_wire_byte (bytes : List Nat) :
    (bytes.flatMap wire_byte).length = 16 * bytes.length := by
  induction bytes with
  | nil => rfl
  | cons b bs ih =>
    rw [List.flatMap_cons, List.length_append, ih, List.length_cons]
    have : (wire_byte b).length = 16 := by simp [wire_byte, wire_bit]
    omega

theorem length_wire_repetition (bytes : List Nat) :
    (wire_repetition bytes).length = 2 * (8 * bytes.length + 2) := by
  simp only [wire_repetition, List.length_append, length_flatMap_wire_byte, List.length_cons,
    List.length_nil]
  omega

theorem add_motion_command_data_zero (env : Env) (self : ToshibaClimate) :
    add_motion_command_data_ env self (List.replicate TOSHIBA_FRAME_MAX_LENGTH 0) =
      some [0, 0, 1, 0, 0x21, swing_code env self.swing_mode, 0, 0, 0, 0, 0, 0, 0, 0] := by
  have hswing : (match self.swing_mode with
      | CLIMATE_SWING_BOTH => env.toshiba_motion_swing_both
      | CLIMATE_SWING_HORIZONTAL => env.toshiba_motion_swing_horizontal
      | CLIMATE_SWING_OFF => env.toshiba_motion_swing_off
      | _ => env.toshiba_motion_swing_vertical) =
        swing_code env self.swing_mode := by
    cases self.swing_mode <;> rfl
  simp only [add_motion_command_data_, hswing]
  simp [wr, TOSHIBA_FRAME_MAX_LENGTH, List.replicate, TOSHIBA_COMMAND_MOTION]

theorem transmit_frame_default (env : Env) (self : ToshibaClimate) :
    transmit_frame_ env [0, 0, 3, 0, 1, temperature_byte env self,
        mode_code self.mode ||| fan_code self.fan_mode, 0, 0, 0, 0, 0, 0, 0] =
      some (default_command_frame env self ++ [0, 0, 0, 0, 0],
        wire_transmission (default_command_frame env self)) := by
  rw [transmit_frame_eq env [0, 0, 3, 0, 1, temperature_byte env self,
      mode_code self.mode ||| fan_code self.fan_mode, 0, 0, 0, 0, 0, 0, 0] 3 rfl rfl (by omega)]
  simp [finalized, checksum_2, default_command_frame]

theorem transmit_frame_motion (env : Env) (swing : ClimateSwingMode) :
    transmit_frame_ env [0, 0, 1, 0, 0x21, swing_code env swing, 0, 0, 0, 0, 0, 0, 0, 0] =
      some (motion_command_frame env swing ++ [0, 0, 0, 0, 0, 0, 0],
        wire_transmission (motion_command_frame env swing)) := by
  rw [transmit_frame_eq env [0, 0, 1, 0, 0x21, swing_code env swing, 0, 0, 0, 0, 0, 0, 0, 0]
      1 rfl rfl (by omega)]
  simp [finalized, checksum_2, motion_command_frame]

theorem transmit_state_eq (env : Env) (self : ToshibaClimate) :
    transmit_state env self =
      some {
        self := { self with
          swing_mode := swing_after self
          current_fan_mode_ := self.fan_mode
          current_swing_mode_ := swing_after self
          current_mode_ := self.mode
          current_temperature_ := static_cast_uint8 self.target_temperature }
        transmitted :=
          (if default_changed self then [wire_transmission (default_command_frame env self)]
            else []) ++
          (if self.current_swing_mode_ ≠ swing_after self then
            [wire_transmission (motion_command_frame env (swing_after self))] else [])
        published :=
          if default_changed self && self.current_mode_ == CLIMATE_MODE_OFF then 1 else 0 } := by
  have hdc : default_changed self = true ↔
      (self.current_mode_ ≠ self.mode ∨ self.current_fan_mode_ ≠ self.fan_mode ∨
        self.current_temperature_ ≠ static_cast_uint8 self.target_temperature) := by
    simp [default_changed, static_cast_uint8, or_assoc]
  by_cases hc : default_changed self = true
  · have hc' := hdc.mp hc
    by_cases hoff : self.current_mode_ = CLIMATE_MODE_OFF
    · have hsa : swing_after self = CLIMATE_SWING_VERTICAL := by simp [swing_after, hc, hoff]
      simp only [transmit_state, if_pos hc', if_pos hoff, add_default_command_data_zero,
        transmit_frame_default, Option.bind_eq_bind, Option.some_bind, Option.pure_def, hsa, hc,
        if_true, Bool.true_and, beq_self_eq_true]
      by_cases hs : self.current_swing_mode_ = CLIMATE_SWING_VERTICAL
      · simp [hs, hoff]
      · simp [hs, hoff, add_motion_command_data_zero, transmit_frame_motion]
    · have hsa : swing_after self = self.swing_mode := by simp [swing_after, hc, hoff]
      simp only [transmit_state, if_pos hc', if_neg hoff, add_default_command_data_zero,
        transmit_frame_default, Option.bind_eq_bind, Option.some_bind, Option.pure_def, hsa, hc,
        if_true, Bool.true_and]
      by_cases hs : self.current_swing_mode_ = self.swing_mode
      · simp [hs, hoff]
      · simp [hs, hoff, add_motion_command_data_zero, transmit_frame_motion]
  · have hc0 : default_changed self = false := by simpa using hc
    have hc' := fun h => hc (hdc.mpr h)
    have hsa : swing_after self = self.swing_mode := by simp [swing_after, hc0]
    simp only [transmit_state, if_neg hc', Option.bind_eq_bind, Option.some_bind,
      Option.pure_def, hsa, hc0, Bool.false_and]
    by_cases hs : self.current_swing_mode_ = self.swing_mode
    · simp [hs]
    · simp [hs, add_motion_command_data_zero, transmit_frame_motion]

/-- The fuel of `receive_bytes` is never used up: once `byte + fuel` reaches
256, one more unit of fuel does not change the result, whatever the capture
is. -/
theorem receive_bytes_fuel (env : Env) :
    ∀ (fuel byte frame_length : Nat) (frame : List Nat) (data : List Pulse),
      frame_length < 256 → 256 ≤ byte + fuel →
      receive_bytes env (fuel + 1) byte frame_length frame data =
        receive_bytes env fuel byte frame_length frame data := by
  intro fuel
  induction fuel with
  | zero =>
    intro byte frame_length frame data hL hb
    simp only [receive_bytes]
    rw [if_neg (by omega)]
  | succ fuel ih =>
    intro byte frame_length frame data hL hb
    rw [receive_bytes]
    conv => rhs; rw [receive_bytes]
    by_cases hlt : byte < frame_length
    · simp only [if_pos hlt]
      cases receive_bits env byte 8 frame data with
      | fault => rfl
      | ret_false site data => rfl
      | next a =>
        obtain ⟨frame, data⟩ := a
        simp only
        by_cases h3 : byte = 3
        · simp only [if_pos h3]
          split
          · split
            · rfl
            · exact ih _ _ _ _ (Nat.mod_lt _ (by omega)) (by omega)
          · rfl
        · simp only [if_neg h3]
          exact ih _ _ _ _ hL (by omega)
    · simp only [if_neg hlt]

theorem temperature_byte_clamped (env : Env) (self : ToshibaClimate)
    (hmode : self.mode ≠ CLIMATE_MODE_FAN_ONLY)
    (hle : env.TOSHIBA_TEMP_MIN ≤ env.TOSHIBA_TEMP_MAX)
    (hrange : env.TOSHIBA_TEMP_MAX - env.TOSHIBA_TEMP_MIN ≤ 15) :
    temperature_byte env self =
      (clamp self.target_temperature env.TOSHIBA_TEMP_MIN env.TOSHIBA_TEMP_MAX -
        (env.TOSHIBA_TEMP_MIN : Int)).toNat <<< 4 := by
  simp only [temperature_byte, encoded_temperature, hmode, if_false, clamp, Nat.shiftLeft_eq]
  split
  · omega
  · split <;> omega

theorem temperature_byte_low_nibble (env : Env) (self : ToshibaClimate) :
    temperature_byte env self % 16 = 0 := by
  simp only [temperature_byte]
  omega

theorem swing_code_setup (env : Env) (model : Model) (swing : ClimateSwingMode) :
    swing_code (setup model (initial_globals env)) swing = motion_code model swing := by
  cases model <;> cases swing <;> rfl

theorem receiverOk_setup (env : Env) (model : Model) (hok : ReceiverOk env) :
    ReceiverOk (setup model (initial_globals env)) := by
  cases model <;> exact ⟨hok.1, hok.2, hok.3, hok.4, hok.5, hok.6⟩

theorem receive_command_motion (env : Env) (frame : List Nat) (self : ToshibaClimate) (f5 : Nat)
    (h4 : frame[4]? = some 0x21) (h5 : frame[5]? = some f5) :
    receive_command env frame self =
      some { self with
        swing_mode := swing_of_code env (f5 &&& 0x0f)
        current_swing_mode_ := swing_of_code env (f5 &&& 0x0f) } := by
  simp [receive_command, h4, h5, TOSHIBA_COMMAND_MOTION, swing_of_code]

theorem motion_command_round_trip (env : Env) (hok : ReceiverOk env) (self r : ToshibaClimate)
    (hcode : swing_code env self.swing_mode < 256) :
    ∃ frame out transmit result,
      add_motion_command_data_ env self (List.replicate TOSHIBA_FRAME_MAX_LENGTH 0) = some frame ∧
      transmit_frame_ env frame = some (out, transmit) ∧
      on_receive env r transmit.data = some result ∧
      result.returned = true ∧ result.published = 1 ∧
      result.self = { r with
        swing_mode := swing_of_code env (swing_code env self.swing_mode &&& 0x0f)
        current_swing_mode_ := swing_of_code env (swing_code env self.swing_mode &&& 0x0f) } := by
  have hlen : ([0, 0, 1, 0, 0x21, swing_code env self.swing_mode, 0, 0, 0, 0, 0, 0, 0, 0] :
      List Nat).length = 14 := rfl
  have hl : ∀ b ∈ ([0, 0, 1, 0, 0x21, swing_code env self.swing_mode, 0, 0, 0, 0, 0, 0, 0, 0] :
      List Nat), b < 256 := by
    intro b hb
    simp only [List.mem_cons, List.mem_singleton, List.not_mem_nil, or_false] at hb
    rcases hb with rfl | rfl | rfl | rfl | rfl | rfl | rfl | rfl | rfl | rfl | rfl | rfl | rfl | rfl <;>
      omega
  have hget : ∀ i, 4 ≤ i → i ≤ 5 →
      ((finalized [0, 0, 1, 0, 0x21, swing_code env self.swing_mode, 0, 0, 0, 0, 0, 0, 0, 0]
        1).take (6 + 1) ++ List.replicate (8 - 1) 0)[i]? =
        ([0, 0, 1, 0, 0x21, swing_code env self.swing_mode, 0, 0, 0, 0, 0, 0, 0, 0] :
          List Nat)[i]? := by
    intro i h4 h5
    rw [getElem?_take_append_replicate _ _ _ _ (by omega) (by simp [finalized]),
      finalized_getElem?_payload _ _ _ h4 (by omega)]
  have hrx := on_receive_transmit_frame env hok r _ 1 hlen rfl (by omega) hl
  rw [receive_command_motion env _ r (swing_code env self.swing_mode)
    (by rw [hget 4 (by omega) (by omega)]; rfl) (by rw [hget 5 (by omega) (by omega)]; rfl)] at hrx
  exact ⟨_, _, _, _, add_motion_command_data_zero env self,
    transmit_frame_eq env _ 1 hlen rfl (by omega), hrx, rfl, rfl, rfl⟩

theorem motion_code_lt (model : Model) (swing : ClimateSwingMode) :
    motion_code model swing < 256 := by
  cases model <;> cases swing <;> decide

theorem swing_of_code_motion_code (env : Env) (model : Model) (swing : ClimateSwingMode)
    (hswing : swing ≠ CLIMATE_SWING_UNNAMED) :
    swing_of_code (setup model (initial_globals env)) (motion_code model swing &&& 0x0f) =
      if model = Model.MODEL_OTHER ∧ swing = CLIMATE_SWING_BOTH then CLIMATE_SWING_OFF
      else swing := by
  cases model <;> cases swing <;> first | rfl | exact absurd rfl hswing

theorem default_changed_iff (self : ToshibaClimate) :
    default_changed self = true ↔
      (self.current_mode_ ≠ self.mode ∨ self.current_fan_mode_ ≠ self.fan_mode ∨
        self.current_temperature_ ≠ (self.target_temperature % 256).toNat) := by
  simp [default_changed, or_assoc]

theorem swing_after_eq (self : ToshibaClimate) :
    swing_after self =
      (if (self.current_mode_ ≠ self.mode ∨ self.current_fan_mode_ ≠ self.fan_mode ∨
          self.current_temperature_ ≠ (self.target_temperature % 256).toNat) ∧
          self.current_mode_ = CLIMATE_MODE_OFF then CLIMATE_SWING_VERTICAL
        else self.swing_mode) := by
  have hdc := default_changed_iff self
  by_cases hc : default_changed self = true
  · simp [swing_after, hc, hdc.mp hc]
  · have hc0 : default_changed self = false := by simpa using hc
    rw [if_neg (fun h => hc (hdc.mpr h.1))]
    simp [swing_after, hc0]

theorem getElem?_append_replicate_zero (bytes : List Nat) (k i : Nat)
    (hi : i < bytes.length + k) :
    (bytes ++ List.replicate k 0)[i]? = some (bytes.getD i 0) := by
  by_cases h : i < bytes.length
  · rw [List.getElem?_append_left h, List.getD_eq_getElem _ _ h, List.getElem?_eq_getElem h]
  · rw [List.getElem?_append_right (by omega), List.getD_eq_default _ _ (by omega),
      List.getElem?_replicate, if_pos (by omega)]

theorem receive_command_congr (env : Env) (frame frame' : List Nat) (self : ToshibaClimate)
    (h4 : frame[4]? = frame'[4]?) (h5 : frame[5]? = frame'[5]?) (h6 : frame[6]? = frame'[6]?) :
    receive_command env frame self = receive_command env frame' self := by
  simp only [receive_command, h4, h5, h6]

theorem on_receive_valid (env : Env) (hok : ReceiverOk env) (r : ToshibaClimate)
    (bytes : List Nat) (d : Nat) (wf : WireFrame bytes d)
    (hv1 : validate_header bytes = true) (hv2 : validate_payload bytes = true) :
    on_receive env r (wire_transmission bytes).data =
      (receive_command env (bytes ++ List.replicate (8 - d) 0) r).map fun s =>
        { returned := true, site := ReturnSite.accepted,
          data := [Pulse.mark 540, Pulse.space 5480] ++ wire_repetition bytes,
          self := s, published := 1 } := by
  have h := on_receive_wire env hok r bytes d
    ([Pulse.mark 540, Pulse.space 5480] ++ wire_repetition bytes) wf
  rw [hv1, hv2] at h
  simp only [Bool.true_eq_false, if_false] at h
  rw [← h]
  simp [wire_transmission, wire_repetition]

theorem wireFrame_frame_of (b0 b1 d command : Nat) (payload : List Nat) (hb0 : b0 < 256)
    (hb1 : b1 < 256) (hd8 : d ≤ 8) (hc : command < 256) (hlen : payload.length = d)
    (hp : ∀ b ∈ payload, b < 256) : WireFrame (frame_of b0 b1 d command payload) d where
  length_eq := by simp [frame_of, hlen]; omega
  data_length := by simp [frame_of]
  le_max := hd8
  byte_lt := by
    intro b hb
    have h01 : b0 ^^^ b1 < 2 ^ 8 :=
      Nat.xor_lt_two_pow (by simpa using hb0) (by simpa using hb1)
    have hc1 : b0 ^^^ b1 ^^^ d < 2 ^ 8 :=
      Nat.xor_lt_two_pow h01 (show d < 2 ^ 8 by norm_num; omega)
    have hc2 : (command :: payload).foldl (· ^^^ ·) 0 < 256 := by
      apply foldl_xor_lt _ _ 0 (by omega)
      intro x hx
      rcases List.mem_cons.mp hx with rfl | hx
      · exact hc
      · exact hp x hx
    simp only [frame_of, List.cons_append, List.nil_append, List.mem_cons, List.mem_append,
      List.mem_singleton, List.not_mem_nil, or_false] at hb
    rcases hb with rfl | rfl | rfl | rfl | rfl | hb | rfl
    · exact hb0
    · exact hb1
    · omega
    · simpa using hc1
    · exact hc
    · exact hp b hb
    · exact hc2

theorem validate_header_frame_of (b0 b1 d command : Nat) (payload : List Nat) :
    validate_header (frame_of b0 b1 d command payload) = true := by
  simp [validate_header, frame_of]

theorem validate_payload_frame_of (b0 b1 d command : Nat) (payload : List Nat)
    (hlen : payload.length = d) :
    validate_payload (frame_of b0 b1 d command payload) = true := by
  have hl : (frame_of b0 b1 d command payload).length = 6 + d := by
    simp [frame_of, hlen]; omega
  have htake : ((frame_of b0 b1 d command payload).drop 4).take (d + 1) = command :: payload := by
    simp only [frame_of, List.cons_append, List.nil_append, List.drop_succ_cons, List.drop_zero,
      List.take_succ_cons]
    rw [List.take_append_of_le_length (by omega), List.take_of_length_le (by omega)]
  have hlast : (frame_of b0 b1 d command payload).getD (6 + d - 1) 0 =
      (command :: payload).foldl (· ^^^ ·) 0 := by
    rw [List.getD_eq_getElem?_getD]
    have : 6 + d - 1 = ([b0, b1, d, b0 ^^^ b1 ^^^ d, command] ++ payload).length := by
      simp [hlen]; omega
    rw [frame_of, this, List.getElem?_append_right (le_refl _)]
    simp
  simp only [validate_payload, hl, show 6 + d - 6 = d by omega, checksum_2, htake, hlast,
    beq_self_eq_true]

theorem getElem?_frame_of (b0 b1 b0' b1' d command : Nat) (payload : List Nat) (k i : Nat)
    (hi : 4 ≤ i) :
    (frame_of b0 b1 d command payload ++ List.replicate k 0)[i]? =
      (frame_of b0' b1' d command payload ++ List.replicate k 0)[i]? := by
  obtain ⟨j, rfl⟩ : ∃ j, i = j + 4 := ⟨i - 4, by omega⟩
  simp [frame_of]

theorem mode_of_code_ne_heat_cool (c : Nat) : mode_of_code c ≠ CLIMATE_MODE_HEAT_COOL := by
  unfold mode_of_code
  split_ifs <;> decide

theorem fan_of_code_mem (c : Nat) :
    fan_of_code c ∈ [CLIMATE_FAN_AUTO, CLIMATE_FAN_FOCUS, CLIMATE_FAN_LOW, CLIMATE_FAN_MIDDLE,
      CLIMATE_FAN_MEDIUM, CLIMATE_FAN_DIFFUSE, CLIMATE_FAN_HIGH] := by
  unfold fan_of_code
  split_ifs <;> decide

theorem shiftRight_4_le (b : Nat) (hb : b < 256) : b >>> 4 ≤ 15 := by
  rw [Nat.shiftRight_eq_div_pow]
  omega

theorem getD_lt (bytes : List Nat) (i : Nat) (hl : ∀ b ∈ bytes, b < 256) :
    bytes.getD i 0 < 256 := by
  by_cases h : i < bytes.length
  · rw [List.getD_eq_getElem _ _ h]
    exact hl _ (List.getElem_mem h)
  · rw [List.getD_eq_default _ _ (by omega)]
    omega

theorem Flow.Safe.imp {α : Type} {P Q : α → Prop} (h : ∀ a, P a → Q a) :
    ∀ {x : Flow α}, Flow.Safe P x → Flow.Safe Q x
  | Flow.next a, hx => h a hx
  | Flow.ret_false _ _, _ => trivial
  | Flow.fault, hx => hx

theorem receive_bits_safe (env : Env) (byte : Nat) :
    ∀ (n : Nat) (frame : List Nat) (data : List Pulse), byte < frame.length →
      Flow.Safe (fun p => p.1.length = frame.length ∧ ∀ j, j ≠ byte → p.1[j]? = frame[j]?)
        (receive_bits env byte n frame data) := by
  intro n
  induction n with
  | zero =>
    intro frame data _
    exact ⟨rfl, fun _ _ => rfl⟩
  | succ n ih =>
    intro frame data hb
    rw [receive_bits]
    cases expect_item env TOSHIBA_BIT_MARK TOSHIBA_ONE_SPACE data with
    | some data1 =>
      simp only [List.getElem?_eq_getElem hb]
      refine Flow.Safe.imp ?_ (ih _ data1 (by simpa using hb))
      rintro ⟨frame', data'⟩ ⟨hlen, hget⟩
      refine ⟨by simpa using hlen, fun j hj => ?_⟩
      rw [hget j hj, List.getElem?_set_ne (fun h => hj h.symm)]
    | none =>
      simp only
      cases expect_item env TOSHIBA_BIT_MARK TOSHIBA_ZERO_SPACE data with
      | some data1 => exact ih frame data1 hb
      | none => exact trivial

theorem receive_bytes_safe (env : Env) (frame_length : Nat) (hL : frame_length ≤ 14) :
    ∀ (fuel byte : Nat) (frame : List Nat) (data : List Pulse), frame.length = 14 → 4 ≤ byte →
      Flow.Safe (fun p => p.1 = frame_length ∧ p.2.1.length = 14 ∧ p.2.1[2]? = frame[2]?)
        (receive_bytes env fuel byte frame_length frame data) := by
  intro fuel
  induction fuel with
  | zero =>
    intro byte frame data hlen _
    exact ⟨rfl, hlen, rfl⟩
  | succ fuel ih =>
    intro byte frame data hlen hb
    rw [receive_bytes]
    by_cases hlt : byte < frame_length
    · rw [if_pos hlt]
      have hbits := receive_bits_safe env byte 8 frame data (by omega)
      cases hres : receive_bits env byte 8 frame data with
      | fault => rw [hres] at hbits; exact hbits
      | ret_false site data1 => exact trivial
      | next p =>
        obtain ⟨frame1, data1⟩ := p
        rw [hres] at hbits
        obtain ⟨hlen1, hget1⟩ := hbits
        simp only
        rw [if_neg (by omega)]
        refine Flow.Safe.imp ?_ (ih (byte + 1) frame1 data1 (by simpa [hlen] using hlen1)
          (by omega))
        rintro ⟨L, frame', data'⟩ ⟨h1, h2, h3⟩
        exact ⟨h1, h2, by rw [h3]; exact hget1 2 (by omega)⟩
    · rw [if_neg hlt]
      exact ⟨rfl, hlen, rfl⟩

theorem receive_bytes_first_four (env : Env) (fuel : Nat) :
    ∀ (k byte : Nat) (frame : List Nat) (data : List Pulse), byte + k = 4 →
      receive_bytes env (fuel + k) byte TOSHIBA_FRAME_LENGTH_NO_DATA frame data =
        match receive_bytes env k byte TOSHIBA_FRAME_LENGTH_NO_DATA frame data with
        | Flow.next (frame_length, frame', data') => receive_bytes env fuel 4 frame_length frame' data'
        | Flow.ret_false site data' => Flow.ret_false site data'
        | Flow.fault => Flow.fault := by
  intro k
  induction k with
  | zero =>
    intro byte frame data hb
    have hb4 : byte = 4 := by omega
    subst hb4
    rfl
  | succ k ih =>
    intro byte frame data hb
    have hlt : byte < TOSHIBA_FRAME_LENGTH_NO_DATA := by
      simp only [TOSHIBA_FRAME_LENGTH_NO_DATA]; omega
    show receive_bytes env ((fuel + k) + 1) byte TOSHIBA_FRAME_LENGTH_NO_DATA frame data = _
    rw [receive_bytes, receive_bytes]
    simp only [if_pos hlt]
    cases receive_bits env byte 8 frame data with
    | fault => rfl
    | ret_false site data1 => rfl
    | next p =>
      obtain ⟨frame1, data1⟩ := p
      simp only
      by_cases h3 : byte = 3
      · have hk : k = 0 := by omega
        subst hk
        subst h3
        simp only [if_true]
        split
        · split
          · rfl
          · rfl
        · rfl
      · simp only [if_neg h3]
        exact ih (byte + 1) frame1 data1 (by omega)

theorem receive_bytes_first_four_safe (env : Env) :
    ∀ (k byte : Nat) (frame : List Nat) (data : List Pulse), byte + k = 4 → frame.length = 14 →
      Flow.Safe (fun p => p.2.1.length = 14 ∧ (1 ≤ k → p.1 = (p.2.1.getD 2 0 + 6) % 256))
        (receive_bytes env k byte TOSHIBA_FRAME_LENGTH_NO_DATA frame data) := by
  intro k
  induction k with
  | zero =>
    intro byte frame data _ hlen
    exact ⟨hlen, fun h => absurd h (by omega)⟩
  | succ k ih =>
    intro byte frame data hb hlen
    have hlt : byte < TOSHIBA_FRAME_LENGTH_NO_DATA := by
      simp only [TOSHIBA_FRAME_LENGTH_NO_DATA]; omega
    rw [receive_bytes, if_pos hlt]
    have hbits := receive_bits_safe env byte 8 frame data (by omega)
    cases hres : receive_bits env byte 8 frame data with
    | fault => rw [hres] at hbits; exact hbits
    | ret_false site data1 => exact trivial
    | next p =>
      obtain ⟨frame1, data1⟩ := p
      rw [hres] at hbits
      obtain ⟨hlen1, -⟩ := hbits
      have hlen1' : frame1.length = 14 := by simpa [hlen] using hlen1
      simp only
      by_cases h3 : byte = 3
      · have hk : k = 0 := by omega
        subst hk
        simp only [if_pos h3, List.getElem?_eq_getElem (show 0 < frame1.length by omega),
          List.getElem?_eq_getElem (show 1 < frame1.length by omega),
          List.getElem?_eq_getElem (show 2 < frame1.length by omega),
          List.getElem?_eq_getElem (show 3 < frame1.length by omega)]
        split
        · exact trivial
        · refine ⟨hlen1', fun _ => ?_⟩
          simp only [receive_bytes, TOSHIBA_FRAME_LENGTH_NO_DATA]
          rw [List.getD_eq_getElem _ _ (show 2 < frame1.length by omega)]
      · rw [if_neg h3]
        refine Flow.Safe.imp ?_ (ih (byte + 1) frame1 data1 (by omega) hlen1')
        rintro ⟨L, frame', data'⟩ ⟨h1, h2⟩
        exact ⟨h1, fun _ => h2 (by omega)⟩

theorem receive_command_total (env : Env) (frame : List Nat) (self : ToshibaClimate)
    (hlen : 7 ≤ frame.length) : ∃ s, receive_command env frame self = some s := by
  have h4 : frame[4]? = some frame[4] := List.getElem?_eq_getElem (by omega)
  have h5 : frame[5]? = some frame[5] := List.getElem?_eq_getElem (by omega)
  have h6 : frame[6]? = some frame[6] := List.getElem?_eq_getElem (by omega)
  by_cases hm : frame[4] = 0x21
  · exact ⟨_, receive_command_motion env frame self _ (by rw [h4, hm]) h5⟩
  · by_cases hdf : frame[4] = 0x01
    · exact ⟨_, receive_command_default env frame self _ _ (by rw [h4, hdf]) h5 h6⟩
    · exact ⟨_, receive_command_other env frame self _ h4 hm hdf⟩

theorem on_receive_atomic (env : Env) (r : ToshibaClimate) (data : List Pulse)
    (h : declares_at_most_8 env data = true) :
    ∃ res, on_receive env r data = some res ∧
      (res.returned = false → res.self = r ∧ res.published = 0) := by
  rw [on_receive]
  rw [declares_at_most_8] at h
  cases hh : expect_item env TOSHIBA_HEADER_MARK TOSHIBA_HEADER_SPACE data with
  | none => exact ⟨_, rfl, fun _ => ⟨rfl, rfl⟩⟩
  | some data1 =>
    rw [hh] at h
    simp only at h ⊢
    have hsplit := receive_bytes_first_four env 252 4 0
      (List.replicate TOSHIBA_FRAME_MAX_LENGTH 0) data1 rfl
    have hsafe := receive_bytes_first_four_safe env 4 0
      (List.replicate TOSHIBA_FRAME_MAX_LENGTH 0) data1 rfl (by simp [TOSHIBA_FRAME_MAX_LENGTH])
    rw [show (256 : Nat) = 252 + 4 from rfl, hsplit]
    cases h4 : receive_bytes env 4 0 TOSHIBA_FRAME_LENGTH_NO_DATA
        (List.replicate TOSHIBA_FRAME_MAX_LENGTH 0) data1 with
    | fault => rw [h4] at hsafe; exact absurd hsafe id
    | ret_false site data2 => exact ⟨_, rfl, fun _ => ⟨rfl, rfl⟩⟩
    | next p =>
      obtain ⟨L, frame, data2⟩ := p
      rw [h4] at hsafe h
      obtain ⟨hlen, hL⟩ := hsafe
      have hL := hL (by omega)
      simp only [decide_eq_true_eq] at h hlen hL
      have hL14 : L ≤ 14 := by omega
      have hsafe2 := receive_bytes_safe env L hL14 252 4 frame data2 hlen (le_refl _)
      simp only
      cases h5 : receive_bytes env 252 4 L frame data2 with
      | fault => rw [h5] at hsafe2; exact absurd hsafe2 id
      | ret_false site data3 => exact ⟨_, rfl, fun _ => ⟨rfl, rfl⟩⟩
      | next q =>
        obtain ⟨L', frame', data3⟩ := q
        rw [h5] at hsafe2
        obtain ⟨hL', hlen', hget2⟩ := hsafe2
        simp only at hL' hlen' hget2
        subst hL'
        have hd : frame'[2]? = some (frame.getD 2 0) := by
          rw [hget2, List.getD_eq_getElem _ _ (show 2 < frame.length by omega),
            List.getElem?_eq_getElem]
        have hsum : receive_checksum frame' L' =
            some (((frame'.drop 4).take (L' - 1 - 4)).foldl (· ^^^ ·) 0) := by
          rw [receive_checksum, foldlM_receive_checksum_step frame' _ 4 0 (by omega)]
        have hlast : frame'[L' - 1]? = some frame'[L' - 1] :=
          List.getElem?_eq_getElem (by omega)
        have hnz : (L' = 0) = False := by
          simp only [eq_iff_iff, iff_false]; omega
        obtain ⟨s, hs⟩ := receive_command_total env frame' r (by omega)
        simp only [hsum, Option.bind_eq_bind, Option.some_bind, hnz, if_false, hlast,
          log_frame_eq_some env frame' _ hlen' hd h, hs]
        by_cases hc : ((frame'.drop 4).take (L' - 1 - 4)).foldl (· ^^^ ·) 0 = frame'[L' - 1]
        · rw [if_neg (by simpa using hc)]
          exact ⟨_, rfl, fun hf => absurd hf (by simp)⟩
        · rw [if_pos (by simpa using hc)]
          exact ⟨_, rfl, fun _ => ⟨rfl, rfl⟩⟩

/-! ## The claims -/

/-- C1: for every 14-byte frame buffer whose data length byte `d = frame[2]` is
at most 8, `transmit_frame_` returns and leaves `frame[0] = 0xF2`,
`frame[1] = 0x0D`, `frame[3] = frame[0] xor frame[1] xor frame[2]` and the last
byte `frame[5 + d]` equal to the exclusive or of `frame[4 .. 4 + d]`, while byte
2 and bytes `4 .. 4 + d` keep the values they had before the call. -/
theorem C1_finalisation_checksums (env : Env) (frame : List Nat) (d : Nat)
    (hlen : frame.length = TOSHIBA_FRAME_MAX_LENGTH) (hd : frame[2]? = some d) (hd8 : d ≤ 8) :
    ∃ out transmit, transmit_frame_ env frame = some (out, transmit) ∧
      out.length = TOSHIBA_FRAME_MAX_LENGTH ∧
      out[0]? = some 0xf2 ∧ out[1]? = some 0x0d ∧ out[2]? = some d ∧
      out[3]? = some (0xf2 ^^^ 0x0d ^^^ d) ∧
      out[5 + d]? = some (((out.drop 4).take (d + 1)).foldl (· ^^^ ·) 0) ∧
      ∀ i, 4 ≤ i → i ≤ 4 + d → out[i]? = frame[i]? := by
  have hlen14 : frame.length = 14 := hlen
  refine ⟨_, _, transmit_frame_eq env frame d hlen14 hd hd8, ?_,
    finalized_getElem?_0 frame d hlen14, finalized_getElem?_1 frame d hlen14,
    finalized_getElem?_2 frame d hd, finalized_getElem?_3 frame d hlen14, ?_,
    fun i h4 hi => finalized_getElem?_payload frame d i h4 hi⟩
  · rw [finalized_length, hlen]
  · rw [finalized_getElem?_last frame d hlen14 hd8, ← checksum_2_finalized frame d]
    rfl

/-- C1 at the buffer `00 00 03 00 01 50 C1 00 ...` of the default command for
(cool, high, 22). -/
theorem C1_finalisation_checksums_witness :
    ∃ out transmit,
      transmit_frame_ generic_env [0, 0, 3, 0, 1, 0x50, 0xc1, 0, 0, 0, 0, 0, 0, 0] =
        some (out, transmit) ∧
      out.length = TOSHIBA_FRAME_MAX_LENGTH ∧
      out[0]? = some 0xf2 ∧ out[1]? = some 0x0d ∧ out[2]? = some 3 ∧
      out[3]? = some (0xf2 ^^^ 0x0d ^^^ 3) ∧
      out[5 + 3]? = some (((out.drop 4).take (3 + 1)).foldl (· ^^^ ·) 0) ∧
      ∀ i, 4 ≤ i → i ≤ 4 + 3 →
        out[i]? = ([0, 0, 3, 0, 1, 0x50, 0xc1, 0, 0, 0, 0, 0, 0, 0] : List Nat)[i]? :=
  C1_finalisation_checksums generic_env [0, 0, 3, 0, 1, 0x50, 0xc1, 0, 0, 0, 0, 0, 0, 0] 3
    (by decide) (by decide) (by decide)

/-- C2: round trip of the default command. For every mode in {auto, heat,
cool, dry, off}, every fan speed in {auto, focus (quiet), low, middle, medium,
diffuse, high} and every whole target temperature between `TOSHIBA_TEMP_MIN`
and `TOSHIBA_TEMP_MAX`, which are at most 15 apart, the default command is
built in a zeroed buffer, `transmit_frame_` transmits it, and `on_receive` on
the pulse train transmitted returns true and sets mode, fan mode and target
temperature to the encoded values, whatever the state of the receiving object
was. The receiver is one that accepts the nominal durations and tells a zero
space from a one space. -/
theorem C2_default_command_round_trip (env : Env) (hok : ReceiverOk env)
    (self r : ToshibaClimate)
    (hmode : self.mode ∈ [CLIMATE_MODE_AUTO, CLIMATE_MODE_HEAT, CLIMATE_MODE_COOL,
      CLIMATE_MODE_DRY, CLIMATE_MODE_OFF])
    (hfan : self.fan_mode ∈ [CLIMATE_FAN_AUTO, CLIMATE_FAN_FOCUS, CLIMATE_FAN_LOW,
      CLIMATE_FAN_MIDDLE, CLIMATE_FAN_MEDIUM, CLIMATE_FAN_DIFFUSE, CLIMATE_FAN_HIGH])
    (hmin : (env.TOSHIBA_TEMP_MIN : Int) ≤ self.target_temperature)
    (hmax : self.target_temperature ≤ (env.TOSHIBA_TEMP_MAX : Int))
    (hrange : env.TOSHIBA_TEMP_MAX - env.TOSHIBA_TEMP_MIN ≤ 15) :
    ∃ frame out transmit result,
      add_default_command_data_ env self (List.replicate TOSHIBA_FRAME_MAX_LENGTH 0) = some frame ∧
      transmit_frame_ env frame = some (out, transmit) ∧
      on_receive env r transmit.data = some result ∧
      result.returned = true ∧
      result.self.mode = self.mode ∧
      result.self.fan_mode = self.fan_mode ∧
      result.self.target_temperature = self.target_temperature := by
  obtain ⟨frame, out, transmit, result, h1, h2, h3, h4, _, h6⟩ :=
    default_command_round_trip env hok self r
  have hm1 : self.mode ≠ CLIMATE_MODE_HEAT_COOL := by
    intro h; rw [h] at hmode; simp at hmode
  have hm2 : self.mode ≠ CLIMATE_MODE_FAN_ONLY := by
    intro h; rw [h] at hmode; simp at hmode
  refine ⟨frame, out, transmit, result, h1, h2, h3, h4, ?_, ?_, ?_⟩
  · rw [h6]
    exact mode_of_code_mode_code self.mode self.fan_mode hm1
  · rw [h6]
    exact fan_of_code_fan_code self.mode self.fan_mode hfan
  · rw [h6]
    exact temperature_byte_decode env self hm2 hmin hmax hrange

/-- C2 at (cool, high, 22) for the generic model: the round trip holds, and
the frame sent is `F2 0D 03 FC 01 50 C1 00 90`. -/
theorem C2_default_command_round_trip_witness :
    (∃ frame out transmit result,
      add_default_command_data_ generic_env cool_high_22
        (List.replicate TOSHIBA_FRAME_MAX_LENGTH 0) = some frame ∧
      transmit_frame_ generic_env frame = some (out, transmit) ∧
      on_receive generic_env receiver_off transmit.data = some result ∧
      result.returned = true ∧
      result.self.mode = CLIMATE_MODE_COOL ∧
      result.self.fan_mode = CLIMATE_FAN_HIGH ∧
      result.self.target_temperature = 22) ∧
    ((add_default_command_data_ generic_env cool_high_22
        (List.replicate TOSHIBA_FRAME_MAX_LENGTH 0)).bind (transmit_frame_ generic_env)).map
      (fun sent => sent.1.take 9) = some [0xf2, 0x0d, 0x03, 0xfc, 0x01, 0x50, 0xc1, 0x00, 0x90] :=
  ⟨C2_default_command_round_trip generic_env receiverOk_generic_env cool_high_22 receiver_off
    (by decide) (by decide) (by decide) (by decide) (by decide), by decide⟩

/-- C3 fails on the code: `on_receive` has no check of the declared length
against `TOSHIBA_FRAME_MAX_LENGTH`. The capture of the five bytes
`F2 0D FF 00 00` passes the first checksum and declares the data length 0xFF;
the 8-bit sum `0xFF + 6` wraps to 5, one more byte is decoded, the second
checksum over the empty range is 0 and equals `frame[4]`, and the frame is
accepted (`on_receive` returns true); with debug logging compiled in,
`log_frame` throws instead. The capture of `F2 0D 09 F6` followed by eleven
bytes `01` declares the data length 9 and makes the decoder write `frame[14]`,
outside the buffer. In no case does `on_receive` return false. -/
theorem C3_declared_length_not_checked :
    on_receive generic_env receiver_off (wire_repetition [0xf2, 0x0d, 0xff, 0x00, 0x00]) =
      some { returned := true, site := ReturnSite.accepted,
             data := [Pulse.mark 540, Pulse.space 5480], self := receiver_off, published := 1 } ∧
    on_receive { generic_env with esp_logd := true } receiver_off
      (wire_repetition [0xf2, 0x0d, 0xff, 0x00, 0x00]) = none ∧
    on_receive generic_env receiver_off
      (wire_repetition [0xf2, 0x0d, 0x09, 0xf6, 1, 1, 1, 1, 1, 1, 1, 1, 1, 1, 1]) = none := by
  refine ⟨by decide, by decide, by decide⟩

/-- C4: for every frame finalised by `transmit_frame_` with data length at most
8 and every one of the 32 bit positions of bytes 0 to 3 (bit `k` of byte `i`),
`on_receive` on the pulse encoding of the frame with that bit flipped returns
false at the first checksum check: what is left of the capture is everything
after the header pair and the first 32 bits (66 entries), so no bit of byte 4
or later has been consumed, the object is unchanged and nothing is
published. -/
theorem C4_header_bit_flip_rejected (env : Env) (hok : ReceiverOk env) (r : ToshibaClimate)
    (frame out : List Nat) (transmit : Transmission) (d i k : Nat)
    (hlen : frame.length = TOSHIBA_FRAME_MAX_LENGTH) (hd : frame[2]? = some d) (hd8 : d ≤ 8)
    (hl : ∀ b ∈ frame, b < 256) (htx : transmit_frame_ env frame = some (out, transmit))
    (hi : i < 4) (hk : k < 8) :
    on_receive env r (wire_transmission (flip_bit (out.take (6 + d)) i k)).data =
      some { returned := false, site := ReturnSite.checksum_1_mismatch,
             data := (wire_transmission (flip_bit (out.take (6 + d)) i k)).data.drop 66,
             self := r, published := 0 } := by
  have hlen14 : frame.length = 14 := hlen
  rw [transmit_frame_eq env frame d hlen14 hd hd8] at htx
  obtain ⟨rfl, -⟩ := Prod.mk.inj (Option.some.inj htx)
  have hwf := wireFrame_finalized frame d hlen14 hd hd8 hl
  have h := on_receive_flip_header env hok r ((finalized frame d).take (6 + d))
    ([Pulse.mark 540, Pulse.space 5480] ++
      wire_repetition (flip_bit ((finalized frame d).take (6 + d)) i k))
    (by rw [hwf.length_eq]; omega) hwf.byte_lt (validate_header_finalized frame d hlen14 hd)
    i k hi hk
  simpa [wire_transmission, wire_repetition] using h

/-- C5: for every frame finalised by `transmit_frame_` with data length `d`
at most 8 and every bit position in the payload bytes `5 .. 4 + d` (bit `k` of
byte `i`; there is such a byte when `1 ≤ d`), `on_receive` on the pulse encoding of the frame with that bit
flipped gets past the first checksum and returns false at the comparison of
the second checksum; the object, so mode, fan mode and target temperature, is
unchanged and nothing is published. -/
theorem C5_payload_bit_flip_rejected (env : Env) (hok : ReceiverOk env) (r : ToshibaClimate)
    (frame out : List Nat) (transmit : Transmission) (d i k : Nat)
    (hlen : frame.length = TOSHIBA_FRAME_MAX_LENGTH) (hd : frame[2]? = some d)
    (hd8 : d ≤ 8) (hl : ∀ b ∈ frame, b < 256)
    (htx : transmit_frame_ env frame = some (out, transmit))
    (h5 : 5 ≤ i) (hi : i ≤ 4 + d) (hk : k < 8) :
    ∃ result,
      on_receive env r (wire_transmission (flip_bit (out.take (6 + d)) i k)).data = some result ∧
      result.returned = false ∧ result.site = ReturnSite.checksum_2_mismatch ∧
      result.self = r ∧ result.published = 0 := by
  have hlen14 : frame.length = 14 := hlen
  rw [transmit_frame_eq env frame d hlen14 hd hd8] at htx
  obtain ⟨rfl, -⟩ := Prod.mk.inj (Option.some.inj htx)
  have hwf := wireFrame_finalized frame d hlen14 hd hd8 hl
  have h := on_receive_wire env hok r (flip_bit ((finalized frame d).take (6 + d)) i k) d
    ([Pulse.mark 540, Pulse.space 5480] ++
      wire_repetition (flip_bit ((finalized frame d).take (6 + d)) i k))
    (wireFrame_flip _ d i k hwf (by omega) hk)
  rw [validate_header_flip _ i k (by omega), validate_header_finalized frame d hlen14 hd,
    validate_payload_flip _ d i k hwf.length_eq (by omega) hi
      (validate_payload_finalized frame d hlen14 hd8)] at h
  simp only [Bool.true_eq_false, if_false, if_true] at h
  refine ⟨{ returned := false, site := ReturnSite.checksum_2_mismatch,
             data := [Pulse.mark 540, Pulse.space 5480] ++
               wire_repetition (flip_bit ((finalized frame d).take (6 + d)) i k),
             self := r, published := 0 }, ?_, rfl, rfl, rfl, rfl⟩
  rw [← h]
  simp [wire_transmission, wire_repetition]

/-- C4 at the default command frame for (cool, high, 22) with bit 7 of the data
length byte flipped (`F2 0D 83 FC ...`). -/
theorem C4_header_bit_flip_rejected_witness :
    on_receive generic_env receiver_off
        (wire_transmission (flip_bit
          (([0xf2, 0x0d, 0x03, 0xfc, 0x01, 0x50, 0xc1, 0x00, 0x90, 0, 0, 0, 0, 0] : List Nat).take
            (6 + 3)) 2 7)).data =
      some { returned := false, site := ReturnSite.checksum_1_mismatch,
             data := (wire_transmission (flip_bit
              (([0xf2, 0x0d, 0x03, 0xfc, 0x01, 0x50, 0xc1, 0x00, 0x90, 0, 0, 0, 0, 0] :
                List Nat).take (6 + 3)) 2 7)).data.drop 66,
             self := receiver_off, published := 0 } :=
  C4_header_bit_flip_rejected generic_env receiverOk_generic_env receiver_off
    [0, 0, 3, 0, 1, 0x50, 0xc1, 0, 0, 0, 0, 0, 0, 0]
    [0xf2, 0x0d, 0x03, 0xfc, 0x01, 0x50, 0xc1, 0x00, 0x90, 0, 0, 0, 0, 0]
    (wire_transmission [0xf2, 0x0d, 0x03, 0xfc, 0x01, 0x50, 0xc1, 0x00, 0x90]) 3 2 7
    (by decide) (by decide) (by decide) (by decide)
    (transmit_frame_eq generic_env _ 3 rfl rfl (by decide)) (by decide) (by decide)

/-- C5 at the default command frame for (cool, high, 22) with bit 4 of the
temperature byte flipped (`... 01 40 C1 00 90`). -/
theorem C5_payload_bit_flip_rejected_witness :
    ∃ result,
      on_receive generic_env receiver_off
        (wire_transmission (flip_bit
          (([0xf2, 0x0d, 0x03, 0xfc, 0x01, 0x50, 0xc1, 0x00, 0x90, 0, 0, 0, 0, 0] : List Nat).take
            (6 + 3)) 5 4)).data = some result ∧
      result.returned = false ∧ result.site = ReturnSite.checksum_2_mismatch ∧
      result.self = receiver_off ∧ result.published = 0 :=
  C5_payload_bit_flip_rejected generic_env receiverOk_generic_env receiver_off
    [0, 0, 3, 0, 1, 0x50, 0xc1, 0, 0, 0, 0, 0, 0, 0]
    [0xf2, 0x0d, 0x03, 0xfc, 0x01, 0x50, 0xc1, 0x00, 0x90, 0, 0, 0, 0, 0]
    (wire_transmission [0xf2, 0x0d, 0x03, 0xfc, 0x01, 0x50, 0xc1, 0x00, 0x90]) 3 5 4
    (by decide) (by decide) (by decide) (by decide)
    (transmit_frame_eq generic_env _ 3 rfl rfl (by decide)) (by decide) (by decide) (by decide)

/-- C6: for every frame of `6 + d` bytes with data length `d` at most 8 that
passes both checksums and whose command byte `frame[4]` is neither 0x01
(default) nor 0x21 (motion), `on_receive` on its pulse encoding returns true
and leaves every field of the object, the outward state and the snapshot, as
it was before the call. -/
theorem C6_unknown_command_ignored (env : Env) (hok : ReceiverOk env) (r : ToshibaClimate)
    (bytes : List Nat) (d : Nat) (wf : WireFrame bytes d)
    (hv1 : validate_header bytes = true) (hv2 : validate_payload bytes = true)
    (hdefault : bytes[4]? ≠ some 0x01) (hmotion : bytes[4]? ≠ some 0x21) :
    ∃ result,
      on_receive env r (wire_transmission bytes).data = some result ∧
      result.returned = true ∧ result.self = r := by
  have h := on_receive_wire env hok r bytes d
    ([Pulse.mark 540, Pulse.space 5480] ++ wire_repetition bytes) wf
  rw [hv1, hv2] at h
  simp only [Bool.true_eq_false, if_false] at h
  have hlt : 4 < bytes.length := by rw [wf.length_eq]; omega
  obtain ⟨c, h4⟩ : ∃ c, bytes[4]? = some c := ⟨bytes[4], List.getElem?_eq_getElem hlt⟩
  have hcmd : receive_command env (bytes ++ List.replicate (8 - d) 0) r = some r := by
    apply receive_command_other env _ r c
    · rw [List.getElem?_append_left (by rw [wf.length_eq]; omega), h4]
    · intro hc; rw [h4, hc] at hmotion; exact hmotion rfl
    · intro hc; rw [h4, hc] at hdefault; exact hdefault rfl
  rw [hcmd, Option.map_some'] at h
  refine ⟨{ returned := true, site := ReturnSite.accepted,
            data := [Pulse.mark 540, Pulse.space 5480] ++ wire_repetition bytes,
            self := r, published := 1 }, ?_, rfl, rfl⟩
  rw [← h]
  simp [wire_transmission, wire_repetition]

/-- C6 at the frame `F2 0D 01 FE 09 03 0A`, a power command (0x09). -/
theorem C6_unknown_command_ignored_witness :
    ∃ result,
      on_receive generic_env receiver_off
        (wire_transmission [0xf2, 0x0d, 0x01, 0xfe, 0x09, 0x03, 0x0a]).data = some result ∧
      result.returned = true ∧ result.self = receiver_off :=
  C6_unknown_command_ignored generic_env receiverOk_generic_env receiver_off
    [0xf2, 0x0d, 0x01, 0xfe, 0x09, 0x03, 0x0a] 1
    ⟨by decide, by decide, by decide, by decide⟩ (by decide) (by decide) (by decide) (by decide)

/-- C7: for every requested target temperature and every fan speed, when the
mode is fan-only `add_default_command_data_` writes payload byte 0 (`frame[5]`)
as `(22 - TOSHIBA_TEMP_MIN) << 4`, whatever the requested target temperature
is, and decoding the frame transmitted yields the target temperature 22. The
constant `TOSHIBA_TEMP_MIN` is such that 22 is one of the sixteen encodable
temperatures (it is for 17, where the byte is 0x50). -/
theorem C7_fan_only_temperature_pin (env : Env) (hok : ReceiverOk env) (self r : ToshibaClimate)
    (hmode : self.mode = CLIMATE_MODE_FAN_ONLY) (hmin : env.TOSHIBA_TEMP_MIN ≤ 22)
    (hrange : 22 - env.TOSHIBA_TEMP_MIN ≤ 15) :
    ∃ frame out transmit result,
      add_default_command_data_ env self (List.replicate TOSHIBA_FRAME_MAX_LENGTH 0) = some frame ∧
      frame[5]? = some ((22 - env.TOSHIBA_TEMP_MIN) <<< 4) ∧
      transmit_frame_ env frame = some (out, transmit) ∧
      on_receive env r transmit.data = some result ∧
      result.returned = true ∧
      result.self.target_temperature = 22 := by
  obtain ⟨frame, out, transmit, result, h1, h2, h3, h4, _, h6⟩ :=
    default_command_round_trip env hok self r
  have hb := temperature_byte_fan_only env self hmode hmin hrange
  refine ⟨frame, out, transmit, result, h1, ?_, h2, h3, h4, ?_⟩
  · rw [add_default_command_data_zero env self] at h1
    rw [← Option.some.inj h1, ← hb]
    rfl
  · rw [h6]
    simp only [hb, Nat.shiftLeft_eq, Nat.shiftRight_eq_div_pow]
    omega

/-- C7 for the generic model (`TOSHIBA_TEMP_MIN = 17`) at a request of 30
degrees: the byte is `(22 - 17) << 4 = 0x50`. -/
theorem C7_fan_only_temperature_pin_witness :
    ∃ frame out transmit result,
      add_default_command_data_ generic_env fan_only_30
        (List.replicate TOSHIBA_FRAME_MAX_LENGTH 0) = some frame ∧
      frame[5]? = some ((22 - generic_env.TOSHIBA_TEMP_MIN) <<< 4) ∧
      transmit_frame_ generic_env frame = some (out, transmit) ∧
      on_receive generic_env receiver_off transmit.data = some result ∧
      result.returned = true ∧
      result.self.target_temperature = 22 :=
  C7_fan_only_temperature_pin generic_env receiverOk_generic_env fan_only_30 receiver_off
    (by decide) (by decide) (by decide)

/-- C10: for every frame finalised by `transmit_frame_` with total length
`L = 6 + d` between 6 and 14, what is handed to the transmitter is the carrier
frequency 38000 and the duration sequence `rep ++ rep`, where `rep` is the
header mark 4380 and space 4370, then for each of the `L` bytes in order and
each bit from bit 7 down to bit 0 a mark 540 followed by a space 1620 for a one
and 540 for a zero, then the mark 540 and the space 5480; it has
`2 * (8 * L + 2)` mark and space pairs, so twice that many entries. -/
theorem C10_wire_format (env : Env) (frame : List Nat) (d : Nat)
    (hlen : frame.length = TOSHIBA_FRAME_MAX_LENGTH) (hd : frame[2]? = some d) (hd8 : d ≤ 8) :
    ∃ out transmit,
      transmit_frame_ env frame = some (out, transmit) ∧
      transmit.carrier_frequency = 38000 ∧
      transmit.data = wire_repetition (out.take (6 + d)) ++ wire_repetition (out.take (6 + d)) ∧
      transmit.data.length = 2 * (2 * (8 * (6 + d) + 2)) := by
  have hlen14 : frame.length = 14 := hlen
  refine ⟨_, _, transmit_frame_eq env frame d hlen14 hd hd8, rfl, rfl, ?_⟩
  simp only [wire_transmission, List.length_append, length_wire_repetition, List.length_take,
    finalized_length, hlen14]
  omega

/-- C10 at the buffer of the default command for (cool, high, 22): nine bytes,
148 pairs. -/
theorem C10_wire_format_witness :
    ∃ out transmit,
      transmit_frame_ generic_env [0, 0, 3, 0, 1, 0x50, 0xc1, 0, 0, 0, 0, 0, 0, 0] =
        some (out, transmit) ∧
      transmit.carrier_frequency = 38000 ∧
      transmit.data = wire_repetition (out.take (6 + 3)) ++ wire_repetition (out.take (6 + 3)) ∧
      transmit.data.length = 2 * (2 * (8 * (6 + 3) + 2)) :=
  C10_wire_format generic_env [0, 0, 3, 0, 1, 0x50, 0xc1, 0, 0, 0, 0, 0, 0, 0] 3
    (by decide) (by decide) (by decide)

/-- C8 as stated fails when the snapshot swing mode is already vertical: the
snapshot mode is off, the desired mode is cool and the desired swing mode
equals the snapshot swing mode, yet `transmit_state` transmits the default
command frame `F2 0D 03 FC 01 50 C1 00 90` only, and no motion command
frame. -/
theorem C8_counterexample_snapshot_vertical :
    off_to_cool_vertical.current_mode_ = CLIMATE_MODE_OFF ∧
    off_to_cool_vertical.mode = CLIMATE_MODE_COOL ∧
    off_to_cool_vertical.swing_mode = off_to_cool_vertical.current_swing_mode_ ∧
    (transmit_state generic_env off_to_cool_vertical).map (fun res => res.transmitted) =
      some [wire_transmission [0xf2, 0x0d, 0x03, 0xfc, 0x01, 0x50, 0xc1, 0x00, 0x90]] := by
  refine ⟨rfl, rfl, rfl, ?_⟩
  rw [transmit_state_eq]
  rfl

/-- C8, amended: for every state in which the snapshot mode is off, the desired
mode is cool and the desired swing mode equals the snapshot swing mode,
`transmit_state` returns, the outward swing mode is vertical after the call,
the default command frame is transmitted, and when that swing mode is not
vertical a motion command frame whose payload is the vertical swing code is
transmitted after it; when it is vertical already, no motion frame is
sent. -/
theorem C8_off_to_on_swing_override (env : Env) (self : ToshibaClimate)
    (hoff : self.current_mode_ = CLIMATE_MODE_OFF) (hcool : self.mode = CLIMATE_MODE_COOL)
    (hswing : self.swing_mode = self.current_swing_mode_) :
    ∃ res, transmit_state env self = some res ∧
      res.self.swing_mode = CLIMATE_SWING_VERTICAL ∧
      res.transmitted =
        if self.swing_mode = CLIMATE_SWING_VERTICAL then
          [wire_transmission (default_command_frame env self)]
        else
          [wire_transmission (default_command_frame env self),
            wire_transmission [0xf2, 0x0d, 0x01, 0xfe, 0x21, env.toshiba_motion_swing_vertical,
              0x21 ^^^ env.toshiba_motion_swing_vertical]] := by
  have hc : default_changed self = true := by
    simp [default_changed, hoff, hcool]
  have hsa : swing_after self = CLIMATE_SWING_VERTICAL := by
    simp [swing_after, hc, hoff]
  refine ⟨_, transmit_state_eq env self, hsa, ?_⟩
  simp only [hc, hsa, if_true, ← hswing]
  by_cases hv : self.swing_mode = CLIMATE_SWING_VERTICAL
  · simp [hv]
  · simp [hv, motion_command_frame, swing_code]

/-- C8, amended, at a state whose snapshot is off with swing off: the default
frame and then the motion frame `F2 0D 01 FE 21 01 20` are transmitted. -/
theorem C8_off_to_on_swing_override_witness :
    ∃ res, transmit_state generic_env off_to_cool_swing_off = some res ∧
      res.self.swing_mode = CLIMATE_SWING_VERTICAL ∧
      res.transmitted =
        if off_to_cool_swing_off.swing_mode = CLIMATE_SWING_VERTICAL then
          [wire_transmission (default_command_frame generic_env off_to_cool_swing_off)]
        else
          [wire_transmission (default_command_frame generic_env off_to_cool_swing_off),
            wire_transmission [0xf2, 0x0d, 0x01, 0xfe, 0x21,
              generic_env.toshiba_motion_swing_vertical,
              0x21 ^^^ generic_env.toshiba_motion_swing_vertical]] :=
  C8_off_to_on_swing_override generic_env off_to_cool_swing_off (by decide) (by decide)
    (by decide)

/-- C9: for every state (any desired mode, fan speed, whole target temperature,
swing mode and any snapshot), `transmit_state` returns, and a second call of
`transmit_state` on the state the first call leaves transmits no frame,
publishes nothing and leaves that state unchanged. -/
theorem C9_transmit_state_idempotent (env : Env) (self : ToshibaClimate) :
    ∃ first, transmit_state env self = some first ∧
      transmit_state env first.self =
        some { self := first.self, transmitted := [], published := 0 } := by
  refine ⟨_, transmit_state_eq env self, ?_⟩
  rw [transmit_state_eq]
  simp [default_changed, swing_after, static_cast_uint8]

/-- C11: layout of the default command. For every state,
`add_default_command_data_` applied to a zeroed buffer returns and sets
`frame[2] = 3` and `frame[4] = 0x01`, sets `frame[6]` to the mode code in the
low nibble (off 7, heat 3, cool 1, fan-only 4, dry 2, anything else 0) or-ed
with the fan code in the high nibble (quiet 0x20, speeds 1 to 5 0x40 to 0xC0,
anything else 0x00), leaves `frame[7]` zero, and sets `frame[5]`, whose low
nibble is zero, to `(clamp(t, TEMP_MIN, TEMP_MAX) - TEMP_MIN) << 4` for every
mode other than fan-only and every whole target temperature `t`, inside the
range or not. In fan-only mode `frame[5]` is the 8-bit value of
`(22 - TEMP_MIN) << 4`. The constants are such that the range has at most
sixteen temperatures. -/
theorem C11_default_command_layout (env : Env) (self : ToshibaClimate)
    (hle : env.TOSHIBA_TEMP_MIN ≤ env.TOSHIBA_TEMP_MAX)
    (hrange : env.TOSHIBA_TEMP_MAX - env.TOSHIBA_TEMP_MIN ≤ 15) :
    ∃ frame,
      add_default_command_data_ env self (List.replicate TOSHIBA_FRAME_MAX_LENGTH 0) = some frame ∧
      frame[2]? = some 3 ∧ frame[4]? = some 0x01 ∧
      frame[6]? = some (mode_code self.mode ||| fan_code self.fan_mode) ∧
      mode_code self.mode < 16 ∧ fan_code self.fan_mode % 16 = 0 ∧ fan_code self.fan_mode < 256 ∧
      frame[7]? = some 0 ∧
      frame[5]? = some
        (if self.mode = CLIMATE_MODE_FAN_ONLY then
          ((((22 : Int) - (env.TOSHIBA_TEMP_MIN : Int)) * 16) % 256).toNat
        else
          (clamp self.target_temperature env.TOSHIBA_TEMP_MIN env.TOSHIBA_TEMP_MAX -
            (env.TOSHIBA_TEMP_MIN : Int)).toNat <<< 4) ∧
      (∃ b, frame[5]? = some b ∧ b &&& 0x0f = 0) := by
  refine ⟨_, add_default_command_data_zero env self, rfl, rfl, rfl, mode_code_lt self.mode,
    ?_, ?_, rfl, ?_, ⟨temperature_byte env self, rfl, ?_⟩⟩
  · cases self.fan_mode <;> decide
  · cases self.fan_mode <;> decide
  · by_cases hm : self.mode = CLIMATE_MODE_FAN_ONLY
    · simp [hm, temperature_byte, encoded_temperature]
    · simp only [hm, if_false, List.getElem?_cons_succ, List.getElem?_cons_zero]
      rw [temperature_byte_clamped env self hm hle hrange]
  · have h := temperature_byte_low_nibble env self
    have h2 : temperature_byte env self &&& 0x0f = temperature_byte env self % 2 ^ 4 :=
      Nat.and_pow_two_sub_one_eq_mod _ 4
    rw [h2]
    simpa using h

/-- C11 for the generic model at (heat, middle, 40 degrees): the target is
clamped to 30 and the buffer is `00 00 03 00 01 D0 63 00 ...`. -/
theorem C11_default_command_layout_witness :
    (∃ frame,
      add_default_command_data_ generic_env heat_middle_40
        (List.replicate TOSHIBA_FRAME_MAX_LENGTH 0) = some frame ∧
      frame[2]? = some 3 ∧ frame[4]? = some 0x01 ∧
      frame[6]? = some (mode_code heat_middle_40.mode ||| fan_code heat_middle_40.fan_mode) ∧
      mode_code heat_middle_40.mode < 16 ∧ fan_code heat_middle_40.fan_mode % 16 = 0 ∧
      fan_code heat_middle_40.fan_mode < 256 ∧
      frame[7]? = some 0 ∧
      frame[5]? = some
        (if heat_middle_40.mode = CLIMATE_MODE_FAN_ONLY then
          ((((22 : Int) - (generic_env.TOSHIBA_TEMP_MIN : Int)) * 16) % 256).toNat
        else
          (clamp heat_middle_40.target_temperature generic_env.TOSHIBA_TEMP_MIN
            generic_env.TOSHIBA_TEMP_MAX - (generic_env.TOSHIBA_TEMP_MIN : Int)).toNat <<< 4) ∧
      (∃ b, frame[5]? = some b ∧ b &&& 0x0f = 0)) ∧
    add_default_command_data_ generic_env heat_middle_40
        (List.replicate TOSHIBA_FRAME_MAX_LENGTH 0) =
      some [0, 0, 3, 0, 1, 0xd0, 0x63, 0, 0, 0, 0, 0, 0, 0] :=
  ⟨C11_default_command_layout generic_env heat_middle_40 (by decide) (by decide), by decide⟩

/-- C12 as stated fails for the swing mode both under the default swing code
table: the code written to `frame[5]` is the placeholder 0xFF of line 55, whose
high nibble is not zero. -/
theorem C12_counterexample_placeholder_both :
    add_motion_command_data_ (setup Model.MODEL_OTHER (initial_globals generic_env))
        (swing_state CLIMATE_SWING_BOTH) (List.replicate TOSHIBA_FRAME_MAX_LENGTH 0) =
      some [0, 0, 1, 0, 0x21, 0xff, 0, 0, 0, 0, 0, 0, 0, 0] ∧
    ¬ ((0xff : Nat) ≤ 0x0f) := by
  refine ⟨by decide, by decide⟩

/-- C12, amended: layout of the motion command. For every model variant (the
swing code table as initialised, and the table after `setup` for `MODEL_2`)
and every swing mode, `add_motion_command_data_` applied to a zeroed buffer
returns and sets `frame[2] = 1`, `frame[4] = 0x21` and `frame[5]` to the swing
code of the model variant; that code is at most 0x0F, so the high nibble of
`frame[5]` is zero, except for the swing mode both under the table as
initialised, where it is the placeholder 0xFF; a swing mode that is none of
the four named ones gets the vertical code. -/
theorem C12_motion_command_layout (env : Env) (model : Model) (self : ToshibaClimate) :
    ∃ frame,
      add_motion_command_data_ (setup model (initial_globals env)) self
        (List.replicate TOSHIBA_FRAME_MAX_LENGTH 0) = some frame ∧
      frame[2]? = some 1 ∧ frame[4]? = some 0x21 ∧
      frame[5]? = some (motion_code model self.swing_mode) ∧
      (motion_code model self.swing_mode ≤ 0x0f ↔
        ¬ (model = Model.MODEL_OTHER ∧ self.swing_mode = CLIMATE_SWING_BOTH)) ∧
      motion_code model CLIMATE_SWING_UNNAMED = motion_code model CLIMATE_SWING_VERTICAL := by
  refine ⟨_, add_motion_command_data_zero _ self, rfl, rfl, ?_, ?_, ?_⟩
  · rw [swing_code_setup]
    rfl
  · cases model <;> cases self.swing_mode <;> decide
  · cases model <;> rfl

/-- C13 as stated fails for the swing mode both under the default swing code
table: the frame `F2 0D 01 FE 21 FF DE` is transmitted and `on_receive` returns
true on it, but the nibble 0x0F it reads is no swing code and the swing mode
and its snapshot are set to off. -/
theorem C13_counterexample_default_both :
    (((add_motion_command_data_ (setup Model.MODEL_OTHER (initial_globals generic_env))
        (swing_state CLIMATE_SWING_BOTH) (List.replicate TOSHIBA_FRAME_MAX_LENGTH 0)).bind
      (transmit_frame_ (setup Model.MODEL_OTHER (initial_globals generic_env)))).bind
      (fun sent => (on_receive (setup Model.MODEL_OTHER (initial_globals generic_env))
        receiver_off sent.2.data).map
          (fun res => (sent.1.take 7, res.returned, res.self.swing_mode,
            res.self.current_swing_mode_)))) =
      some ([0xf2, 0x0d, 0x01, 0xfe, 0x21, 0xff, 0xde], true, CLIMATE_SWING_OFF,
        CLIMATE_SWING_OFF) := by
  decide

/-- C13, amended: round trip of the motion command. For every model variant
(the swing code table as initialised, and the table after `setup` for
`MODEL_2`) and every swing mode in {off, vertical, horizontal, both}, the
motion command is built in a zeroed buffer, `transmit_frame_` transmits it, and
`on_receive` on the pulse train transmitted returns true and sets the swing
mode and its snapshot to the swing mode that was encoded, except for both
under the table as initialised, whose placeholder code 0xFF is received as
off. -/
theorem C13_motion_command_round_trip (env : Env) (hok : ReceiverOk env) (model : Model)
    (self r : ToshibaClimate)
    (hswing : self.swing_mode ∈ [CLIMATE_SWING_OFF, CLIMATE_SWING_VERTICAL,
      CLIMATE_SWING_HORIZONTAL, CLIMATE_SWING_BOTH]) :
    ∃ frame out transmit result,
      add_motion_command_data_ (setup model (initial_globals env)) self
        (List.replicate TOSHIBA_FRAME_MAX_LENGTH 0) = some frame ∧
      transmit_frame_ (setup model (initial_globals env)) frame = some (out, transmit) ∧
      on_receive (setup model (initial_globals env)) r transmit.data = some result ∧
      result.returned = true ∧
      result.self.swing_mode =
        (if model = Model.MODEL_OTHER ∧ self.swing_mode = CLIMATE_SWING_BOTH then CLIMATE_SWING_OFF
          else self.swing_mode) ∧
      result.self.current_swing_mode_ =
        (if model = Model.MODEL_OTHER ∧ self.swing_mode = CLIMATE_SWING_BOTH then CLIMATE_SWING_OFF
          else self.swing_mode) := by
  have hne : self.swing_mode ≠ CLIMATE_SWING_UNNAMED := by
    intro h; rw [h] at hswing; simp at hswing
  obtain ⟨frame, out, transmit, result, h1, h2, h3, h4, _, h6⟩ :=
    motion_command_round_trip (setup model (initial_globals env)) (receiverOk_setup env model hok)
      self r (by rw [swing_code_setup]; exact motion_code_lt model self.swing_mode)
  have hdec := swing_of_code_motion_code env model self.swing_mode hne
  rw [← swing_code_setup env] at hdec
  refine ⟨frame, out, transmit, result, h1, h2, h3, h4, ?_, ?_⟩
  · rw [h6]; exact hdec
  · rw [h6]; exact hdec

/-- C13, amended, for `MODEL_2` and the swing mode both: the code 0x01 is
received as both. -/
theorem C13_motion_command_round_trip_witness :
    ∃ frame out transmit result,
      add_motion_command_data_ (setup Model.MODEL_2 (initial_globals generic_env))
        (swing_state CLIMATE_SWING_BOTH) (List.replicate TOSHIBA_FRAME_MAX_LENGTH 0) =
          some frame ∧
      transmit_frame_ (setup Model.MODEL_2 (initial_globals generic_env)) frame =
        some (out, transmit) ∧
      on_receive (setup Model.MODEL_2 (initial_globals generic_env)) receiver_off transmit.data =
        some result ∧
      result.returned = true ∧
      result.self.swing_mode =
        (if Model.MODEL_2 = Model.MODEL_OTHER ∧
            (swing_state CLIMATE_SWING_BOTH).swing_mode = CLIMATE_SWING_BOTH then
          CLIMATE_SWING_OFF
        else (swing_state CLIMATE_SWING_BOTH).swing_mode) ∧
      result.self.current_swing_mode_ =
        (if Model.MODEL_2 = Model.MODEL_OTHER ∧
            (swing_state CLIMATE_SWING_BOTH).swing_mode = CLIMATE_SWING_BOTH then
          CLIMATE_SWING_OFF
        else (swing_state CLIMATE_SWING_BOTH).swing_mode) :=
  C13_motion_command_round_trip generic_env receiverOk_generic_env Model.MODEL_2
    (swing_state CLIMATE_SWING_BOTH) receiver_off (by decide)

/-- C15: frame selection of `transmit_state`. For every state the call returns
and the list of frames transmitted is: the default command frame if and only
if the desired mode, fan speed or target temperature truncated to eight bits
(the whole-degree target modulo 256) differs from the snapshot, followed by
the motion command frame if and only if the swing mode, taken after the
possible override to vertical (applied when a default frame was sent and the
snapshot mode was off), differs from the snapshot swing mode; so 0, 1 or 2
frames, the default frame first. -/
theorem C15_frame_selection (env : Env) (self : ToshibaClimate) :
    ∃ res, transmit_state env self = some res ∧
      res.transmitted =
        (if self.current_mode_ ≠ self.mode ∨ self.current_fan_mode_ ≠ self.fan_mode ∨
            self.current_temperature_ ≠ (self.target_temperature % 256).toNat then
          [wire_transmission (default_command_frame env self)]
        else []) ++
        (if self.current_swing_mode_ ≠
            (if (self.current_mode_ ≠ self.mode ∨ self.current_fan_mode_ ≠ self.fan_mode ∨
                self.current_temperature_ ≠ (self.target_temperature % 256).toNat) ∧
                self.current_mode_ = CLIMATE_MODE_OFF then CLIMATE_SWING_VERTICAL
              else self.swing_mode) then
          [wire_transmission (motion_command_frame env
            (if (self.current_mode_ ≠ self.mode ∨ self.current_fan_mode_ ≠ self.fan_mode ∨
                self.current_temperature_ ≠ (self.target_temperature % 256).toNat) ∧
                self.current_mode_ = CLIMATE_MODE_OFF then CLIMATE_SWING_VERTICAL
              else self.swing_mode))]
        else []) ∧
      res.transmitted.length ≤ 2 := by
  have hdc := default_changed_iff self
  have hsw := swing_after_eq self
  have htx : (if default_changed self then [wire_transmission (default_command_frame env self)]
        else []) ++
      (if self.current_swing_mode_ ≠ swing_after self then
        [wire_transmission (motion_command_frame env (swing_after self))] else []) =
      (if self.current_mode_ ≠ self.mode ∨ self.current_fan_mode_ ≠ self.fan_mode ∨
          self.current_temperature_ ≠ (self.target_temperature % 256).toNat then
        [wire_transmission (default_command_frame env self)]
      else []) ++
      (if self.current_swing_mode_ ≠ swing_after self then
        [wire_transmission (motion_command_frame env (swing_after self))] else []) := by
    by_cases hc : default_changed self = true
    · rw [if_pos hc, if_pos (hdc.mp hc)]
    · rw [if_neg hc, if_neg (fun h => hc (hdc.mpr h))]
  rw [hsw] at htx
  refine ⟨_, transmit_state_eq env self, ?_, ?_⟩
  · show (if default_changed self then [wire_transmission (default_command_frame env self)]
        else []) ++
      (if self.current_swing_mode_ ≠ swing_after self then
        [wire_transmission (motion_command_frame env (swing_after self))] else []) = _
    rw [hsw]
    exact htx
  · simp only [List.length_append]
    split <;> split <;> simp

/-- C15 where only the truncation to eight bits makes the temperatures agree:
the target 278 against the temperature snapshot 22, everything else equal to
the snapshot; no frame is transmitted. -/
theorem C15_frame_selection_witness :
    (transmit_state generic_env
      { mode := CLIMATE_MODE_COOL
        fan_mode := CLIMATE_FAN_HIGH
        target_temperature := 278
        swing_mode := CLIMATE_SWING_OFF
        current_mode_ := CLIMATE_MODE_COOL
        current_fan_mode_ := CLIMATE_FAN_HIGH
        current_temperature_ := 22
        current_swing_mode_ := CLIMATE_SWING_OFF }).map (fun res => res.transmitted) =
      some [] := by
  obtain ⟨res, h, htx, -⟩ := C15_frame_selection generic_env
    { mode := CLIMATE_MODE_COOL
      fan_mode := CLIMATE_FAN_HIGH
      target_temperature := 278
      swing_mode := CLIMATE_SWING_OFF
      current_mode_ := CLIMATE_MODE_COOL
      current_fan_mode_ := CLIMATE_FAN_HIGH
      current_temperature_ := 22
      current_swing_mode_ := CLIMATE_SWING_OFF }
  rw [h, Option.map_some', htx]
  rfl

/-- C16: snapshot postcondition. For every state, `transmit_state` returns and
afterwards the four snapshot fields equal the desired state: the mode, the fan
mode, the swing mode (its value after any override to vertical) and the target
temperature truncated to eight bits (the whole-degree target modulo 256),
whether or not a frame was sent. -/
theorem C16_snapshot_postcondition (env : Env) (self : ToshibaClimate) :
    ∃ res, transmit_state env self = some res ∧
      res.self.current_mode_ = res.self.mode ∧
      res.self.current_fan_mode_ = res.self.fan_mode ∧
      res.self.current_swing_mode_ = res.self.swing_mode ∧
      res.self.current_temperature_ = (res.self.target_temperature % 256).toNat ∧
      res.self.mode = self.mode ∧ res.self.fan_mode = self.fan_mode ∧
      res.self.target_temperature = self.target_temperature ∧
      res.self.current_temperature_ = (self.target_temperature % 256).toNat ∧
      res.self.swing_mode =
        (if (self.current_mode_ ≠ self.mode ∨ self.current_fan_mode_ ≠ self.fan_mode ∨
            self.current_temperature_ ≠ (self.target_temperature % 256).toNat) ∧
            self.current_mode_ = CLIMATE_MODE_OFF then CLIMATE_SWING_VERTICAL
          else self.swing_mode) :=
  ⟨_, transmit_state_eq env self, rfl, rfl, rfl, rfl, rfl, rfl, rfl, rfl, swing_after_eq self⟩

/-- C16 where the truncation to eight bits shows: after `transmit_state` with
the target 300 the temperature snapshot is 44, and the other three snapshot
fields are the desired mode, fan mode and swing mode. -/
theorem C16_snapshot_postcondition_witness :
    (transmit_state generic_env
      { mode := CLIMATE_MODE_COOL
        fan_mode := CLIMATE_FAN_HIGH
        target_temperature := 300
        swing_mode := CLIMATE_SWING_HORIZONTAL
        current_mode_ := CLIMATE_MODE_HEAT
        current_fan_mode_ := CLIMATE_FAN_AUTO
        current_temperature_ := 22
        current_swing_mode_ := CLIMATE_SWING_OFF }).map
      (fun res => (res.self.current_mode_, res.self.current_fan_mode_,
        res.self.current_swing_mode_, res.self.current_temperature_)) =
      some (CLIMATE_MODE_COOL, CLIMATE_FAN_HIGH, CLIMATE_SWING_HORIZONTAL, 44) := by
  obtain ⟨res, h, h1, h2, h3, -, h5, h6, -, h8, h9⟩ := C16_snapshot_postcondition generic_env
    { mode := CLIMATE_MODE_COOL
      fan_mode := CLIMATE_FAN_HIGH
      target_temperature := 300
      swing_mode := CLIMATE_SWING_HORIZONTAL
      current_mode_ := CLIMATE_MODE_HEAT
      current_fan_mode_ := CLIMATE_FAN_AUTO
      current_temperature_ := 22
      current_swing_mode_ := CLIMATE_SWING_OFF }
  rw [h, Option.map_some', h1, h2, h3, h5, h6, h8, h9]
  rfl

/-- C20: effect of `transmit_state` on the desired state. For every state the
call returns and never changes mode, fan mode or target temperature; it
changes the swing mode if and only if the snapshot mode is off, a default frame
is sent (mode, fan speed or the whole-degree target modulo 256 differs from
the snapshot) and
the swing mode is not vertical already, and then the swing mode becomes
vertical. `publish_state` is called once when the snapshot mode is off and a
default frame is sent, and not otherwise. -/
theorem C20_desired_state_effect (env : Env) (self : ToshibaClimate) :
    ∃ res, transmit_state env self = some res ∧
      res.self.mode = self.mode ∧ res.self.fan_mode = self.fan_mode ∧
      res.self.target_temperature = self.target_temperature ∧
      (res.self.swing_mode ≠ self.swing_mode ↔
        (self.current_mode_ = CLIMATE_MODE_OFF ∧
          (self.current_mode_ ≠ self.mode ∨ self.current_fan_mode_ ≠ self.fan_mode ∨
            self.current_temperature_ ≠ (self.target_temperature % 256).toNat) ∧
          self.swing_mode ≠ CLIMATE_SWING_VERTICAL)) ∧
      res.self.swing_mode =
        (if self.current_mode_ = CLIMATE_MODE_OFF ∧
            (self.current_mode_ ≠ self.mode ∨ self.current_fan_mode_ ≠ self.fan_mode ∨
              self.current_temperature_ ≠ (self.target_temperature % 256).toNat) then
          CLIMATE_SWING_VERTICAL
        else self.swing_mode) ∧
      res.published =
        (if self.current_mode_ = CLIMATE_MODE_OFF ∧
            (self.current_mode_ ≠ self.mode ∨ self.current_fan_mode_ ≠ self.fan_mode ∨
              self.current_temperature_ ≠ (self.target_temperature % 256).toNat) then 1
        else 0) := by
  have hdc := default_changed_iff self
  have hsw : swing_after self =
      (if self.current_mode_ = CLIMATE_MODE_OFF ∧
          (self.current_mode_ ≠ self.mode ∨ self.current_fan_mode_ ≠ self.fan_mode ∨
            self.current_temperature_ ≠ (self.target_temperature % 256).toNat) then
        CLIMATE_SWING_VERTICAL
      else self.swing_mode) := by
    by_cases hc : default_changed self = true
    · by_cases hoff : self.current_mode_ = CLIMATE_MODE_OFF
      · rw [if_pos ⟨hoff, hdc.mp hc⟩]; simp [swing_after, hc, hoff]
      · rw [if_neg (fun h => hoff h.1)]; simp [swing_after, hc, hoff]
    · have hc0 : default_changed self = false := by simpa using hc
      rw [if_neg (fun h => hc (hdc.mpr h.2))]; simp [swing_after, hc0]
  refine ⟨_, transmit_state_eq env self, rfl, rfl, rfl, ?_, hsw, ?_⟩
  · show swing_after self ≠ self.swing_mode ↔ _
    rw [hsw]
    constructor
    · intro h
      by_cases hcond : self.current_mode_ = CLIMATE_MODE_OFF ∧
          (self.current_mode_ ≠ self.mode ∨ self.current_fan_mode_ ≠ self.fan_mode ∨
            self.current_temperature_ ≠ (self.target_temperature % 256).toNat)
      · rw [if_pos hcond] at h
        exact ⟨hcond.1, hcond.2, fun hv => h hv.symm⟩
      · rw [if_neg hcond] at h
        exact absurd rfl h
    · rintro ⟨h1, h2, h3⟩
      rw [if_pos ⟨h1, h2⟩]
      exact fun hv => h3 hv.symm
  · show (if default_changed self && self.current_mode_ == CLIMATE_MODE_OFF then 1 else 0) = _
    by_cases hcond : self.current_mode_ = CLIMATE_MODE_OFF ∧
        (self.current_mode_ ≠ self.mode ∨ self.current_fan_mode_ ≠ self.fan_mode ∨
          self.current_temperature_ ≠ (self.target_temperature % 256).toNat)
    · rw [if_pos hcond, hdc.mpr hcond.2, hcond.1]
      rfl
    · rw [if_neg hcond]
      by_cases hc : default_changed self = true
      · have hoff : self.current_mode_ ≠ CLIMATE_MODE_OFF := fun h => hcond ⟨h, hdc.mp hc⟩
        simp [hc, hoff]
      · have hc0 : default_changed self = false := by simpa using hc
        simp [hc0]

/-- C20 in the two cases the claim singles out, for the generic model: when the
desired mode is still off and only the fan speed changed, the swing mode is
forced from off to vertical and published once; when only the swing mode
changed, it is kept and nothing is published. -/
theorem C20_desired_state_effect_witness :
    (transmit_state generic_env off_fan_changed).map
        (fun res => (res.self.swing_mode, res.published)) = some (CLIMATE_SWING_VERTICAL, 1) ∧
    (transmit_state generic_env off_swing_changed).map
        (fun res => (res.self.swing_mode, res.published)) = some (CLIMATE_SWING_HORIZONTAL, 0) := by
  obtain ⟨res1, h1, -, -, -, -, hs1, hp1⟩ := C20_desired_state_effect generic_env off_fan_changed
  obtain ⟨res2, h2, -, -, -, -, hs2, hp2⟩ := C20_desired_state_effect generic_env off_swing_changed
  rw [h1, h2, Option.map_some', Option.map_some', hs1, hp1, hs2, hp2]
  exact ⟨rfl, rfl⟩

/-- C17: effect of a successful decode. For every frame of `6 + d` bytes with
`d` at most 8 that passes both checksums, `on_receive` on its pulse encoding
returns true and calls `publish_state` once. With command 0x21 (motion) it
sets the swing mode and its snapshot from `frame[5] & 0x0F` (a code of no
swing mode gives off) and leaves every other field; with command 0x01
(default) it sets mode and its snapshot from `frame[6] & 0x0F`, fan mode and
its snapshot from `frame[6] & 0xF0` and the target temperature to
`(frame[5] >> 4) + TEMP_MIN`, and leaves the temperature snapshot, the swing
mode and its snapshot; with any other command it leaves every field. A byte
of the buffer past the end of the frame reads as 0, its initial value. -/
theorem C17_decode_effect (env : Env) (hok : ReceiverOk env) (r : ToshibaClimate)
    (bytes : List Nat) (d : Nat) (wf : WireFrame bytes d)
    (hv1 : validate_header bytes = true) (hv2 : validate_payload bytes = true) :
    ∃ res,
      on_receive env r (wire_transmission bytes).data = some res ∧
      res.returned = true ∧ res.published = 1 ∧
      res.self =
        if bytes[4]? = some 0x21 then
          { r with
            swing_mode := swing_of_code env (bytes.getD 5 0 &&& 0x0f)
            current_swing_mode_ := swing_of_code env (bytes.getD 5 0 &&& 0x0f) }
        else if bytes[4]? = some 0x01 then
          { r with
            mode := mode_of_code (bytes.getD 6 0 &&& 0x0f)
            current_mode_ := mode_of_code (bytes.getD 6 0 &&& 0x0f)
            fan_mode := fan_of_code (bytes.getD 6 0 &&& 0xf0)
            current_fan_mode_ := fan_of_code (bytes.getD 6 0 &&& 0xf0)
            target_temperature :=
              ((bytes.getD 5 0 >>> 4 : Nat) : Int) + (env.TOSHIBA_TEMP_MIN : Int) }
        else r := by
  have h := on_receive_valid env hok r bytes d wf hv1 hv2
  have hlen := wf.length_eq
  have hd8 := wf.le_max
  have hg : ∀ i, i ≤ 6 → (bytes ++ List.replicate (8 - d) 0)[i]? = some (bytes.getD i 0) :=
    fun i hi => getElem?_append_replicate_zero bytes (8 - d) i (by omega)
  have h4 : bytes[4]? = some (bytes.getD 4 0) := by
    rw [List.getD_eq_getElem _ _ (by omega), List.getElem?_eq_getElem (by omega)]
  by_cases hm : bytes.getD 4 0 = 0x21
  · rw [receive_command_motion env _ r (bytes.getD 5 0) (by rw [hg 4 (by omega), hm])
      (hg 5 (by omega)), Option.map_some'] at h
    refine ⟨_, h, rfl, rfl, ?_⟩
    rw [if_pos (by rw [h4, hm])]
  · by_cases hdf : bytes.getD 4 0 = 0x01
    · rw [receive_command_default env _ r (bytes.getD 5 0) (bytes.getD 6 0)
        (by rw [hg 4 (by omega), hdf]) (hg 5 (by omega)) (hg 6 (by omega)),
        Option.map_some'] at h
      refine ⟨_, h, rfl, rfl, ?_⟩
      rw [if_neg (by rw [h4]; intro hc; exact hm (Option.some.inj hc)),
        if_pos (by rw [h4, hdf])]
    · rw [receive_command_other env _ r (bytes.getD 4 0) (hg 4 (by omega)) hm hdf,
        Option.map_some'] at h
      refine ⟨_, h, rfl, rfl, ?_⟩
      rw [if_neg (by rw [h4]; intro hc; exact hm (Option.some.inj hc)),
        if_neg (by rw [h4]; intro hc; exact hdf (Option.some.inj hc))]

/-- C17 at the default command frame `F2 0D 03 FC 01 50 C1 00 90`: the
receiving object becomes (cool, high, 22) and keeps its swing mode and its
temperature snapshot. -/
theorem C17_decode_effect_witness :
    ∃ res,
      on_receive generic_env receiver_off
        (wire_transmission [0xf2, 0x0d, 0x03, 0xfc, 0x01, 0x50, 0xc1, 0x00, 0x90]).data =
          some res ∧
      res.returned = true ∧ res.published = 1 ∧
      res.self =
        { mode := CLIMATE_MODE_COOL
          fan_mode := CLIMATE_FAN_HIGH
          target_temperature := 22
          swing_mode := CLIMATE_SWING_OFF
          current_mode_ := CLIMATE_MODE_COOL
          current_fan_mode_ := CLIMATE_FAN_HIGH
          current_temperature_ := 17
          current_swing_mode_ := CLIMATE_SWING_OFF } :=
  C17_decode_effect generic_env receiverOk_generic_env receiver_off
    [0xf2, 0x0d, 0x03, 0xfc, 0x01, 0x50, 0xc1, 0x00, 0x90] 3
    ⟨by decide, by decide, by decide, by decide⟩ (by decide) (by decide)

/-- C18: the decoder does not compare bytes 0 and 1 with the header `F2 0D`. For
all bytes `b0`, `b1`, every data length `d` at most 8, every command byte and
payload of `d` bytes, `on_receive` on the pulse encoding of
`[b0, b1, d, b0 xor b1 xor d, command, payload..., checksum_2]` returns true,
as it does for the frame with the header `F2 0D` and the same remaining
fields, and leaves the object in the same state with the same number of
`publish_state` calls. -/
theorem C18_header_bytes_not_checked (env : Env) (hok : ReceiverOk env) (r : ToshibaClimate)
    (b0 b1 d command : Nat) (payload : List Nat) (hb0 : b0 < 256) (hb1 : b1 < 256)
    (hd8 : d ≤ 8) (hc : command < 256) (hlen : payload.length = d)
    (hp : ∀ b ∈ payload, b < 256) :
    ∃ res res',
      on_receive env r (wire_transmission (frame_of b0 b1 d command payload)).data = some res ∧
      on_receive env r (wire_transmission (frame_of 0xf2 0x0d d command payload)).data =
        some res' ∧
      res.returned = true ∧ res'.returned = true ∧
      res.self = res'.self ∧ res.published = res'.published := by
  have h := on_receive_valid env hok r _ d
    (wireFrame_frame_of b0 b1 d command payload hb0 hb1 hd8 hc hlen hp)
    (validate_header_frame_of b0 b1 d command payload)
    (validate_payload_frame_of b0 b1 d command payload hlen)
  have h' := on_receive_valid env hok r _ d
    (wireFrame_frame_of 0xf2 0x0d d command payload (by omega) (by omega) hd8 hc hlen hp)
    (validate_header_frame_of 0xf2 0x0d d command payload)
    (validate_payload_frame_of 0xf2 0x0d d command payload hlen)
  rw [receive_command_congr env _ (frame_of 0xf2 0x0d d command payload ++
      List.replicate (8 - d) 0) r
    (getElem?_frame_of b0 b1 0xf2 0x0d d command payload _ 4 (by omega))
    (getElem?_frame_of b0 b1 0xf2 0x0d d command payload _ 5 (by omega))
    (getElem?_frame_of b0 b1 0xf2 0x0d d command payload _ 6 (by omega))] at h
  have hwf := wireFrame_frame_of 0xf2 0x0d d command payload (by omega) (by omega) hd8 hc hlen hp
  have hsome : ∃ s, receive_command env
      (frame_of 0xf2 0x0d d command payload ++ List.replicate (8 - d) 0) r = some s := by
    have hg : ∀ i, i ≤ 6 →
        (frame_of 0xf2 0x0d d command payload ++ List.replicate (8 - d) 0)[i]? =
          some ((frame_of 0xf2 0x0d d command payload).getD i 0) :=
      fun i hi => getElem?_append_replicate_zero _ (8 - d) i (by rw [hwf.length_eq]; omega)
    by_cases hm : (frame_of 0xf2 0x0d d command payload).getD 4 0 = 0x21
    · exact ⟨_, receive_command_motion env _ r _ (by rw [hg 4 (by omega), hm]) (hg 5 (by omega))⟩
    · by_cases hdf : (frame_of 0xf2 0x0d d command payload).getD 4 0 = 0x01
      · exact ⟨_, receive_command_default env _ r _ _ (by rw [hg 4 (by omega), hdf])
          (hg 5 (by omega)) (hg 6 (by omega))⟩
      · exact ⟨_, receive_command_other env _ r _ (hg 4 (by omega)) hm hdf⟩
  obtain ⟨s, hs⟩ := hsome
  rw [hs, Option.map_some'] at h h'
  exact ⟨_, _, h, h', rfl, rfl, rfl, rfl⟩

/-- C18 at the header `12 34` with the motion command of the generic model for
swing vertical: `12 34 01 27 21 01 20` is accepted like
`F2 0D 01 FE 21 01 20`. -/
theorem C18_header_bytes_not_checked_witness :
    ∃ res res',
      on_receive generic_env receiver_off
        (wire_transmission (frame_of 0x12 0x34 1 0x21 [0x01])).data = some res ∧
      on_receive generic_env receiver_off
        (wire_transmission (frame_of 0xf2 0x0d 1 0x21 [0x01])).data = some res' ∧
      res.returned = true ∧ res'.returned = true ∧
      res.self = res'.self ∧ res.published = res'.published :=
  C18_header_bytes_not_checked generic_env receiverOk_generic_env receiver_off 0x12 0x34 1 0x21
    [0x01] (by decide) (by decide) (by decide) (by decide) (by decide) (by decide)

/-- C19 as stated fails when the decoded temperature is above
`TOSHIBA_TEMP_MAX`: from the state that is off with an equal snapshot, the
default command frame `F2 0D 03 FC 01 F0 01 00 F0` (cool, auto, nibble 15) is
received as 32 degrees, which differs from the temperature snapshot 17, and the
next `transmit_state` transmits the default command frame
`F2 0D 03 FC 01 D0 01 00 D0`, which encodes 30 degrees, not 32. -/
theorem C19_counterexample_above_range :
    (on_receive generic_env receiver_off
        (wire_transmission [0xf2, 0x0d, 0x03, 0xfc, 0x01, 0xf0, 0x01, 0x00, 0xf0]).data).bind
      (fun res => (transmit_state generic_env res.self).map
        (fun sent => (res.returned, res.self.target_temperature, sent.transmitted))) =
      some (true, 32,
        [wire_transmission [0xf2, 0x0d, 0x03, 0xfc, 0x01, 0xd0, 0x01, 0x00, 0xd0]]) := by
  rfl

/-- C19, amended: a received default frame is echoed on the next transmit cycle
when its temperature is new. For every state, whether or not its snapshot
equals the desired state, and every checksum-valid default command frame whose
decoded temperature `(frame[5] >> 4) + TEMP_MIN` differs from
`current_temperature_`, `on_receive` on that frame returns true and the
following `transmit_state` transmits, first, a default command frame: it
encodes the decoded mode and fan speed, and as temperature the decoded
temperature clamped to the range from `TOSHIBA_TEMP_MIN` to `TOSHIBA_TEMP_MAX`,
or 22 when the decoded mode is fan-only. The constant `TOSHIBA_TEMP_MIN` is a
byte that leaves room for the sixteen temperatures. -/
theorem C19_received_default_frame_echoed (env : Env) (hok : ReceiverOk env)
    (r : ToshibaClimate) (bytes : List Nat) (d : Nat) (wf : WireFrame bytes d)
    (hv1 : validate_header bytes = true) (hv2 : validate_payload bytes = true)
    (hcmd : bytes[4]? = some 0x01) (hmin : env.TOSHIBA_TEMP_MIN + 15 ≤ 255)
    (hnew : bytes.getD 5 0 >>> 4 + env.TOSHIBA_TEMP_MIN ≠ r.current_temperature_) :
    ∃ res sent rest,
      on_receive env r (wire_transmission bytes).data = some res ∧ res.returned = true ∧
      res.self.mode = mode_of_code (bytes.getD 6 0 &&& 0x0f) ∧
      res.self.fan_mode = fan_of_code (bytes.getD 6 0 &&& 0xf0) ∧
      res.self.target_temperature =
        ((bytes.getD 5 0 >>> 4 : Nat) : Int) + (env.TOSHIBA_TEMP_MIN : Int) ∧
      transmit_state env res.self = some sent ∧
      sent.transmitted =
        wire_transmission
          [0xf2, 0x0d, 0x03, 0xfc, 0x01, temperature_byte env res.self,
            mode_code res.self.mode ||| fan_code res.self.fan_mode, 0x00,
            0x01 ^^^ temperature_byte env res.self ^^^
              (mode_code res.self.mode ||| fan_code res.self.fan_mode)] :: rest ∧
      mode_of_code ((mode_code res.self.mode ||| fan_code res.self.fan_mode) &&& 0x0f) =
        res.self.mode ∧
      fan_of_code ((mode_code res.self.mode ||| fan_code res.self.fan_mode) &&& 0xf0) =
        res.self.fan_mode ∧
      temperature_byte env res.self =
        ((((if res.self.mode = CLIMATE_MODE_FAN_ONLY then 22
            else clamp res.self.target_temperature env.TOSHIBA_TEMP_MIN
              env.TOSHIBA_TEMP_MAX) - (env.TOSHIBA_TEMP_MIN : Int)) * 16) % 256).toNat := by
  have h := on_receive_valid env hok r bytes d wf hv1 hv2
  have hlen := wf.length_eq
  have hd8 := wf.le_max
  have hg : ∀ i, i ≤ 6 → (bytes ++ List.replicate (8 - d) 0)[i]? = some (bytes.getD i 0) :=
    fun i hi => getElem?_append_replicate_zero bytes (8 - d) i (by omega)
  have h4 : bytes[4]? = some (bytes.getD 4 0) := by
    rw [List.getD_eq_getElem _ _ (by omega), List.getElem?_eq_getElem (by omega)]
  have hdf : bytes.getD 4 0 = 0x01 := by
    rw [h4] at hcmd
    exact Option.some.inj hcmd
  rw [receive_command_default env _ r (bytes.getD 5 0) (bytes.getD 6 0)
    (by rw [hg 4 (by omega), hdf]) (hg 5 (by omega)) (hg 6 (by omega)), Option.map_some'] at h
  have h5 := shiftRight_4_le _ (getD_lt bytes 5 wf.byte_lt)
  have hchanged : default_changed
      { r with
        mode := mode_of_code (bytes.getD 6 0 &&& 0x0f)
        current_mode_ := mode_of_code (bytes.getD 6 0 &&& 0x0f)
        fan_mode := fan_of_code (bytes.getD 6 0 &&& 0xf0)
        current_fan_mode_ := fan_of_code (bytes.getD 6 0 &&& 0xf0)
        target_temperature :=
          ((bytes.getD 5 0 >>> 4 : Nat) : Int) + (env.TOSHIBA_TEMP_MIN : Int) } = true := by
    rw [default_changed_iff]
    right; right
    dsimp only
    omega
  refine ⟨_, _,
    (if r.current_swing_mode_ ≠ swing_after
        { r with
          mode := mode_of_code (bytes.getD 6 0 &&& 0x0f)
          current_mode_ := mode_of_code (bytes.getD 6 0 &&& 0x0f)
          fan_mode := fan_of_code (bytes.getD 6 0 &&& 0xf0)
          current_fan_mode_ := fan_of_code (bytes.getD 6 0 &&& 0xf0)
          target_temperature :=
            ((bytes.getD 5 0 >>> 4 : Nat) : Int) + (env.TOSHIBA_TEMP_MIN : Int) } then
      [wire_transmission (motion_command_frame env (swing_after
        { r with
          mode := mode_of_code (bytes.getD 6 0 &&& 0x0f)
          current_mode_ := mode_of_code (bytes.getD 6 0 &&& 0x0f)
          fan_mode := fan_of_code (bytes.getD 6 0 &&& 0xf0)
          current_fan_mode_ := fan_of_code (bytes.getD 6 0 &&& 0xf0)
          target_temperature :=
            ((bytes.getD 5 0 >>> 4 : Nat) : Int) + (env.TOSHIBA_TEMP_MIN : Int) }))]
    else []),
    h, rfl, rfl, rfl, rfl, transmit_state_eq env _, ?_,
    mode_of_code_mode_code _ _ (mode_of_code_ne_heat_cool _),
    fan_of_code_fan_code _ _ (fan_of_code_mem _), rfl⟩
  simp only [hchanged, if_true, List.singleton_append, default_command_frame]

/-- C19, amended, for the generic model at the frame
`F2 0D 03 FC 01 50 C1 00 90` (cool, high, 22) received by an object that is off
with the temperature snapshot 17. -/
theorem C19_received_default_frame_echoed_witness :
    ∃ res sent rest,
      on_receive generic_env receiver_off
        (wire_transmission [0xf2, 0x0d, 0x03, 0xfc, 0x01, 0x50, 0xc1, 0x00, 0x90]).data =
          some res ∧
      res.returned = true ∧
      res.self.mode = CLIMATE_MODE_COOL ∧
      res.self.fan_mode = CLIMATE_FAN_HIGH ∧
      res.self.target_temperature = 22 ∧
      transmit_state generic_env res.self = some sent ∧
      sent.transmitted =
        wire_transmission
          [0xf2, 0x0d, 0x03, 0xfc, 0x01, temperature_byte generic_env res.self,
            mode_code res.self.mode ||| fan_code res.self.fan_mode, 0x00,
            0x01 ^^^ temperature_byte generic_env res.self ^^^
              (mode_code res.self.mode ||| fan_code res.self.fan_mode)] :: rest ∧
      mode_of_code ((mode_code res.self.mode ||| fan_code res.self.fan_mode) &&& 0x0f) =
        res.self.mode ∧
      fan_of_code ((mode_code res.self.mode ||| fan_code res.self.fan_mode) &&& 0xf0) =
        res.self.fan_mode ∧
      temperature_byte generic_env res.self =
        ((((if res.self.mode = CLIMATE_MODE_FAN_ONLY then 22
            else clamp res.self.target_temperature generic_env.TOSHIBA_TEMP_MIN
              generic_env.TOSHIBA_TEMP_MAX) - (generic_env.TOSHIBA_TEMP_MIN : Int)) * 16) %
                256).toNat :=
  C19_received_default_frame_echoed generic_env receiverOk_generic_env receiver_off
    [0xf2, 0x0d, 0x03, 0xfc, 0x01, 0x50, 0xc1, 0x00, 0x90] 3
    ⟨by decide, by decide, by decide, by decide⟩ (by decide) (by decide) (by decide) (by decide)
    (by decide)

/-- C14: decode atomicity. For every captured pulse sequence that declares a
data length of at most 8 whenever its header checksum passes, and every prior
state, `on_receive` returns, and if it returns false (the header pair is
missing, a bit is neither a one nor a zero, the capture ends early, or the
first or the second checksum does not match) then every field of the object,
outward state and snapshot, has its value from before the call and
`publish_state` was not called. No assumption on the receiver is needed. -/
theorem C14_decode_atomicity (env : Env) (r : ToshibaClimate) (data : List Pulse)
    (h : declares_at_most_8 env data = true) :
    ∃ res, on_receive env r data = some res ∧
      (res.returned = false → res.self = r ∧ res.published = 0) :=
  on_receive_atomic env r data h

/-- C14 at the capture of `F2 0D 03 FC 01 50 C1 00 91`, whose last byte is not
the second checksum: `on_receive` returns false at the second checksum and the
object is unchanged. -/
theorem C14_decode_atomicity_witness :
    (∃ res,
      on_receive generic_env cool_high_22
        (wire_repetition [0xf2, 0x0d, 0x03, 0xfc, 0x01, 0x50, 0xc1, 0x00, 0x91]) = some res ∧
      (res.returned = false → res.self = cool_high_22 ∧ res.published = 0)) ∧
    (on_receive generic_env cool_high_22
        (wire_repetition [0xf2, 0x0d, 0x03, 0xfc, 0x01, 0x50, 0xc1, 0x00, 0x91])).map
      (fun res => (res.returned, res.site, res.self, res.published)) =
      some (false, ReturnSite.checksum_2_mismatch, cool_high_22, 0) :=
  ⟨C14_decode_atomicity generic_env cool_high_22
    (wire_repetition [0xf2, 0x0d, 0x03, 0xfc, 0x01, 0x50, 0xc1, 0x00, 0x91]) (by decide),
    by decide⟩

end Toshiba
